import Mathlib

/-!
# lifecycle-agent: admission rules of ImageBasedUpgrade and the cluster configuration gatherer

Part 1 embeds `api/v1alpha1/types.go`: the resource as the validation rules see it, the four
update-time `XValidation` rules and the enum on `spec.stage`.

Part 2 embeds `internal/clusterconfig/clusterconfig.go`: every call that leaves the process
(API reads, file reads, file writes) is answered by an explicit environment and recorded, in
order, in a trace. For what repeated runs leave on disk the same functions are embedded a
second time, as computations on the file system they write to (`OnDisk`).

Part 3 embeds `ib-cli/installationiso/installationiso.go`: the rendering of the butane
configuration and the download of the live ISO.
-/

namespace LCA

/-! ## Part 1: api/v1alpha1/types.go -/

/-- PullSecretRef: reference to a secret with credentials for pulling container images. -/
structure PullSecretRef where
  name : String
deriving DecidableEq, Repr

/-- SeedImageRef: the seed image and OCP version for the upgrade (every field is omitempty). -/
structure SeedImageRef where
  version : Option String := none
  image : Option String := none
  pullSecretRef : Option PullSecretRef := none
deriving DecidableEq, Repr

/-- ConfigMapRef: reference to a config map (both fields required). -/
structure ConfigMapRef where
  name : String
  namespace_ : String
deriving DecidableEq, Repr

/-- AutoRollbackOnFailure: per-phase rollback suppression flags and the watchdog timeout. -/
structure AutoRollbackOnFailure where
  disabledForPostRebootConfig : Option Bool := none
  disabledForUpgradeCompletion : Option Bool := none
  disabledInitMonitor : Option Bool := none
  initMonitorTimeoutSeconds : Option Int := none
deriving DecidableEq, Repr

/-- ImageBasedUpgradeSpec as stored: a field tagged omitempty may be absent, which is what
the rules test with `has(...)`. -/
structure ImageBasedUpgradeSpec where
  stage : Option String := none
  seedImageRef : Option SeedImageRef := none
  additionalImages : Option ConfigMapRef := none
  oadpContent : Option (List ConfigMapRef) := none
  extraManifests : Option (List ConfigMapRef) := none
  autoRollbackOnFailure : Option AutoRollbackOnFailure := none
deriving DecidableEq, Repr

/-- Condition: one entry of `status.conditions` (metav1.Condition). -/
structure Condition where
  type : String
  status : String
  reason : String := ""
  message : String := ""
deriving DecidableEq, Repr

/-- ImageBasedUpgradeStatus: the observed state. An absent `conditions` is the empty list:
the rules read `conditions` only under `has(oldSelf.status)`, and a rule whose `exists`
finds nothing to inspect admits exactly when one of its field disjuncts holds. -/
structure ImageBasedUpgradeStatus where
  observedGeneration : Option Int := none
  conditions : List Condition := []
deriving DecidableEq, Repr

/-- ImageBasedUpgrade: the resource the rules are attached to. `status` may be absent, which
the rules test with `has(oldSelf.status)`; `spec` is read by the rules without a presence
test and is part of every resource here. -/
structure ImageBasedUpgrade where
  spec : ImageBasedUpgradeSpec := {}
  status : Option ImageBasedUpgradeStatus := none
deriving DecidableEq, Repr

/-- Stages.Idle -/
def Stages.Idle : String := "Idle"
/-- Stages.Prep -/
def Stages.Prep : String := "Prep"
/-- Stages.Upgrade -/
def Stages.Upgrade : String := "Upgrade"
/-- Stages.Rollback -/
def Stages.Rollback : String := "Rollback"

/-- The values of `+kubebuilder:validation:Enum=Idle;Prep;Upgrade;Rollback` on `spec.stage`. -/
def stageEnum : List String := ["Idle", "Prep", "Upgrade", "Rollback"]

/-- Enum validation of `spec.stage`: an absent stage is not checked, a present one must be
one of the enum values. The marker does not mention the previous object. -/
def stageAdmitted (stage : Option String) : Bool :=
  match stage with
  | none => true
  | some s => stageEnum.contains s

/-- The CEL sub-expression `oldSelf.status.conditions.exists(c, c.type=='Idle' && c.status=='True')`,
read under `has(oldSelf.status)`. -/
def idleTrueExists (oldSelf : ImageBasedUpgrade) : Bool :=
  match oldSelf.status with
  | none => false
  | some st => st.conditions.any (fun c => c.type == "Idle" && c.status == "True")

/-- The common shape of the four rules, for the field selected by `f`:
`!has(oldSelf.status) || oldSelf.status.conditions.exists(...) ||
 has(oldSelf.spec.f) && has(self.spec.f) && oldSelf.spec.f==self.spec.f ||
 !has(self.spec.f) && !has(oldSelf.spec.f)`. -/
def immutableRule {α : Type} [DecidableEq α] (f : ImageBasedUpgradeSpec → Option α)
    (oldSelf self : ImageBasedUpgrade) : Bool :=
  !oldSelf.status.isSome || idleTrueExists oldSelf ||
    ((f oldSelf.spec).isSome && (f self.spec).isSome && decide (f oldSelf.spec = f self.spec)) ||
    (!(f self.spec).isSome && !(f oldSelf.spec).isSome)

/-- Rule on line 31: spec.seedImageRef. -/
def ruleSeedImageRef : ImageBasedUpgrade → ImageBasedUpgrade → Bool :=
  immutableRule (fun s => s.seedImageRef)

/-- Rule on line 32: spec.oadpContent. -/
def ruleOadpContent : ImageBasedUpgrade → ImageBasedUpgrade → Bool :=
  immutableRule (fun s => s.oadpContent)

/-- Rule on line 33: spec.extraManifests. -/
def ruleExtraManifests : ImageBasedUpgrade → ImageBasedUpgrade → Bool :=
  immutableRule (fun s => s.extraManifests)

/-- Rule on line 34: spec.autoRollbackOnFailure. -/
def ruleAutoRollbackOnFailure : ImageBasedUpgrade → ImageBasedUpgrade → Bool :=
  immutableRule (fun s => s.autoRollbackOnFailure)

/-- XValidation: one `+kubebuilder:validation:XValidation` marker. -/
structure XValidation where
  message : String
  rule : ImageBasedUpgrade → ImageBasedUpgrade → Bool

/-- The four markers on ImageBasedUpgrade, in source order. -/
def xValidations : List XValidation :=
  [ ⟨"can not change spec.seedImageRef while ibu is in progress", ruleSeedImageRef⟩,
    ⟨"can not change spec.oadpContent while ibu is in progress", ruleOadpContent⟩,
    ⟨"can not change spec.extraManifests while ibu is in progress", ruleExtraManifests⟩,
    ⟨"can not change spec.autoRollbackOnFailure while ibu is in progress",
      ruleAutoRollbackOnFailure⟩ ]

/-- Messages of the rules that do not evaluate to true on the update `oldSelf ↦ self`. -/
def validateUpdate (oldSelf self : ImageBasedUpgrade) : List String :=
  (xValidations.filter (fun v => !v.rule oldSelf self)).map (fun v => v.message)

/-- The update-time rules reject the update when at least one of them fails. -/
def updateRejected (oldSelf self : ImageBasedUpgrade) : Bool :=
  !(validateUpdate oldSelf self).isEmpty

/-! ### Vocabulary of the claims about the rules -/

/-- The last condition of the given type, scanning from the end of the list. -/
def latestCondition (conds : List Condition) (t : String) : Option Condition :=
  conds.reverse.find? (fun c => c.type == t)

/-- All conditions of a resource (none when it has no status). -/
def conditionsOf (o : ImageBasedUpgrade) : List Condition :=
  match o.status with
  | none => []
  | some st => st.conditions

/-- The latest condition of type Idle is not True; this includes having no Idle condition. -/
def latestIdleNotTrue (o : ImageBasedUpgrade) : Bool :=
  match latestCondition (conditionsOf o) "Idle" with
  | none => true
  | some c => c.status != "True"

/-- The update changes one of the four guarded fields (changed value, added or removed). -/
def changesGuardedField (oldSelf self : ImageBasedUpgrade) : Bool :=
  decide (oldSelf.spec.seedImageRef ≠ self.spec.seedImageRef) ||
  decide (oldSelf.spec.oadpContent ≠ self.spec.oadpContent) ||
  decide (oldSelf.spec.extraManifests ≠ self.spec.extraManifests) ||
  decide (oldSelf.spec.autoRollbackOnFailure ≠ self.spec.autoRollbackOnFailure)

/-- The stage edges the specification lists. -/
def specStageEdges : List (String × String) :=
  [ ("Idle", "Prep"), ("Prep", "Upgrade"), ("Upgrade", "Idle"),
    ("Prep", "Rollback"), ("Upgrade", "Rollback"), ("Rollback", "Idle") ]

/-- Modelled from the spec: the states of the stage transition state machine (section 4.1).
The controller that runs the state machine is outside these sources. -/
inductive Stage where
  | Idle
  | Prep
  | Upgrade
  | Rollback
deriving DecidableEq, Repr

/-- The state a value of `spec.stage` names, by the constants of `Stages`; none for a value
outside the enum. -/
def Stage.ofString? (s : String) : Option Stage :=
  if s = Stages.Idle then some .Idle
  else if s = Stages.Prep then some .Prep
  else if s = Stages.Upgrade then some .Upgrade
  else if s = Stages.Rollback then some .Rollback
  else none

/-- Modelled from the spec: the valid edges of section 4.1, read by requested stage: Prep
from Idle, Upgrade from Prep, Idle from Upgrade (on success) or from Rollback (on
completion), Rollback from any non-Idle state (on failure or explicit request). The
controller that holds this check is outside these sources. -/
def validEdge (current requested : Stage) : Bool :=
  match requested with
  | .Prep => current == .Idle
  | .Upgrade => current == .Prep
  | .Idle => current == .Upgrade || current == .Rollback
  | .Rollback => current != .Idle

/-- Modelled from the spec: the verdict of the state machine on a request (section 4.1),
the controller being outside these sources. The request `oldSelf ↦ self` is rejected if the
immutability invariant is violated (the update rules of types.go), or if the requested stage
is not a valid edge from the current stage; it is accepted otherwise. `current` is the stage
the controller observes. The condition that reports a rejection is not part of the verdict. -/
def stageChangeAccepted (current : String) (oldSelf self : ImageBasedUpgrade) : Bool :=
  !updateRejected oldSelf self &&
    match Stage.ofString? current, self.spec.stage.bind Stage.ofString? with
    | some c, some r => validEdge c r
    | _, _ => false

/-! ## Part 2: internal/clusterconfig/clusterconfig.go -/

/-! ### Go values the gatherer handles -/

/-- Go error values as the gatherer tells them apart: an API not-found status error, any
other error, and `fmt.Errorf("msg: %w", cause)`. -/
inductive GoError where
  | notFound (msg : String)
  | other (msg : String)
  | wrapped (msg : String) (cause : GoError)
deriving DecidableEq, Repr

/-- apierrors.IsNotFound: looks through the `%w` chain for a not-found status error. -/
def GoError.isNotFound : GoError → Bool
  | .notFound _ => true
  | .other _ => false
  | .wrapped _ cause => cause.isNotFound

/-- client.IgnoreNotFound: nil on a not-found error, the error itself otherwise. -/
def IgnoreNotFound (err : GoError) : Option GoError :=
  if err.isNotFound then none else some err

/-- metav1.TypeMeta -/
structure TypeMeta where
  kind : String := ""
  apiVersion : String := ""
deriving DecidableEq, Repr

/-- metav1.ObjectMeta, every field; the zero value is the default. -/
structure ObjectMeta where
  name : String := ""
  generateName : String := ""
  namespace_ : String := ""
  selfLink : String := ""
  uid : String := ""
  resourceVersion : String := ""
  generation : Int := 0
  creationTimestamp : String := ""
  deletionTimestamp : Option String := none
  deletionGracePeriodSeconds : Option Int := none
  labels : List (String × String) := []
  annotations : List (String × String) := []
  ownerReferences : List String := []
  finalizers : List String := []
  managedFields : List String := []
deriving DecidableEq, Repr

/-- metav1.ListMeta -/
structure ListMeta where
  selfLink : String := ""
  resourceVersion : String := ""
  continue_ : String := ""
  remainingItemCount : Option Int := none
deriving DecidableEq, Repr

/-- configv1.ProxySpec -/
structure ProxySpec where
  httpProxy : String := ""
  httpsProxy : String := ""
  noProxy : String := ""
  readinessEndpoints : List String := []
  trustedCA : String := ""
deriving DecidableEq, Repr

/-- configv1.ProxyStatus -/
structure ProxyStatus where
  httpProxy : String := ""
  httpsProxy : String := ""
  noProxy : String := ""
deriving DecidableEq, Repr

/-- configv1.Proxy -/
structure Proxy where
  typeMeta : TypeMeta := {}
  objectMeta : ObjectMeta := {}
  spec : ProxySpec := {}
  status : ProxyStatus := {}
deriving DecidableEq, Repr

/-- configv1.ImageDigestMirrors -/
structure ImageDigestMirrors where
  source : String := ""
  mirrors : List String := []
  mirrorSourcePolicy : String := ""
deriving DecidableEq, Repr

/-- configv1.ImageDigestMirrorSetSpec -/
structure ImageDigestMirrorSetSpec where
  imageDigestMirrors : List ImageDigestMirrors := []
deriving DecidableEq, Repr

/-- configv1.ImageDigestMirrorSet (its status is an empty struct). -/
structure ImageDigestMirrorSet where
  typeMeta : TypeMeta := {}
  objectMeta : ObjectMeta := {}
  spec : ImageDigestMirrorSetSpec := {}
deriving DecidableEq, Repr

/-- configv1.ImageDigestMirrorSetList -/
structure ImageDigestMirrorSetList where
  typeMeta : TypeMeta := {}
  listMeta : ListMeta := {}
  items : List ImageDigestMirrorSet := []
deriving DecidableEq, Repr

/-- operatorv1alpha1.RepositoryDigestMirrors -/
structure RepositoryDigestMirrors where
  source : String := ""
  mirrors : List String := []
deriving DecidableEq, Repr

/-- operatorv1alpha1.ImageContentSourcePolicySpec -/
structure ImageContentSourcePolicySpec where
  repositoryDigestMirrors : List RepositoryDigestMirrors := []
deriving DecidableEq, Repr

/-- operatorv1alpha1.ImageContentSourcePolicy -/
structure ImageContentSourcePolicy where
  typeMeta : TypeMeta := {}
  objectMeta : ObjectMeta := {}
  spec : ImageContentSourcePolicySpec := {}
deriving DecidableEq, Repr

/-- operatorv1alpha1.ImageContentSourcePolicyList -/
structure ImageContentSourcePolicyList where
  typeMeta : TypeMeta := {}
  listMeta : ListMeta := {}
  items : List ImageContentSourcePolicy := []
deriving DecidableEq, Repr

/-- corev1.ConfigMap -/
structure ConfigMap where
  typeMeta : TypeMeta := {}
  objectMeta : ObjectMeta := {}
  immutable : Option Bool := none
  data : List (String × String) := []
  binaryData : List (String × String) := []
deriving DecidableEq, Repr

/-- Modelled from the spec: utils.ClusterInfo is declared outside these sources; its fields
are the cluster facts the sources read from it. -/
structure ClusterInfo where
  OCPVersion : String := ""
  BaseDomain : String := ""
  ClusterName : String := ""
  ClusterID : String := ""
  NodeIP : String := ""
  ReleaseRegistry : String := ""
  Hostname : String := ""
  MirrorRegistryConfigured : Bool := false
deriving DecidableEq, Repr

/-- Modelled from the spec: seedreconfig.KubeConfigCryptoRetention is declared outside these
sources; the gatherer carries it through unchanged, so only its identity matters. -/
structure KubeConfigCryptoRetention where
  material : String := ""
deriving DecidableEq, Repr

/-- Modelled from the spec: seedreconfig.SeedReconfiguration (the Seed Identity Descriptor)
is declared outside these sources; the fields are those of section 3 of the spec, which are
the ones the struct literal in SeedReconfigurationFromClusterInfo sets. -/
structure SeedReconfiguration where
  APIVersion : Nat := 0
  BaseDomain : String := ""
  ClusterName : String := ""
  ClusterID : String := ""
  InfraID : String := ""
  NodeIP : String := ""
  ReleaseRegistry : String := ""
  Hostname : String := ""
  KubeconfigCryptoRetention : KubeConfigCryptoRetention := {}
  SSHKey : String := ""
  PullSecret : String := ""
  KubeadminPasswordHash : String := ""
deriving DecidableEq, Repr

/-- The Go types handed to `Scheme.ObjectKinds` and to the client. -/
inductive GoType where
  | Proxy
  | ImageDigestMirrorSet
  | ImageDigestMirrorSetList
  | ImageContentSourcePolicy
  | ImageContentSourcePolicyList
  | ConfigMap
deriving DecidableEq, Repr

/-- schema.GroupVersionKind -/
structure GroupVersionKind where
  group : String := ""
  version : String := ""
  kind : String := ""
deriving DecidableEq, Repr

/-- schema.GroupVersion.String: `group/version`, or `version` alone for the empty group. -/
def GroupVersionKind.groupVersionString (gvk : GroupVersionKind) : String :=
  if gvk.group.length > 0 then gvk.group ++ "/" ++ gvk.version else gvk.version

/-- The three results of `Scheme.ObjectKinds`. -/
structure ObjectKinds where
  gvks : List GroupVersionKind := []
  unversioned : Bool := false
  err : Option GoError := none
deriving DecidableEq, Repr

/-- What `utils.MarshalToFile` is given to serialise. -/
inductive Manifest where
  | proxy (p : Proxy)
  | idmsList (l : ImageDigestMirrorSetList)
  | icspList (l : ImageContentSourcePolicyList)
  | configMap (c : ConfigMap)
  | seedReconfiguration (s : SeedReconfiguration)
deriving DecidableEq, Repr

/-- Modelled from the spec: the constants of package `common` (and the descriptor version of
package `seedreconfig`) are declared outside these sources; they are parameters here. -/
structure Common where
  Host : String
  OptOpenshift : String
  ClusterConfigDir : String
  SeedReconfigurationFileName : String
  CABundleFilePath : String
  NMConnectionFolder : String
  NetworkDir : String
  PullSecretName : String
  OpenshiftConfigNamespace : String
  SeedReconfigurationVersion : Nat
deriving DecidableEq, Repr

/-- Modelled from the spec: configv1.Infrastructure as `utils.GetInfrastructure` returns it;
only `Status.InfrastructureName` is read. -/
structure Infrastructure where
  infrastructureName : String := ""
deriving DecidableEq, Repr

/-- Everything outside the process: the answers of the API server, of the helpers of package
`utils` (declared outside these sources) and of the file system, one answer per call. -/
structure Env where
  common : Common
  /-- `r.Scheme.ObjectKinds(o)`, by the Go type of `o`. -/
  scheme : GoType → ObjectKinds
  /-- `r.Client.Get` of the cluster-wide proxy with the given name. -/
  getProxy : String → Except GoError Proxy
  /-- `r.Client.List` of ImageDigestMirrorSets. -/
  listIDMS : Except GoError ImageDigestMirrorSetList
  /-- `r.Client.List` of ImageContentSourcePolicies. -/
  listICSP : Except GoError ImageContentSourcePolicyList
  /-- `r.Client.Get` of a config map by name and namespace. -/
  getConfigMap : String → String → Except GoError ConfigMap
  /-- `utils.GetSecretData(name, namespace, key)`. -/
  getSecretData : String → String → String → Except GoError String
  /-- `utils.GetClusterInfo`. -/
  getClusterInfo : Except GoError ClusterInfo
  /-- `utils.SeedReconfigurationKubeconfigRetentionFromCluster`. -/
  kubeconfigRetention : Except GoError KubeConfigCryptoRetention
  /-- `utils.GetInfrastructure`. -/
  getInfrastructure : Except GoError Infrastructure
  /-- `os.ReadFile`. -/
  readFile : String → Except GoError String
  /-- `os.MkdirAll`: the error, if any. -/
  mkdirAll : String → Option GoError
  /-- `utils.MarshalToFile(data, path)`: the error, if any. -/
  marshalToFile : Manifest → String → Option GoError
  /-- `utils.CopyFileIfExists(src, dst)`: the error, if any. -/
  copyFileIfExists : String → String → Option GoError

/-- One call that leaves the process, with its arguments. -/
inductive Event where
  | mkdirAll (path : String)
  | clientGet (t : GoType) (name namespace_ : String)
  | clientList (t : GoType)
  | getSecretData (name namespace_ key : String)
  | getClusterInfo
  | kubeconfigRetention
  | getInfrastructure
  | readFile (path : String)
  | marshalToFile (data : Manifest) (path : String)
  | copyFileIfExists (src dst : String)
deriving DecidableEq, Repr

/-! ### path/filepath (Unix) -/

/-- strings.Split(s, "/") on the characters of `s`. -/
def splitOnSlash : List Char → List (List Char)
  | [] => [[]]
  | c :: cs =>
    if c = '/' then [] :: splitOnSlash cs
    else
      match splitOnSlash cs with
      | [] => [[c]]
      | p :: ps => (c :: p) :: ps

/-- The component pass of filepath.Clean: empty and `.` components are dropped, `..` removes
the component before it when there is one to remove, is dropped at the root and is kept
otherwise. `acc` holds the kept components, last first. -/
def cleanComponents (rooted : Bool) : List (List Char) → List (List Char) → List (List Char)
  | acc, [] => acc.reverse
  | acc, c :: cs =>
    if c = [] ∨ c = ['.'] then cleanComponents rooted acc cs
    else if c = ['.', '.'] then
      match acc with
      | [] => if rooted then cleanComponents rooted [] cs else cleanComponents rooted [c] cs
      | a :: as =>
        if a = ['.', '.'] then cleanComponents rooted (c :: a :: as) cs
        else cleanComponents rooted as cs
    else cleanComponents rooted (c :: acc) cs

/-- filepath.Clean -/
def filepathClean (path : String) : String :=
  match path.toList with
  | [] => "."
  | c :: cs =>
    let rooted := decide (c = '/')
    let body := String.mk (List.intercalate ['/'] (cleanComponents rooted [] (splitOnSlash (c :: cs))))
    if rooted then "/" ++ body
    else if body = "" then "." else body

/-- filepath.Join: leading empty elements are skipped, the rest is joined with `/` and
cleaned; the result is empty when every element is empty. -/
def filepathJoin (elem : List String) : String :=
  match elem.dropWhile (fun e => e = "") with
  | [] => ""
  | rest => filepathClean ("/".intercalate rest)

/-- filepath.Base: the last element of the path, trailing slashes removed. -/
def filepathBase (path : String) : String :=
  match path.toList with
  | [] => "."
  | cs =>
    match (cs.reverse.dropWhile (fun c => c = '/')) with
    | [] => "/"
    | rs => String.mk (rs.takeWhile (fun c => c ≠ '/')).reverse

/-! ### The gatherer's effects -/

/-- A computation of the gatherer: from the calls made so far to a Go result (value or
error) and the calls made so far afterwards. The trace is kept when the result is an error. -/
def Gather (α : Type) : Type := List Event → Except GoError α × List Event

/-- Sequencing: the second computation runs only when the first returned no error. -/
def Gather.bind {α β : Type} (m : Gather α) (f : α → Gather β) : Gather β :=
  fun t =>
    match m t with
    | (.ok a, t1) => f a t1
    | (.error e, t1) => (.error e, t1)

instance : Monad Gather where
  pure a := fun t => (.ok a, t)
  bind := Gather.bind

/-- One outside call `ev` whose answer is `r`. -/
def call {α : Type} (ev : Event) (r : Except GoError α) : Gather α :=
  fun t => (r, t ++ [ev])

/-- One outside call `ev` that answers with an optional error. -/
def callErr (ev : Event) (r : Option GoError) : Gather Unit :=
  fun t =>
    match r with
    | none => (.ok (), t ++ [ev])
    | some e => (.error e, t ++ [ev])

/-- `return err` -/
def fail {α : Type} (e : GoError) : Gather α :=
  fun t => (.error e, t)

/-- A pure Go result (no outside call). -/
def liftExcept {α : Type} (r : Except GoError α) : Gather α :=
  fun t => (r, t)

/-- `x, err := m()` with `err` inspected by the caller instead of returned. -/
def attempt {α : Type} (m : Gather α) : Gather (Except GoError α) :=
  fun t => let r := m t; (.ok r.1, r.2)

/-- `if err != nil \x7b return fmt.Errorf("msg: %w", err) \x7d` around `m`. -/
def wrapErr {α : Type} (msg : String) (m : Gather α) : Gather α :=
  fun t =>
    match m t with
    | (.ok a, t1) => (.ok a, t1)
    | (.error e, t1) => (.error (.wrapped msg e), t1)

/-- Runs a computation from the empty trace. -/
def Gather.run {α : Type} (m : Gather α) : Except GoError α × List Event := m []

/-! ### clusterconfig.go -/

/-- const manifestDir -/
def manifestDir : String := "manifests"
/-- const proxyName -/
def proxyName : String := "cluster"
/-- const proxyFileName -/
def proxyFileName : String := "proxy.json"
/-- const idmsFileName -/
def idmsFileName : String := "image-digest-mirror-set.json"
/-- const icspsFileName -/
def icspsFileName : String := "image-content-source-policy-list.json"
/-- const caBundleCMName -/
def caBundleCMName : String := "user-ca-bundle"
/-- const caBundleFileName -/
def caBundleFileName : String := caBundleCMName ++ ".json"
/-- const sshKeyFile -/
def sshKeyFile : String := "/home/core/.ssh/authorized_keys.d/ignition"
/-- corev1.DockerConfigJsonKey -/
def DockerConfigJsonKey : String := ".dockerconfigjson"

/-- var hostPath = common.Host -/
def hostPath (c : Common) : String := c.Host

/-- var listOfNetworkFilesPaths -/
def listOfNetworkFilesPaths (c : Common) : List String := [c.NMConnectionFolder]

/-- typeMetaForObject: the object's TypeMeta from the scheme, or an error. -/
def typeMetaForObject (scheme : GoType → ObjectKinds) (o : GoType) : Except GoError TypeMeta :=
  let r := scheme o
  match r.err with
  | some err => .error err
  | none =>
    if r.unversioned || r.gvks.length == 0 then
      .error (.other "unable to find API version for object")
    else
      match r.gvks.getLast? with
      | none => .error (.other "unable to find API version for object")
      | some gvk => .ok { apiVersion := gvk.groupVersionString, kind := gvk.kind }

/-- cleanObjectMetadata: name, namespace and labels of the object, nothing else. -/
def cleanObjectMetadata (o : ObjectMeta) : ObjectMeta :=
  { name := o.name, namespace_ := o.namespace_, labels := o.labels }

/-- configDir: creates the configuration folder with its manifests subfolder and returns it. -/
def configDir (env : Env) (ostreeVarDir : String) : Gather String := do
  let filesDir := filepathJoin [ostreeVarDir, env.common.OptOpenshift, env.common.ClusterConfigDir]
  let dir := filepathJoin [filesDir, manifestDir]
  callErr (.mkdirAll dir) (env.mkdirAll dir)
  return filesDir

/-- fetchPullSecret -/
def fetchPullSecret (env : Env) : Gather String :=
  call (.getSecretData env.common.PullSecretName env.common.OpenshiftConfigNamespace DockerConfigJsonKey)
    (env.getSecretData env.common.PullSecretName env.common.OpenshiftConfigNamespace DockerConfigJsonKey)

/-- fetchProxy -/
def fetchProxy (env : Env) (manifestsDir : String) : Gather Unit := do
  let proxy ← call (.clientGet .Proxy proxyName "") (env.getProxy proxyName)
  let p : Proxy := { objectMeta := { name := proxy.objectMeta.name }, spec := proxy.spec }
  let typeMeta ← liftExcept (typeMetaForObject env.scheme .Proxy)
  let p := { p with typeMeta := typeMeta }
  let filePath := filepathJoin [manifestsDir, proxyFileName]
  callErr (.marshalToFile (.proxy p) filePath) (env.marshalToFile (.proxy p) filePath)

/-- fetchSSHPublicKey -/
def fetchSSHPublicKey (env : Env) : Gather String :=
  let path := filepathJoin [hostPath env.common, sshKeyFile]
  call (.readFile path) (env.readFile path)

/-- fetchInfraID -/
def fetchInfraID (env : Env) : Gather String := do
  let infra ← wrapErr "failed to get infrastructure" (call .getInfrastructure env.getInfrastructure)
  return infra.infrastructureName

/-- GetKubeadminPasswordHash -/
def GetKubeadminPasswordHash (env : Env) : Gather String := do
  let r ← attempt (call (.getSecretData "kubeadmin" "kube-system" "kubeadmin")
    (env.getSecretData "kubeadmin" "kube-system" "kubeadmin"))
  match r with
  | .error err =>
    match IgnoreNotFound err with
    | some _ => fail (.wrapped "failed to get kubeadmin password hash" err)
    | none => return ""
  | .ok kubeadminPasswordHash => return kubeadminPasswordHash

/-- SeedReconfigurationFromClusterInfo -/
def SeedReconfigurationFromClusterInfo (c : Common) (clusterInfo : ClusterInfo)
    (kubeconfigCryptoRetention : KubeConfigCryptoRetention)
    (sshKey infraID pullSecret kubeadminPasswordHash : String) : SeedReconfiguration :=
  { APIVersion := c.SeedReconfigurationVersion
    BaseDomain := clusterInfo.BaseDomain
    ClusterName := clusterInfo.ClusterName
    ClusterID := clusterInfo.ClusterID
    InfraID := infraID
    NodeIP := clusterInfo.NodeIP
    ReleaseRegistry := clusterInfo.ReleaseRegistry
    Hostname := clusterInfo.Hostname
    KubeconfigCryptoRetention := kubeconfigCryptoRetention
    SSHKey := sshKey
    PullSecret := pullSecret
    KubeadminPasswordHash := kubeadminPasswordHash }

/-- fetchClusterInfo -/
def fetchClusterInfo (env : Env) (clusterConfigPath : String) : Gather Unit := do
  let clusterInfo ← call .getClusterInfo env.getClusterInfo
  let seedReconfigurationKubeconfigRetention ←
    wrapErr "failed to get kubeconfig retention from crypto dir"
      (call .kubeconfigRetention env.kubeconfigRetention)
  let sshKey ← fetchSSHPublicKey env
  let infraID ← fetchInfraID env
  let pullSecret ← fetchPullSecret env
  let kubeadminPasswordHash ← GetKubeadminPasswordHash env
  let seedReconfiguration := SeedReconfigurationFromClusterInfo env.common clusterInfo
    seedReconfigurationKubeconfigRetention sshKey infraID pullSecret kubeadminPasswordHash
  let filePath := filepathJoin [clusterConfigPath, env.common.SeedReconfigurationFileName]
  callErr (.marshalToFile (.seedReconfiguration seedReconfiguration) filePath)
    (env.marshalToFile (.seedReconfiguration seedReconfiguration) filePath)

/-- The loop of getIDMSs over the items still to visit: `obj` is built from the name, the
namespace and the spec of the item, the TypeMeta looked up (for `&currentIdms`, the list) is
assigned to the loop variable `idms`, and `obj` is appended. -/
def getIDMSsLoop (env : Env) :
    List ImageDigestMirrorSet → ImageDigestMirrorSetList → Except GoError ImageDigestMirrorSetList
  | [], idmsList => .ok idmsList
  | idms :: rest, idmsList =>
    let obj : ImageDigestMirrorSet :=
      { objectMeta := { name := idms.objectMeta.name, namespace_ := idms.objectMeta.namespace_ }
        spec := idms.spec }
    match typeMetaForObject env.scheme .ImageDigestMirrorSetList with
    | .error err => .error err
    | .ok typeMeta =>
      let _idms : ImageDigestMirrorSet := { idms with typeMeta := typeMeta }
      getIDMSsLoop env rest { idmsList with items := idmsList.items ++ [obj] }

/-- getIDMSs -/
def getIDMSs (env : Env) : Gather ImageDigestMirrorSetList := do
  let idmsList : ImageDigestMirrorSetList := {}
  let currentIdms ← call (.clientList .ImageDigestMirrorSetList) env.listIDMS
  let idmsList ← liftExcept (getIDMSsLoop env currentIdms.items idmsList)
  let typeMeta ← liftExcept (typeMetaForObject env.scheme .ImageDigestMirrorSetList)
  return { idmsList with typeMeta := typeMeta }

/-- fetchIDMS -/
def fetchIDMS (env : Env) (manifestsDir : String) : Gather Unit := do
  let idms ← getIDMSs env
  if idms.items.length < 1 then
    return ()
  else
    let filePath := filepathJoin [manifestsDir, idmsFileName]
    callErr (.marshalToFile (.idmsList idms) filePath) (env.marshalToFile (.idmsList idms) filePath)

/-- The loop of fetchICSPs over the items still to visit: `obj` is built from the name, the
namespace and the spec of the item, the TypeMeta looked up for `&icp` is assigned to the loop
variable `icp`, and `obj` is appended. -/
def fetchICSPsLoop (env : Env) :
    List ImageContentSourcePolicy → ImageContentSourcePolicyList →
      Except GoError ImageContentSourcePolicyList
  | [], iscpsList => .ok iscpsList
  | icp :: rest, iscpsList =>
    let obj : ImageContentSourcePolicy :=
      { objectMeta := { name := icp.objectMeta.name, namespace_ := icp.objectMeta.namespace_ }
        spec := icp.spec }
    match typeMetaForObject env.scheme .ImageContentSourcePolicy with
    | .error err => .error err
    | .ok typeMeta =>
      let _icp : ImageContentSourcePolicy := { icp with typeMeta := typeMeta }
      fetchICSPsLoop env rest { iscpsList with items := iscpsList.items ++ [obj] }

/-- fetchICSPs -/
def fetchICSPs (env : Env) (manifestsDir : String) : Gather Unit := do
  let iscpsList : ImageContentSourcePolicyList := {}
  let currentIcps ← call (.clientList .ImageContentSourcePolicyList) env.listICSP
  if currentIcps.items.length < 1 then
    return ()
  else
    let iscpsList ← liftExcept (fetchICSPsLoop env currentIcps.items iscpsList)
    let typeMeta ← liftExcept (typeMetaForObject env.scheme .ImageContentSourcePolicyList)
    let iscpsList := { iscpsList with typeMeta := typeMeta }
    let filePath := filepathJoin [manifestsDir, icspsFileName]
    wrapErr ("failed to write icsps to " ++ filePath ++ ", err")
      (callErr (.marshalToFile (.icspList iscpsList) filePath)
        (env.marshalToFile (.icspList iscpsList) filePath))

/-- fetchCABundle -/
def fetchCABundle (env : Env) (manifestsDir clusterConfigPath : String) : Gather Unit := do
  let r ← attempt (call (.clientGet .ConfigMap caBundleCMName env.common.OpenshiftConfigNamespace)
    (env.getConfigMap caBundleCMName env.common.OpenshiftConfigNamespace))
  match r with
  | .error err =>
    if err.isNotFound then
      return ()
    else
      fail (.wrapped "failed to get ca bundle cm, err" err)
  | .ok caBundle =>
    let typeMeta ← liftExcept (typeMetaForObject env.scheme .ConfigMap)
    let caBundle := { caBundle with typeMeta := typeMeta }
    let caBundle := { caBundle with objectMeta := cleanObjectMetadata caBundle.objectMeta }
    let filePath := filepathJoin [manifestsDir, caBundleFileName]
    wrapErr ("failed to write user ca bundle to " ++ filePath ++ ", err")
      (callErr (.marshalToFile (.configMap caBundle) filePath)
        (env.marshalToFile (.configMap caBundle) filePath))
    let caBundleFilePath := filepathJoin [hostPath env.common, env.common.CABundleFilePath]
    let target := filepathJoin [clusterConfigPath, filepathBase caBundleFilePath]
    wrapErr ("failed to copy ca-bundle file " ++ caBundleFilePath ++ " to " ++ clusterConfigPath ++ ", err")
      (callErr (.copyFileIfExists caBundleFilePath target) (env.copyFileIfExists caBundleFilePath target))

/-- The loop of fetchNetworkConfig over the paths still to copy. -/
def fetchNetworkConfigLoop (env : Env) (dir : String) : List String → Gather Unit
  | [] => pure ()
  | path :: rest => do
    let src := filepathJoin [hostPath env.common, path]
    let dst := filepathJoin [dir, filepathBase path]
    wrapErr ("failed to copy " ++ path ++ " to " ++ dir ++ ", err")
      (callErr (.copyFileIfExists src dst) (env.copyFileIfExists src dst))
    fetchNetworkConfigLoop env dir rest

/-- fetchNetworkConfig: gather network files and copy them. -/
def fetchNetworkConfig (env : Env) (ostreeDir : String) : Gather Unit := do
  let dir := filepathJoin [ostreeDir, filepathJoin [env.common.OptOpenshift, env.common.NetworkDir]]
  wrapErr ("failed to create network folder " ++ dir ++ ", err")
    (callErr (.mkdirAll dir) (env.mkdirAll dir))
  fetchNetworkConfigLoop env dir (listOfNetworkFilesPaths env.common)

/-- FetchClusterConfig: collects the cluster configuration and writes it as JSON files into
the given directory. -/
def FetchClusterConfig (env : Env) (ostreeVarDir : String) : Gather Unit := do
  let clusterConfigPath ← configDir env ostreeVarDir
  let manifestsDir := filepathJoin [clusterConfigPath, manifestDir]
  fetchProxy env manifestsDir
  fetchIDMS env manifestsDir
  fetchClusterInfo env clusterConfigPath
  fetchCABundle env manifestsDir clusterConfigPath
  fetchICSPs env manifestsDir
  fetchNetworkConfig env ostreeVarDir

/-! ### Vocabulary of the claims about the gatherer -/

/-- The configuration folder `configDir` returns for `ostreeVarDir`. -/
def clusterConfigPathOf (env : Env) (ostreeVarDir : String) : String :=
  filepathJoin [ostreeVarDir, env.common.OptOpenshift, env.common.ClusterConfigDir]

/-- The manifests folder FetchClusterConfig hands to its steps. -/
def manifestsDirOf (env : Env) (ostreeVarDir : String) : String :=
  filepathJoin [clusterConfigPathOf env ostreeVarDir, manifestDir]

/-- Sequential, fail-fast execution as the specification words it: the steps run in list
order, the first error is returned and no later step runs. -/
def runStepsFailFast : List (Gather Unit) → Gather Unit
  | [] => fun t => (.ok (), t)
  | step :: rest => fun t =>
    match step t with
    | (.ok _, t1) => runStepsFailFast rest t1
    | (.error e, t1) => (.error e, t1)

/-- The seven steps of the gather in the order the specification lists them: create config
dir, proxy, digest-mirror sets, cluster info, CA bundle, content-source policies, network
config. -/
def gatherSteps (env : Env) (ostreeVarDir : String) : List (Gather Unit) :=
  [ (do let _ ← configDir env ostreeVarDir; return ()),
    fetchProxy env (manifestsDirOf env ostreeVarDir),
    fetchIDMS env (manifestsDirOf env ostreeVarDir),
    fetchClusterInfo env (clusterConfigPathOf env ostreeVarDir),
    fetchCABundle env (manifestsDirOf env ostreeVarDir) (clusterConfigPathOf env ostreeVarDir),
    fetchICSPs env (manifestsDirOf env ostreeVarDir),
    fetchNetworkConfig env ostreeVarDir ]

/-- Every call a computation adds to the trace satisfies `P`. -/
def Gather.emitsOnly {α : Type} (m : Gather α) (P : Event → Prop) : Prop :=
  ∀ t ev, ev ∈ (m t).2 → ev ∈ t ∨ P ev

/-- The computation returns an error from every trace. -/
def Gather.alwaysFails {α : Type} (m : Gather α) : Prop :=
  ∀ t, ∃ e, (m t).1 = .error e

/-- The Go result is an error. -/
def isError {α : Type} (r : Except GoError α) : Bool :=
  match r with
  | .ok _ => false
  | .error _ => true

/-- The same environment with a kubeadmin secret whose `kubeadmin` key holds `hash`. -/
def withKubeadminHash (env : Env) (hash : String) : Env :=
  { env with
    getSecretData := fun name ns key =>
      if name = "kubeadmin" ∧ ns = "kube-system" ∧ key = "kubeadmin" then .ok hash
      else env.getSecretData name ns key }

/-- The lookup of the kubeadmin secret. -/
def kubeadminLookup : Event := .getSecretData "kubeadmin" "kube-system" "kubeadmin"

/-- The get of the user-ca-bundle config map. -/
def caBundleLookup (env : Env) : Event :=
  .clientGet .ConfigMap caBundleCMName env.common.OpenshiftConfigNamespace

/-- The call writes nothing, or writes a manifest accepted by `k`. -/
def Event.writesOnly (k : Manifest → Bool) : Event → Bool
  | .marshalToFile data _ => k data
  | _ => true

/-- The manifest is a cluster-wide proxy. -/
def Manifest.isProxy : Manifest → Bool
  | .proxy _ => true
  | _ => false

/-- The manifest is a list of ImageDigestMirrorSets. -/
def Manifest.isIdmsList : Manifest → Bool
  | .idmsList _ => true
  | _ => false

/-- The manifest is a list of ImageContentSourcePolicies. -/
def Manifest.isIcspList : Manifest → Bool
  | .icspList _ => true
  | _ => false

/-- The manifest is a config map. -/
def Manifest.isConfigMap : Manifest → Bool
  | .configMap _ => true
  | _ => false

/-- The manifest is the Seed Identity Descriptor. -/
def Manifest.isSeedReconfiguration : Manifest → Bool
  | .seedReconfiguration _ => true
  | _ => false

/-- No manifest. -/
def Manifest.isNone : Manifest → Bool := fun _ => false

/-! ### Example environments -/

/-- Example values for the constants of package `common`. -/
def exCommon : Common :=
  { Host := "/host", OptOpenshift := "/opt/openshift", ClusterConfigDir := "cluster-configuration",
    SeedReconfigurationFileName := "manifest.json",
    CABundleFilePath := "/etc/pki/ca-trust/extracted/pem/tls-ca-bundle.pem",
    NMConnectionFolder := "/etc/NetworkManager/system-connections",
    NetworkDir := "network-configuration", PullSecretName := "pull-secret",
    OpenshiftConfigNamespace := "openshift-config", SeedReconfigurationVersion := 1 }

/-- A scheme in which every type the gatherer handles is registered once. -/
def exScheme : GoType → ObjectKinds
  | .Proxy => { gvks := [⟨"config.openshift.io", "v1", "Proxy"⟩] }
  | .ImageDigestMirrorSet => { gvks := [⟨"config.openshift.io", "v1", "ImageDigestMirrorSet"⟩] }
  | .ImageDigestMirrorSetList =>
    { gvks := [⟨"config.openshift.io", "v1", "ImageDigestMirrorSetList"⟩] }
  | .ImageContentSourcePolicy =>
    { gvks := [⟨"operator.openshift.io", "v1alpha1", "ImageContentSourcePolicy"⟩] }
  | .ImageContentSourcePolicyList =>
    { gvks := [⟨"operator.openshift.io", "v1alpha1", "ImageContentSourcePolicyList"⟩] }
  | .ConfigMap => { gvks := [⟨"", "v1", "ConfigMap"⟩] }

/-- A scheme in which no type is registered. -/
def emptyScheme : GoType → ObjectKinds :=
  fun _ => { err := some (.other "no kind is registered for the type") }

/-- A healthy cluster: one digest-mirror set, one content-source policy, a user CA bundle,
no kubeadmin secret; every file operation succeeds. -/
def exEnv : Env :=
  { common := exCommon
    scheme := exScheme
    getProxy := fun n => .ok { objectMeta := { name := n, uid := "u1", resourceVersion := "7" } }
    listIDMS := .ok { items := [{ objectMeta := { name := "a", uid := "u2" } }] }
    listICSP := .ok { items := [{ objectMeta := { name := "b", uid := "u3" } }] }
    getConfigMap := fun n ns =>
      .ok { objectMeta := { name := n, namespace_ := ns, uid := "u4", resourceVersion := "9",
                            labels := [("k", "v")], annotations := [("x", "y")],
                            managedFields := ["kubectl"] },
            data := [("ca-bundle.crt", "PEM")] }
    getSecretData := fun n _ _ =>
      if n = "kubeadmin" then .error (.notFound "secrets kubeadmin not found") else .ok "ps"
    getClusterInfo := .ok { BaseDomain := "example.com", ClusterName := "sno" }
    kubeconfigRetention := .ok { material := "keys" }
    getInfrastructure := .ok { infrastructureName := "sno-abcde" }
    readFile := fun _ => .ok "ssh-rsa AAAA"
    mkdirAll := fun _ => none
    marshalToFile := fun _ _ => none
    copyFileIfExists := fun _ _ => none }

/-- Example for C1: the resource of `c1Old` while Prep runs (the only Idle entry is False). -/
def c1OldBusy : ImageBasedUpgrade :=
  { spec := { stage := some "Prep", seedImageRef := some { image := some "quay.io/seed:1" } }
    status := some { conditions := [⟨"Idle", "False", "InProgress", ""⟩,
                                    ⟨"PrepInProgress", "True", "InProgress", ""⟩] } }

/-- Example for C1: a resource without status whose seed image is set. -/
def c1Old : ImageBasedUpgrade :=
  { spec := { stage := some "Prep", seedImageRef := some { image := some "quay.io/seed:1" } } }

/-- Example for C1: the same resource with a different seed image. -/
def c1New : ImageBasedUpgrade :=
  { spec := { stage := some "Prep", seedImageRef := some { image := some "quay.io/seed:2" } } }

/-- Example for C1: a status whose latest Idle condition is False after an older Idle=True. -/
def c1OldStale : ImageBasedUpgrade :=
  { c1Old with
    status := some { conditions := [⟨"Idle", "True", "", ""⟩, ⟨"Idle", "False", "", ""⟩] } }

/-- The update of `oldSelf` that sets `spec.stage` to `req` and changes nothing else. -/
def requestStage (oldSelf : ImageBasedUpgrade) (req : String) : ImageBasedUpgrade :=
  { oldSelf with spec := { oldSelf.spec with stage := some req } }

/-- The copy the loop of getIDMSs appends for one item: name, namespace and spec. -/
def idmsCopy (idms : ImageDigestMirrorSet) : ImageDigestMirrorSet :=
  { objectMeta := { name := idms.objectMeta.name, namespace_ := idms.objectMeta.namespace_ }
    spec := idms.spec }

/-- The copy the loop of fetchICSPs appends for one item: name, namespace and spec. -/
def icspCopy (icp : ImageContentSourcePolicy) : ImageContentSourcePolicy :=
  { objectMeta := { name := icp.objectMeta.name, namespace_ := icp.objectMeta.namespace_ }
    spec := icp.spec }

/-- The example cluster with no mirror policies, gathered with a scheme that knows no type. -/
def c7EnvEmpty : Env :=
  { exEnv with scheme := emptyScheme, listIDMS := .ok {}, listICSP := .ok {} }

/-- The example cluster (one policy of each kind), gathered with a scheme that knows no type. -/
def c7EnvUnregistered : Env :=
  { exEnv with scheme := emptyScheme }

/-- The example cluster without mirror policies. -/
def c7EnvNoPolicies : Env :=
  { exEnv with listIDMS := .ok {}, listICSP := .ok {} }

/-- The example cluster without a user-ca-bundle config map. -/
def c8Env : Env :=
  { exEnv with getConfigMap := fun _ _ => .error (.notFound "configmaps user-ca-bundle not found") }

/-- The example cluster when the API server refuses the read of the kubeadmin secret. -/
def c9EnvSecret : Env :=
  { exEnv with
    getSecretData := fun n _ _ =>
      if n = "kubeadmin" then .error (.other "secrets kubeadmin is forbidden") else .ok "ps" }

/-- The example cluster when the API server times out on the user-ca-bundle config map. -/
def c9EnvConfigMap : Env :=
  { exEnv with getConfigMap := fun _ _ => .error (.other "context deadline exceeded") }

/-- The config map fetchCABundle writes on the example cluster. -/
def c10Written : ConfigMap :=
  { typeMeta := { kind := "ConfigMap", apiVersion := "v1" }
    objectMeta := { name := "user-ca-bundle", namespace_ := "openshift-config", labels := [("k", "v")] }
    data := [("ca-bundle.crt", "PEM")] }

/-- The example cluster when the list of ImageDigestMirrorSets fails. -/
def c6EnvIdms : Env :=
  { exEnv with listIDMS := .error (.other "the server is currently unable to handle the request") }

/-- The example cluster when the list of ImageContentSourcePolicies fails. -/
def c6EnvIcsp : Env :=
  { exEnv with listICSP := .error (.other "the server is currently unable to handle the request") }


/-! ### The descriptor file and its loader -/

/-- Modelled from the spec: the value of one field of the descriptor file. The serialiser
(`utils.MarshalToFile`) and the Restorer's descriptor loader are outside these sources. -/
inductive FieldValue where
  | str (s : String)
  | num (n : Nat)
  | retention (k : KubeConfigCryptoRetention)
deriving DecidableEq, Repr

/-- Modelled from the spec: the descriptor file written for a Seed Identity Descriptor, one
entry per field of section 3 of the spec under the name the spec gives it. -/
def marshalSeedReconfiguration (s : SeedReconfiguration) : List (String × FieldValue) :=
  [ ("apiVersion", .num s.APIVersion),
    ("baseDomain", .str s.BaseDomain),
    ("clusterName", .str s.ClusterName),
    ("clusterID", .str s.ClusterID),
    ("infraID", .str s.InfraID),
    ("nodeIP", .str s.NodeIP),
    ("releaseRegistry", .str s.ReleaseRegistry),
    ("hostname", .str s.Hostname),
    ("kubeconfigCryptoRetention", .retention s.KubeconfigCryptoRetention),
    ("sshKey", .str s.SSHKey),
    ("pullSecret", .str s.PullSecret),
    ("kubeadminPasswordHash", .str s.KubeadminPasswordHash) ]

/-- Modelled from the spec: reads a text field of the descriptor file by name. -/
def readStr (file : List (String × FieldValue)) (name : String) : Except String String :=
  match file.lookup name with
  | some (.str s) => .ok s
  | _ => .error ("missing field " ++ name)

/-- Modelled from the spec: the Restorer's descriptor loader. The version tag is read first
and a tag other than the supported version is a hard failure (no best-effort parsing); then
every field is read back by name. -/
def loadSeedReconfiguration (supported : Nat) (file : List (String × FieldValue)) :
    Except String SeedReconfiguration :=
  match file.lookup "apiVersion" with
  | some (.num v) =>
    if v ≠ supported then .error "unsupported descriptor version"
    else
      match file.lookup "kubeconfigCryptoRetention" with
      | some (.retention k) => do
        let baseDomain ← readStr file "baseDomain"
        let clusterName ← readStr file "clusterName"
        let clusterID ← readStr file "clusterID"
        let infraID ← readStr file "infraID"
        let nodeIP ← readStr file "nodeIP"
        let releaseRegistry ← readStr file "releaseRegistry"
        let hostname ← readStr file "hostname"
        let sshKey ← readStr file "sshKey"
        let pullSecret ← readStr file "pullSecret"
        let kubeadminPasswordHash ← readStr file "kubeadminPasswordHash"
        return { APIVersion := v, BaseDomain := baseDomain, ClusterName := clusterName,
                 ClusterID := clusterID, InfraID := infraID, NodeIP := nodeIP,
                 ReleaseRegistry := releaseRegistry, Hostname := hostname,
                 KubeconfigCryptoRetention := k, SSHKey := sshKey, PullSecret := pullSecret,
                 KubeadminPasswordHash := kubeadminPasswordHash }
      | _ => .error "missing field kubeconfigCryptoRetention"
  | _ => .error "missing field apiVersion"

/-- The descriptor fetchClusterInfo writes on the example cluster. -/
def c12Descriptor : SeedReconfiguration :=
  { APIVersion := 1, BaseDomain := "example.com", ClusterName := "sno", InfraID := "sno-abcde",
    KubeconfigCryptoRetention := { material := "keys" }, SSHKey := "ssh-rsa AAAA",
    PullSecret := "ps", KubeadminPasswordHash := "" }


/-! ### The target directory -/

/-- Modelled from the spec: what a regular file of the target directory holds: the
serialisation of a manifest written by `utils.MarshalToFile`, or bytes copied from the host
by `utils.CopyFileIfExists`. Both helpers are outside these sources. -/
inductive FileData where
  | json (data : Manifest)
  | raw (content : String)
deriving DecidableEq, Repr

/-- Modelled from the spec: an entry of the file system the gatherer writes to: a folder, or
a regular file with what it holds. -/
inductive Node where
  | dir
  | file (data : FileData)
deriving DecidableEq, Repr

/-- The entry is a folder. -/
def Node.isDir : Node → Bool
  | .dir => true
  | .file _ => false

/-- Modelled from the spec: the file system the gatherer writes to, as the entry at each
path (none where nothing exists). Any content is allowed, also one no file system can hold
(a file below a file): the operations then fail or succeed as their rules say. -/
def TargetDir : Type := String → Option Node

/-- The path holds the new entry, every other path is untouched. -/
def TargetDir.set (fs : TargetDir) (path : String) (n : Node) : TargetDir :=
  fun p => if p = path then some n else fs p

/-- Modelled from the spec: what `utils.CopyFileIfExists` finds at a source path of the
host: nothing, a regular file, or a folder given by its regular files (path relative to the
folder, content). The host files are only read, and they lie outside the paths the gatherer
writes, so a run does not change them. -/
inductive HostEntry where
  | absent
  | file (content : String)
  | folder (files : List (String × String))
deriving DecidableEq, Repr

/-- The host files by source path. -/
def HostFiles : Type := String → HostEntry

/-- filepath.Dir: everything up to the last separator, cleaned. -/
def filepathDir (path : String) : String :=
  filepathClean (String.mk (path.toList.reverse.dropWhile (fun c => c ≠ '/')).reverse)

/-- The folders `os.MkdirAll(path)` makes sure exist, outermost first: the root (`.` for a
relative path) and every leading part of the cleaned path, the path itself last. -/
def folderChain (path : String) : List String :=
  let cs := (filepathClean path).toList
  let rooted := decide (cs.head? = some '/')
  let comps := (splitOnSlash cs).filter (fun c => c ≠ [] ∧ c ≠ ['.'])
  (List.range (comps.length + 1)).map (fun k =>
    let body := String.mk (List.intercalate ['/'] (comps.take k))
    if rooted then "/" ++ body else if body = "" then "." else body)

/-- A computation of the gatherer seen from the file system: from the content of the file
system to a Go result (value or error) and the content afterwards. What was written before
an error stays written. -/
def FsM (α : Type) : Type := TargetDir → Except GoError α × TargetDir

/-- Sequencing: the second computation runs only when the first returned no error. -/
def FsM.bind {α β : Type} (m : FsM α) (f : α → FsM β) : FsM β :=
  fun fs =>
    match m fs with
    | (.ok a, fs1) => f a fs1
    | (.error e, fs1) => (.error e, fs1)

instance : Monad FsM where
  pure a := fun fs => (.ok a, fs)
  bind := FsM.bind

/-- The paths and entries a sequence of writes leaves, applied in order. -/
def applyAssignments (fs : TargetDir) : List (String × Node) → TargetDir
  | [] => fs
  | a :: rest => applyAssignments (fs.set a.1 a.2) rest

/-- Folder or file at the path, none where nothing exists. -/
def kindOf (fs : TargetDir) (p : String) : Option Bool := (fs p).map Node.isDir

/-- Every entry of `a` exists in `b` with the same kind (folder or file). -/
def kindSub (a b : TargetDir) : Prop := ∀ p k, kindOf a p = some k → kindOf b p = some k

/-- The same paths exist in `a` and in `b`, with the same kinds. -/
def sameKinds (a b : TargetDir) : Prop := ∀ p, kindOf a p = kindOf b p

/-- The computation can be replayed: it never removes an entry nor changes the kind of one,
and from any content `t` that already holds every entry its run from `s` leaves (exactly
those, when that run failed) it returns what it returned from `s` and makes the same writes,
none of which changes the kind of an entry of `t`. -/
structure Replays {α : Type} (m : FsM α) : Prop where
  grows : ∀ s, kindSub s (m s).2
  replay : ∀ s t, kindSub (m s).2 t → (isError (m s).1 = true → sameKinds (m s).2 t) →
    ∃ W, (m s).2 = applyAssignments s W ∧ m t = ((m s).1, applyAssignments t W) ∧
      sameKinds (applyAssignments t W) t

namespace OnDisk

/-- A call that reads the cluster or the host and answers `r`: the target is untouched. -/
def call {α : Type} (r : Except GoError α) : FsM α :=
  fun fs => (r, fs)

/-- A failure that does not depend on what the target holds (permissions, a failed
serialisation, an I/O error), as the environment gives it; nothing is written. -/
def failIf (r : Option GoError) : FsM Unit :=
  fun fs =>
    match r with
    | none => (.ok (), fs)
    | some e => (.error e, fs)

/-- `return err` -/
def fail {α : Type} (e : GoError) : FsM α :=
  fun fs => (.error e, fs)

/-- A pure Go result. -/
def liftExcept {α : Type} (r : Except GoError α) : FsM α :=
  fun fs => (r, fs)

/-- `x, err := m()` with `err` inspected by the caller instead of returned. -/
def attempt {α : Type} (m : FsM α) : FsM (Except GoError α) :=
  fun fs => let r := m fs; (.ok r.1, r.2)

/-- `if err != nil \x7b return fmt.Errorf("msg: %w", err) \x7d` around `m`. -/
def wrapErr {α : Type} (msg : String) (m : FsM α) : FsM α :=
  fun fs =>
    match m fs with
    | (.ok a, fs1) => (.ok a, fs1)
    | (.error e, fs1) => (.error (.wrapped msg e), fs1)

/-- Modelled from the spec: creating or overwriting one entry. A folder cannot take the
place of a regular file (ENOTDIR) nor a regular file that of a folder (EISDIR): the call
fails and nothing changes. Otherwise the path holds the new entry. -/
def putNode (path : String) (n : Node) : FsM Unit :=
  fun fs =>
    match fs path with
    | none => (.ok (), fs.set path n)
    | some old =>
      if old.isDir = n.isDir then (.ok (), fs.set path n)
      else if n.isDir then (.error (.other ("mkdir " ++ path ++ ": not a directory")), fs)
      else (.error (.other ("open " ++ path ++ ": is a directory")), fs)

/-- Modelled from the spec: a file can be created only in an existing folder; the call
fails when the path holds no entry (ENOENT) or a regular file (ENOTDIR). -/
def requireDir (path : String) : FsM Unit :=
  fun fs =>
    match fs path with
    | some .dir => (.ok (), fs)
    | some (.file _) => (.error (.other ("open " ++ path ++ ": not a directory")), fs)
    | none => (.error (.other ("open " ++ path ++ ": no such file or directory")), fs)

/-- The folders of the list are created in order; an existing folder is left as it is. -/
def makeFolders : List String → FsM Unit
  | [] => pure ()
  | p :: rest => do
    putNode p .dir
    makeFolders rest

/-- Modelled from the spec: the effect of `os.MkdirAll(path)` on the target: the folder and
the folders above it exist afterwards; it fails where one of them is a regular file. -/
def osMkdirAll (path : String) : FsM Unit :=
  makeFolders (folderChain path)

/-- Modelled from the spec: writing a regular file (`os.WriteFile`, or the copy of one file):
the folder of the path must exist, and the file is created or overwritten with `data`. -/
def osWriteFile (path : String) (data : FileData) : FsM Unit := do
  requireDir (filepathDir path)
  putNode path (.file data)

/-- `os.MkdirAll(path, perm)` as the gatherer calls it. -/
def mkdirAll (env : Env) (path : String) : FsM Unit := do
  failIf (env.mkdirAll path)
  osMkdirAll path

/-- Modelled from the spec: `utils.MarshalToFile(data, path)`, outside these sources: the
file at `path` is overwritten with the serialisation of `data`. -/
def marshalToFile (env : Env) (data : Manifest) (path : String) : FsM Unit := do
  failIf (env.marshalToFile data path)
  osWriteFile path (.json data)

/-- The files of a source folder are copied below `dst` in order, each into its folder. -/
def copyFiles (dst : String) : List (String × String) → FsM Unit
  | [] => pure ()
  | f :: rest => do
    let target := filepathJoin [dst, f.1]
    osMkdirAll (filepathDir target)
    osWriteFile target (.raw f.2)
    copyFiles dst rest

/-- Modelled from the spec: `utils.CopyFileIfExists(src, dst)`, outside these sources:
nothing happens when the source does not exist; a regular file overwrites `dst`; a folder is
copied file by file below `dst`. Missing folders of the destination are created. -/
def copyFileIfExists (env : Env) (host : HostFiles) (src dst : String) : FsM Unit := do
  failIf (env.copyFileIfExists src dst)
  match host src with
  | .absent => pure ()
  | .file content => do
    osMkdirAll (filepathDir dst)
    osWriteFile dst (.raw content)
  | .folder files => do
    osMkdirAll dst
    copyFiles dst files

/-- configDir, on the target directory. -/
def configDir (env : Env) (ostreeVarDir : String) : FsM String := do
  let filesDir := filepathJoin [ostreeVarDir, env.common.OptOpenshift, env.common.ClusterConfigDir]
  let dir := filepathJoin [filesDir, manifestDir]
  mkdirAll env dir
  return filesDir

/-- fetchPullSecret, on the target directory. -/
def fetchPullSecret (env : Env) : FsM String :=
  call (env.getSecretData env.common.PullSecretName env.common.OpenshiftConfigNamespace
    DockerConfigJsonKey)

/-- fetchProxy, on the target directory. -/
def fetchProxy (env : Env) (manifestsDir : String) : FsM Unit := do
  let proxy ← call (env.getProxy proxyName)
  let p : Proxy := { objectMeta := { name := proxy.objectMeta.name }, spec := proxy.spec }
  let typeMeta ← liftExcept (typeMetaForObject env.scheme .Proxy)
  let p := { p with typeMeta := typeMeta }
  let filePath := filepathJoin [manifestsDir, proxyFileName]
  marshalToFile env (.proxy p) filePath

/-- fetchSSHPublicKey, on the target directory. -/
def fetchSSHPublicKey (env : Env) : FsM String :=
  let path := filepathJoin [hostPath env.common, sshKeyFile]
  call (env.readFile path)

/-- fetchInfraID, on the target directory. -/
def fetchInfraID (env : Env) : FsM String := do
  let infra ← wrapErr "failed to get infrastructure" (call env.getInfrastructure)
  return infra.infrastructureName

/-- GetKubeadminPasswordHash, on the target directory. -/
def GetKubeadminPasswordHash (env : Env) : FsM String := do
  let r ← attempt (call (env.getSecretData "kubeadmin" "kube-system" "kubeadmin"))
  match r with
  | .error err =>
    match IgnoreNotFound err with
    | some _ => fail (.wrapped "failed to get kubeadmin password hash" err)
    | none => return ""
  | .ok kubeadminPasswordHash => return kubeadminPasswordHash

/-- fetchClusterInfo, on the target directory. -/
def fetchClusterInfo (env : Env) (clusterConfigPath : String) : FsM Unit := do
  let clusterInfo ← call env.getClusterInfo
  let seedReconfigurationKubeconfigRetention ←
    wrapErr "failed to get kubeconfig retention from crypto dir" (call env.kubeconfigRetention)
  let sshKey ← fetchSSHPublicKey env
  let infraID ← fetchInfraID env
  let pullSecret ← fetchPullSecret env
  let kubeadminPasswordHash ← GetKubeadminPasswordHash env
  let seedReconfiguration := SeedReconfigurationFromClusterInfo env.common clusterInfo
    seedReconfigurationKubeconfigRetention sshKey infraID pullSecret kubeadminPasswordHash
  let filePath := filepathJoin [clusterConfigPath, env.common.SeedReconfigurationFileName]
  marshalToFile env (.seedReconfiguration seedReconfiguration) filePath

/-- getIDMSs, on the target directory. -/
def getIDMSs (env : Env) : FsM ImageDigestMirrorSetList := do
  let idmsList : ImageDigestMirrorSetList := {}
  let currentIdms ← call env.listIDMS
  let idmsList ← liftExcept (getIDMSsLoop env currentIdms.items idmsList)
  let typeMeta ← liftExcept (typeMetaForObject env.scheme .ImageDigestMirrorSetList)
  return { idmsList with typeMeta := typeMeta }

/-- fetchIDMS, on the target directory. -/
def fetchIDMS (env : Env) (manifestsDir : String) : FsM Unit := do
  let idms ← getIDMSs env
  if idms.items.length < 1 then
    return ()
  else
    let filePath := filepathJoin [manifestsDir, idmsFileName]
    marshalToFile env (.idmsList idms) filePath

/-- fetchICSPs, on the target directory. -/
def fetchICSPs (env : Env) (manifestsDir : String) : FsM Unit := do
  let iscpsList : ImageContentSourcePolicyList := {}
  let currentIcps ← call env.listICSP
  if currentIcps.items.length < 1 then
    return ()
  else
    let iscpsList ← liftExcept (fetchICSPsLoop env currentIcps.items iscpsList)
    let typeMeta ← liftExcept (typeMetaForObject env.scheme .ImageContentSourcePolicyList)
    let iscpsList := { iscpsList with typeMeta := typeMeta }
    let filePath := filepathJoin [manifestsDir, icspsFileName]
    wrapErr ("failed to write icsps to " ++ filePath ++ ", err")
      (marshalToFile env (.icspList iscpsList) filePath)

/-- fetchCABundle, on the target directory. -/
def fetchCABundle (env : Env) (host : HostFiles) (manifestsDir clusterConfigPath : String) :
    FsM Unit := do
  let r ← attempt (call (env.getConfigMap caBundleCMName env.common.OpenshiftConfigNamespace))
  match r with
  | .error err =>
    if err.isNotFound then
      return ()
    else
      fail (.wrapped "failed to get ca bundle cm, err" err)
  | .ok caBundle =>
    let typeMeta ← liftExcept (typeMetaForObject env.scheme .ConfigMap)
    let caBundle := { caBundle with typeMeta := typeMeta }
    let caBundle := { caBundle with objectMeta := cleanObjectMetadata caBundle.objectMeta }
    let filePath := filepathJoin [manifestsDir, caBundleFileName]
    wrapErr ("failed to write user ca bundle to " ++ filePath ++ ", err")
      (marshalToFile env (.configMap caBundle) filePath)
    let caBundleFilePath := filepathJoin [hostPath env.common, env.common.CABundleFilePath]
    let target := filepathJoin [clusterConfigPath, filepathBase caBundleFilePath]
    wrapErr ("failed to copy ca-bundle file " ++ caBundleFilePath ++ " to " ++ clusterConfigPath ++ ", err")
      (copyFileIfExists env host caBundleFilePath target)

/-- The loop of fetchNetworkConfig over the paths still to copy, on the target directory. -/
def fetchNetworkConfigLoop (env : Env) (host : HostFiles) (dir : String) : List String → FsM Unit
  | [] => pure ()
  | path :: rest => do
    let src := filepathJoin [hostPath env.common, path]
    let dst := filepathJoin [dir, filepathBase path]
    wrapErr ("failed to copy " ++ path ++ " to " ++ dir ++ ", err")
      (copyFileIfExists env host src dst)
    fetchNetworkConfigLoop env host dir rest

/-- fetchNetworkConfig, on the target directory. -/
def fetchNetworkConfig (env : Env) (host : HostFiles) (ostreeDir : String) : FsM Unit := do
  let dir := filepathJoin [ostreeDir, filepathJoin [env.common.OptOpenshift, env.common.NetworkDir]]
  wrapErr ("failed to create network folder " ++ dir ++ ", err") (mkdirAll env dir)
  fetchNetworkConfigLoop env host dir (listOfNetworkFilesPaths env.common)

/-- FetchClusterConfig, on the target directory: the same steps in the same order. -/
def FetchClusterConfig (env : Env) (host : HostFiles) (ostreeVarDir : String) : FsM Unit := do
  let clusterConfigPath ← configDir env ostreeVarDir
  let manifestsDir := filepathJoin [clusterConfigPath, manifestDir]
  fetchProxy env manifestsDir
  fetchIDMS env manifestsDir
  fetchClusterInfo env clusterConfigPath
  fetchCABundle env host manifestsDir clusterConfigPath
  fetchICSPs env manifestsDir
  fetchNetworkConfig env host ostreeVarDir

/-- A computation that looks at the target before it writes: the file is created with one
content and overwritten with another. It is not part of the gatherer. -/
def writeOnceThenMark (path : String) : FsM Unit :=
  fun fs =>
    match fs path with
    | none => putNode path (.file (.raw "created")) fs
    | some _ => putNode path (.file (.raw "seen")) fs

end OnDisk

/-- Example host: a folder with two connection files and a CA bundle. -/
def exHost : HostFiles := fun src =>
  if src = "/host/etc/NetworkManager/system-connections" then
    .folder [("eth0.nmconnection", "[connection]"), ("br-ex.nmconnection", "[bridge]")]
  else if src = "/host/etc/pki/ca-trust/extracted/pem/tls-ca-bundle.pem" then .file "PEM"
  else .absent

/-- Example initial content of the target: a stale descriptor and a foreign file. -/
def exTarget : TargetDir := fun p =>
  if p = "/" ∨ p = "/var" ∨ p = "/var/opt" ∨ p = "/var/opt/openshift" ∨
      p = "/var/opt/openshift/cluster-configuration" then some .dir
  else if p = "/var/opt/openshift/cluster-configuration/manifest.json" then
    some (.file (.raw "stale"))
  else if p = "/var/opt/openshift/other" then some (.file (.raw "kept"))
  else none

/-- Example initial content of the target in which a folder sits where the proxy manifest is
to be written. -/
def exTargetBlocked : TargetDir :=
  exTarget.set "/var/opt/openshift/cluster-configuration/manifests/proxy.json" .dir


/-- Example for C14: `c1New` with OADP content added and the stage moved on. -/
def c14New : ImageBasedUpgrade :=
  { spec := { stage := some "Upgrade", seedImageRef := some { image := some "quay.io/seed:2" },
              oadpContent := some [⟨"oadp-cm", "openshift-adp"⟩] } }


/-- Example scheme for C15: Proxy registered under two versions, ConfigMap in the core
group, ImageDigestMirrorSet unversioned, its list type without any kind, the rest unknown. -/
def c15Scheme : GoType → ObjectKinds
  | .Proxy => { gvks := [⟨"config.openshift.io", "v1", "Proxy"⟩,
                         ⟨"config.openshift.io", "v2", "Proxy"⟩] }
  | .ConfigMap => { gvks := [⟨"", "v1", "ConfigMap"⟩] }
  | .ImageDigestMirrorSet =>
    { gvks := [⟨"config.openshift.io", "v1", "ImageDigestMirrorSet"⟩], unversioned := true }
  | .ImageDigestMirrorSetList => { gvks := [] }
  | _ => { err := some (.other "no kind is registered for the type") }


/-- A field is absent in both the old and the new spec, or present in both with equal
values. -/
def sameField {α : Type} (old new : Option α) : Prop :=
  (old = none ∧ new = none) ∨ ∃ v, old = some v ∧ new = some v


/-! ## Part 3: ib-cli/installationiso/installationiso.go -/

/-- path.Join: on slash-separated paths the same function as filepath.Join on Unix. -/
def pathJoin (elem : List String) : String := filepathJoin elem

/-- strings.Split(s, string(filepath.Separator)) -/
def stringsSplitSeparator (s : String) : List String :=
  (splitOnSlash s.toList).map String.mk

/-- removeFirstDirectory: with more than one part, the parts after the first joined; the
path itself otherwise. -/
def removeFirstDirectory (path : String) : String :=
  let parts := stringsSplitSeparator path
  if parts.length > 1 then
    filepathJoin (parts.drop 1)
  else
    path

/-- const ibiButaneTemplateFilePath -/
def ibiButaneTemplateFilePath : String := "data/ibi-butane.template"
/-- const seedInstallScriptFilePath -/
def seedInstallScriptFilePath : String := "data/install-rhcos-and-restore-seed.sh"
/-- const butaneFiles -/
def butaneFiles : String := "butaneFiles"
/-- const butaneConfigFile -/
def butaneConfigFile : String := "config.bu"
/-- const rhcosIsoFileName -/
def rhcosIsoFileName : String := "rhcos-live.x86_64.iso"

/-- IgnitionData: the data handed to the butane template. -/
structure IgnitionData where
  SeedImage : String := ""
  SeedVersion : String := ""
  BackupSecret : String := ""
  PullSecret : String := ""
  SshPublicKey : String := ""
  InstallSeedScript : String := ""
  LCAImage : String := ""
  InstallationDisk : String := ""
deriving DecidableEq, Repr

/-- The answer of http.Get: status code, status line, the bytes of the body that arrive and
the error, if any, that ends the body early. -/
structure HttpResponse where
  statusCode : Nat := 200
  status : String := "200 OK"
  body : String := ""
  bodyErr : Option GoError := none
deriving DecidableEq, Repr

/-- What the ISO builder is given from outside: the folder embedded in the binary, the
answers of the network, and the failures of file creation, copying and template rendering
(`utils.RenderTemplateFile` is outside these sources). -/
structure IsoEnv where
  /-- The embedded `data/*` folder: the content of a file, if it is there. -/
  embedded : String → Option String
  /-- Answer of http.Get for a URL. -/
  httpGet : String → Except GoError HttpResponse
  /-- Error of os.Create for a path, if any. -/
  createErr : String → Option GoError
  /-- Error of io.Copy into a file of the butane folder, if any. -/
  copyErr : String → Option GoError
  /-- Result of rendering a template with the data: the text, or an error. -/
  renderTemplate : String → IgnitionData → Except GoError String

/-- The state the ISO builder works on: regular files by path (the first entry for a path is
the file), folders, the URLs requested so far and the templates rendered so far. -/
structure IsoWorld where
  files : List (String × String) := []
  dirs : List String := []
  requests : List String := []
  rendered : List (String × IgnitionData × String) := []
deriving DecidableEq, Repr

/-- os.Stat succeeds: something exists at the path. -/
def IsoWorld.pathExists (w : IsoWorld) (path : String) : Bool :=
  (w.files.lookup path).isSome || w.dirs.contains path

/-- The file at the path holds the content (created or truncated and rewritten). -/
def IsoWorld.write (w : IsoWorld) (path content : String) : IsoWorld :=
  { w with files := (path, content) :: w.files }

/-- A computation of the ISO builder: from a state to a Go result and the state afterwards;
the state is kept when the result is an error. -/
def IsoM (α : Type) : Type := IsoWorld → Except GoError α × IsoWorld

/-- Sequencing: the second computation runs only when the first returned no error. -/
def IsoM.bind {α β : Type} (m : IsoM α) (f : α → IsoM β) : IsoM β :=
  fun w =>
    match m w with
    | (.ok a, w1) => f a w1
    | (.error e, w1) => (.error e, w1)

instance : Monad IsoM where
  pure a := fun w => (.ok a, w)
  bind := IsoM.bind

/-- `return err` -/
def IsoM.fail {α : Type} (e : GoError) : IsoM α := fun w => (.error e, w)

/-- `if err != nil \x7b return fmt.Errorf("msg: %w", err) \x7d` around `m`. -/
def IsoM.wrapErr {α : Type} (msg : String) (m : IsoM α) : IsoM α :=
  fun w =>
    match m w with
    | (.ok a, w1) => (.ok a, w1)
    | (.error e, w1) => (.error (.wrapped msg e), w1)

/-- os.ReadFile and os.Open followed by reading: the content of the file at the path. -/
def osReadFile (path : String) : IsoM String :=
  fun w =>
    match w.files.lookup path with
    | some content => (.ok content, w)
    | none => (.error (.other ("open " ++ path ++ ": no such file or directory")), w)

/-- os.Create: the file exists and is empty afterwards, unless the creation fails. -/
def osCreate (env : IsoEnv) (path : String) : IsoM Unit :=
  fun w =>
    match env.createErr path with
    | some e => (.error e, w)
    | none => (.ok (), w.write path "")

/-- os.Mkdir with its error ignored, as renderButaneConfig calls it. -/
def osMkdirIgnoringError (path : String) : IsoM Unit :=
  fun w => (.ok (), if w.pathExists path then w else { w with dirs := path :: w.dirs })

/-- copyFileToButaneDir -/
def copyFileToButaneDir (env : IsoEnv) (sourceFile target : String) : IsoM Unit := do
  let source ← IsoM.wrapErr "failed to open file"
    (if sourceFile = seedInstallScriptFilePath then
      (fun w =>
        match env.embedded sourceFile with
        | some content => (.ok content, w)
        | none => (.error (.other ("open " ++ sourceFile ++ ": file does not exist")), w))
    else osReadFile sourceFile)
  IsoM.wrapErr "failed to create file under workdir" (osCreate env target)
  IsoM.wrapErr "failed to copy file to workdir"
    (fun w =>
      match env.copyErr target with
      | some e => (.error e, w)
      | none => (.ok (), w.write target source))

/-- renderButaneConfig -/
def renderButaneConfig (env : IsoEnv) (workDir seedImage seedVersion authFile pullSecretFile
    sshPublicKeyPath lcaImage installationDisk : String) : IsoM Unit := do
  let sshPublicKey ←
    if sshPublicKeyPath = "" then
      pure ""
    else
      IsoM.wrapErr "failed to read ssh public key" (osReadFile sshPublicKeyPath)
  let butaneDataDir := pathJoin [workDir, butaneFiles]
  osMkdirIgnoringError butaneDataDir
  let seedInstallScriptInButane := pathJoin [butaneDataDir, "seedInstallScript"]
  copyFileToButaneDir env seedInstallScriptFilePath seedInstallScriptInButane
  let pullSecretInButane := pathJoin [butaneDataDir, "pullSecret"]
  copyFileToButaneDir env pullSecretFile pullSecretInButane
  let backupSecretInButane := pathJoin [butaneDataDir, "backupSecret"]
  copyFileToButaneDir env authFile backupSecretInButane
  let templateData : IgnitionData :=
    { SeedImage := seedImage
      SeedVersion := seedVersion
      BackupSecret := removeFirstDirectory backupSecretInButane
      PullSecret := removeFirstDirectory pullSecretInButane
      SshPublicKey := sshPublicKey
      InstallSeedScript := removeFirstDirectory seedInstallScriptInButane
      LCAImage := lcaImage
      InstallationDisk := installationDisk }
  let output := pathJoin [workDir, butaneConfigFile]
  fun w =>
    let w1 := { w with rendered := w.rendered ++ [(ibiButaneTemplateFilePath, templateData, output)] }
    match env.renderTemplate ibiButaneTemplateFilePath templateData with
    | .error e => (.error e, w1)
    | .ok text => (.ok (), w1.write output text)

/-- downloadLiveIso -/
def downloadLiveIso (env : IsoEnv) (workDir url : String) : IsoM Unit :=
  fun w =>
    let rhcosIsoPath := pathJoin [workDir, rhcosIsoFileName]
    if w.pathExists rhcosIsoPath then
      (.ok (), w)
    else
      match osCreate env rhcosIsoPath w with
      | (.error e, w1) => (.error e, w1)
      | (.ok _, w1) =>
        let w2 := { w1 with requests := w1.requests ++ [url] }
        match env.httpGet url with
        | .error e => (.error e, w2)
        | .ok resp =>
          if resp.statusCode ≠ 200 then
            (.error (.other ("failed to download ISO from URL, status: " ++ resp.status)), w2)
          else
            match resp.bodyErr with
            | some e => (.error e, w2.write rhcosIsoPath resp.body)
            | none => (.ok (), w2.write rhcosIsoPath resp.body)

/-- Example: an ISO builder whose server answers 404 for every URL. -/
def isoEnv404 : IsoEnv :=
  { embedded := fun p => if p = seedInstallScriptFilePath then some "#!/bin/bash" else none
    httpGet := fun _ => .ok { statusCode := 404, status := "404 Not Found", body := "not found" }
    createErr := fun _ => none
    copyErr := fun _ => none
    renderTemplate := fun _ d => .ok ("local: " ++ d.BackupSecret) }

/-- Example: an ISO builder whose network is down. -/
def isoEnvOffline : IsoEnv :=
  { isoEnv404 with httpGet := fun _ => .error (.other "dial tcp: connection refused") }

/-- Example: a state with the user's two secret files and nothing else. -/
def isoWorldSecrets : IsoWorld :=
  { files := [("/home/u/auth.json", "AUTH"), ("/home/u/pull.json", "PULL")] }

/-- A clean relative path: filepath.Clean leaves it as it is and it does not start at the
root. -/
def isCleanRelative (p : String) : Prop :=
  filepathClean p = p ∧ p.toList.head? ≠ some '/'


/-- The three local-file paths of the template data of every template rendered so far:
BackupSecret, PullSecret, InstallSeedScript. -/
def IsoWorld.renderedLocalFiles (w : IsoWorld) : List (String × String × String) :=
  w.rendered.map (fun r => (r.2.1.BackupSecret, r.2.1.PullSecret, r.2.1.InstallSeedScript))

/-- The state after renderButaneConfig on the example state, for a work directory. -/
def c18After (workDir : String) : IsoWorld :=
  (renderButaneConfig isoEnv404 workDir "quay.io/seed:1" "4.14.6" "/home/u/auth.json"
    "/home/u/pull.json" "" "quay.io/lca:1" "/dev/sda" isoWorldSecrets).2


/-! ## Theorems -/

/-! ### Lemmas on the rules, on the gatherer's effects and on its steps -/

theorem immutableRule_false {α : Type} [DecidableEq α] (f : ImageBasedUpgradeSpec → Option α)
    (oldSelf self : ImageBasedUpgrade) (st : ImageBasedUpgradeStatus)
    (hst : oldSelf.status = some st)
    (hidle : ∀ c ∈ st.conditions, ¬ (c.type = "Idle" ∧ c.status = "True"))
    (hchg : f oldSelf.spec ≠ f self.spec) :
    immutableRule f oldSelf self = false := by
  have h2 : idleTrueExists oldSelf = false := by
    unfold idleTrueExists
    rw [hst]
    simp only [List.any_eq_false]
    intro c hc
    have := hidle c hc
    simpa using this
  unfold immutableRule
  rw [h2, hst]
  cases h1 : f oldSelf.spec <;> cases h3 : f self.spec <;> simp_all

theorem updateRejected_eq (oldSelf self : ImageBasedUpgrade) :
    updateRejected oldSelf self =
      !(ruleSeedImageRef oldSelf self && ruleOadpContent oldSelf self &&
        ruleExtraManifests oldSelf self && ruleAutoRollbackOnFailure oldSelf self) := by
  unfold updateRejected validateUpdate xValidations
  cases h1 : ruleSeedImageRef oldSelf self <;> cases h2 : ruleOadpContent oldSelf self <;>
    cases h3 : ruleExtraManifests oldSelf self <;>
    cases h4 : ruleAutoRollbackOnFailure oldSelf self <;>
    simp [List.filter, h1, h2, h3, h4]

theorem immutableRule_of_unchanged {α : Type} [DecidableEq α]
    (f : ImageBasedUpgradeSpec → Option α) (oldSelf self : ImageBasedUpgrade)
    (h : f oldSelf.spec = f self.spec) : immutableRule f oldSelf self = true := by
  unfold immutableRule
  rw [h]
  cases f self.spec <;> simp

theorem updateRejected_requestStage (oldSelf : ImageBasedUpgrade) (req : String) :
    updateRejected oldSelf (requestStage oldSelf req) = false := by
  rw [updateRejected_eq]
  simp [ruleSeedImageRef, ruleOadpContent, ruleExtraManifests, ruleAutoRollbackOnFailure,
    immutableRule_of_unchanged, requestStage]

theorem bind_apply {α β : Type} (m : Gather α) (f : α → Gather β) (t : List Event) :
    (m >>= f) t = match m t with
      | (.ok a, t1) => f a t1
      | (.error e, t1) => (.error e, t1) := rfl

theorem pure_apply {α : Type} (a : α) (t : List Event) :
    (pure a : Gather α) t = (.ok a, t) := rfl

theorem GetKubeadminPasswordHash_notFound (env : Env) (err : GoError)
    (hget : env.getSecretData "kubeadmin" "kube-system" "kubeadmin" = .error err)
    (hnf : err.isNotFound = true) (t : List Event) :
    GetKubeadminPasswordHash env t = (.ok "", t ++ [kubeadminLookup]) := by
  simp [GetKubeadminPasswordHash, bind_apply, attempt, call, hget, IgnoreNotFound, hnf, pure_apply,
    kubeadminLookup]

theorem GetKubeadminPasswordHash_ok (env : Env) (h : String)
    (hget : env.getSecretData "kubeadmin" "kube-system" "kubeadmin" = .ok h) (t : List Event) :
    GetKubeadminPasswordHash env t = (.ok h, t ++ [kubeadminLookup]) := by
  simp [GetKubeadminPasswordHash, bind_apply, attempt, call, hget, pure_apply, kubeadminLookup]

theorem GetKubeadminPasswordHash_other (env : Env) (err : GoError)
    (hget : env.getSecretData "kubeadmin" "kube-system" "kubeadmin" = .error err)
    (hnf : err.isNotFound = false) (t : List Event) :
    GetKubeadminPasswordHash env t =
      (.error (.wrapped "failed to get kubeadmin password hash" err), t ++ [kubeadminLookup]) := by
  simp [GetKubeadminPasswordHash, bind_apply, attempt, call, hget, IgnoreNotFound, hnf, fail,
    kubeadminLookup]

theorem emitsOnly_pure {α : Type} (a : α) (P : Event → Prop) :
    (pure a : Gather α).emitsOnly P := fun _ _ h => Or.inl h

theorem emitsOnly_fail {α : Type} (e : GoError) (P : Event → Prop) :
    (fail e : Gather α).emitsOnly P := fun _ _ h => Or.inl h

theorem emitsOnly_liftExcept {α : Type} (r : Except GoError α) (P : Event → Prop) :
    (liftExcept r).emitsOnly P := fun _ _ h => Or.inl h

theorem emitsOnly_call {α : Type} (ev : Event) (r : Except GoError α) (P : Event → Prop)
    (h : P ev) : (call ev r).emitsOnly P := by
  intro t ev1 h1
  simp only [call, List.mem_append, List.mem_singleton] at h1
  rcases h1 with h1 | h1
  · exact Or.inl h1
  · exact Or.inr (h1 ▸ h)

theorem emitsOnly_callErr (ev : Event) (r : Option GoError) (P : Event → Prop)
    (h : P ev) : (callErr ev r).emitsOnly P := by
  intro t ev1 h1
  cases r <;> simp only [callErr, List.mem_append, List.mem_singleton] at h1 <;>
    rcases h1 with h1 | h1
  · exact Or.inl h1
  · exact Or.inr (h1 ▸ h)
  · exact Or.inl h1
  · exact Or.inr (h1 ▸ h)

theorem emitsOnly_attempt {α : Type} (m : Gather α) (P : Event → Prop)
    (h : m.emitsOnly P) : (attempt m).emitsOnly P := fun t ev h1 => h t ev h1

theorem emitsOnly_wrapErr {α : Type} (msg : String) (m : Gather α) (P : Event → Prop)
    (h : m.emitsOnly P) : (wrapErr msg m).emitsOnly P := by
  intro t ev h1
  have h2 := h t ev
  unfold wrapErr at h1
  rcases hm : m t with ⟨r, t1⟩
  rw [hm] at h1 h2
  cases r <;> exact h2 h1

theorem emitsOnly_bind {α β : Type} (m : Gather α) (f : α → Gather β) (P : Event → Prop)
    (hm : m.emitsOnly P) (hf : ∀ a, (f a).emitsOnly P) : (m >>= f).emitsOnly P := by
  intro t ev h1
  rw [bind_apply] at h1
  have h2 := hm t ev
  rcases hmt : m t with ⟨r, t1⟩
  rw [hmt] at h1 h2
  cases r with
  | error e => exact h2 h1
  | ok a =>
    rcases hf a t1 ev h1 with h3 | h3
    · exact h2 h3
    · exact Or.inr h3

theorem emitsOnly_mono {α : Type} (m : Gather α) (P Q : Event → Prop)
    (h : m.emitsOnly P) (hPQ : ∀ ev, P ev → Q ev) : m.emitsOnly Q := by
  intro t ev h1
  rcases h t ev h1 with h2 | h2
  · exact Or.inl h2
  · exact Or.inr (hPQ ev h2)

theorem emitsOnly_run {α : Type} (m : Gather α) (P : Event → Prop) (h : m.emitsOnly P) :
    ∀ ev ∈ m.run.2, P ev := by
  intro ev hev
  rcases h [] ev hev with h1 | h1
  · cases h1
  · exact h1

theorem configDir_emitsOnly (env : Env) (dir : String) :
    (configDir env dir).emitsOnly (fun ev => ev.writesOnly Manifest.isNone = true) := by
  unfold configDir
  exact emitsOnly_bind _ _ _ (emitsOnly_callErr _ _ _ rfl) (fun _ => emitsOnly_pure _ _)

theorem fetchProxy_emitsOnly (env : Env) (dir : String) :
    (fetchProxy env dir).emitsOnly (fun ev => ev.writesOnly Manifest.isProxy = true) := by
  unfold fetchProxy
  refine emitsOnly_bind _ _ _ (emitsOnly_call _ _ _ rfl) (fun _ => ?_)
  refine emitsOnly_bind _ _ _ (emitsOnly_liftExcept _ _) (fun _ => ?_)
  exact emitsOnly_callErr _ _ _ rfl

theorem fetchIDMS_emitsOnly (env : Env) (dir : String) :
    (fetchIDMS env dir).emitsOnly (fun ev => ev.writesOnly Manifest.isIdmsList = true) := by
  unfold fetchIDMS getIDMSs
  refine emitsOnly_bind _ _ _ ?_ (fun idms => ?_)
  · refine emitsOnly_bind _ _ _ (emitsOnly_call _ _ _ rfl) (fun _ => ?_)
    refine emitsOnly_bind _ _ _ (emitsOnly_liftExcept _ _) (fun _ => ?_)
    refine emitsOnly_bind _ _ _ (emitsOnly_liftExcept _ _) (fun _ => ?_)
    exact emitsOnly_pure _ _
  · split
    · exact emitsOnly_pure _ _
    · exact emitsOnly_callErr _ _ _ rfl

theorem fetchIDMS_list_error (env : Env) (dir : String) (err : GoError)
    (h : env.listIDMS = .error err) (t : List Event) :
    fetchIDMS env dir t = (.error err, t ++ [Event.clientList .ImageDigestMirrorSetList]) := by
  simp [fetchIDMS, getIDMSs, bind_apply, call, h]

theorem fetchICSPs_list_error (env : Env) (dir : String) (err : GoError)
    (h : env.listICSP = .error err) (t : List Event) :
    fetchICSPs env dir t = (.error err, t ++ [Event.clientList .ImageContentSourcePolicyList]) := by
  simp [fetchICSPs, bind_apply, call, h]

theorem fetchClusterInfo_emitsOnly (env : Env) (dir : String) :
    (fetchClusterInfo env dir).emitsOnly
      (fun ev => ev.writesOnly Manifest.isSeedReconfiguration = true) := by
  unfold fetchClusterInfo fetchSSHPublicKey fetchInfraID fetchPullSecret GetKubeadminPasswordHash
  refine emitsOnly_bind _ _ _ (emitsOnly_call _ _ _ rfl) (fun _ => ?_)
  refine emitsOnly_bind _ _ _ (emitsOnly_wrapErr _ _ _ (emitsOnly_call _ _ _ rfl)) (fun _ => ?_)
  refine emitsOnly_bind _ _ _ (emitsOnly_call _ _ _ rfl) (fun _ => ?_)
  refine emitsOnly_bind _ _ _ ?_ (fun _ => ?_)
  · exact emitsOnly_bind _ _ _ (emitsOnly_wrapErr _ _ _ (emitsOnly_call _ _ _ rfl))
      (fun _ => emitsOnly_pure _ _)
  refine emitsOnly_bind _ _ _ (emitsOnly_call _ _ _ rfl) (fun _ => ?_)
  refine emitsOnly_bind _ _ _ ?_ (fun _ => ?_)
  · refine emitsOnly_bind _ _ _ (emitsOnly_attempt _ _ (emitsOnly_call _ _ _ rfl)) (fun r => ?_)
    cases r with
    | error err =>
      dsimp only
      split
      · exact emitsOnly_fail _ _
      · exact emitsOnly_pure _ _
    | ok v => exact emitsOnly_pure _ _
  exact emitsOnly_callErr _ _ _ rfl

theorem fetchCABundle_emitsOnly (env : Env) (dir cfg : String) :
    (fetchCABundle env dir cfg).emitsOnly (fun ev => ev.writesOnly Manifest.isConfigMap = true) := by
  unfold fetchCABundle
  refine emitsOnly_bind _ _ _ (emitsOnly_attempt _ _ (emitsOnly_call _ _ _ rfl)) (fun r => ?_)
  cases r with
  | error err =>
    dsimp only
    split
    · exact emitsOnly_pure _ _
    · exact emitsOnly_fail _ _
  | ok caBundle =>
    dsimp only
    refine emitsOnly_bind _ _ _ (emitsOnly_liftExcept _ _) (fun _ => ?_)
    refine emitsOnly_bind _ _ _ (emitsOnly_wrapErr _ _ _ (emitsOnly_callErr _ _ _ rfl)) (fun _ => ?_)
    exact emitsOnly_wrapErr _ _ _ (emitsOnly_callErr _ _ _ rfl)

theorem fetchICSPs_emitsOnly (env : Env) (dir : String) :
    (fetchICSPs env dir).emitsOnly (fun ev => ev.writesOnly Manifest.isIcspList = true) := by
  unfold fetchICSPs
  refine emitsOnly_bind _ _ _ (emitsOnly_call _ _ _ rfl) (fun _ => ?_)
  split
  · exact emitsOnly_pure _ _
  · refine emitsOnly_bind _ _ _ (emitsOnly_liftExcept _ _) (fun _ => ?_)
    refine emitsOnly_bind _ _ _ (emitsOnly_liftExcept _ _) (fun _ => ?_)
    exact emitsOnly_wrapErr _ _ _ (emitsOnly_callErr _ _ _ rfl)

theorem fetchNetworkConfigLoop_emitsOnly (env : Env) (dir : String) (paths : List String) :
    (fetchNetworkConfigLoop env dir paths).emitsOnly
      (fun ev => ev.writesOnly Manifest.isNone = true) := by
  induction paths with
  | nil => exact emitsOnly_pure _ _
  | cons path rest ih =>
    unfold fetchNetworkConfigLoop
    exact emitsOnly_bind _ _ _ (emitsOnly_wrapErr _ _ _ (emitsOnly_callErr _ _ _ rfl)) (fun _ => ih)

theorem fetchNetworkConfig_emitsOnly (env : Env) (dir : String) :
    (fetchNetworkConfig env dir).emitsOnly (fun ev => ev.writesOnly Manifest.isNone = true) := by
  unfold fetchNetworkConfig
  exact emitsOnly_bind _ _ _ (emitsOnly_wrapErr _ _ _ (emitsOnly_callErr _ _ _ rfl))
    (fun _ => fetchNetworkConfigLoop_emitsOnly _ _ _)

theorem FetchClusterConfig_eq_runSteps (env : Env) (dir : String) :
    FetchClusterConfig env dir = runStepsFailFast (gatherSteps env dir) := by
  funext t
  simp only [FetchClusterConfig, gatherSteps, runStepsFailFast, bind_apply, configDir, pure_apply,
    manifestsDirOf, clusterConfigPathOf]
  cases h0 : env.mkdirAll (filepathJoin [filepathJoin [dir, env.common.OptOpenshift,
      env.common.ClusterConfigDir], manifestDir]) with
  | some e => simp [callErr, h0]
  | none =>
    simp only [callErr, h0]
    rcases h1 : fetchProxy env _ (t ++ [_]) with ⟨r1, t1⟩
    cases r1 with
    | error e => rfl
    | ok _ =>
      dsimp only
      rcases h2 : fetchIDMS env _ t1 with ⟨r2, t2⟩
      cases r2 with
      | error e => rfl
      | ok _ =>
        dsimp only
        rcases h3 : fetchClusterInfo env _ t2 with ⟨r3, t3⟩
        cases r3 with
        | error e => rfl
        | ok _ =>
          dsimp only
          rcases h4 : fetchCABundle env _ _ t3 with ⟨r4, t4⟩
          cases r4 with
          | error e => rfl
          | ok _ =>
            dsimp only
            rcases h5 : fetchICSPs env _ t4 with ⟨r5, t5⟩
            cases r5 with
            | error e => rfl
            | ok _ =>
              dsimp only
              rcases h6 : fetchNetworkConfig env dir t5 with ⟨r6, t6⟩
              cases r6 <;> rfl

theorem runStepsFailFast_emitsOnly (steps : List (Gather Unit)) (P : Event → Prop)
    (h : ∀ s ∈ steps, s.emitsOnly P) : (runStepsFailFast steps).emitsOnly P := by
  induction steps with
  | nil => exact fun _ _ h => Or.inl h
  | cons s rest ih =>
    intro t ev hev
    have hs := h s (List.mem_cons_self _ _) t ev
    have hrest := ih (fun s1 hs1 => h s1 (List.mem_cons_of_mem _ hs1))
    simp only [runStepsFailFast] at hev
    rcases hst : s t with ⟨r, t1⟩
    rw [hst] at hev hs
    cases r with
    | error e => exact hs hev
    | ok _ =>
      rcases hrest t1 ev hev with h3 | h3
      · exact hs h3
      · exact Or.inr h3

theorem runStepsFailFast_alwaysFails (steps : List (Gather Unit))
    (h : ∃ s ∈ steps, s.alwaysFails) : (runStepsFailFast steps).alwaysFails := by
  induction steps with
  | nil => obtain ⟨s, hs, _⟩ := h; cases hs
  | cons s rest ih =>
    intro t
    simp only [runStepsFailFast]
    rcases hst : s t with ⟨r, t1⟩
    cases r with
    | error e => exact ⟨e, rfl⟩
    | ok _ =>
      obtain ⟨s1, hs1, hf⟩ := h
      rcases List.mem_cons.mp hs1 with h1 | h1
      · subst h1
        obtain ⟨e, he⟩ := hf t
        rw [hst] at he
        cases he
      · exact ih ⟨s1, h1, hf⟩ t1

theorem writesOnly_mono (k1 k : Manifest → Bool) (h : ∀ d, k1 d = true → k d = true)
    (ev : Event) (hev : ev.writesOnly k1 = true) : ev.writesOnly k = true := by
  cases ev <;> first | rfl | exact h _ hev

/-- The calls of a whole gather write only manifests accepted by `k`, when `k` accepts
proxies, descriptors and config maps and the two mirror-policy steps write only such. -/
theorem FetchClusterConfig_emitsOnly (env : Env) (dir : String) (k : Manifest → Bool)
    (hk : ∀ d, (d.isProxy || d.isSeedReconfiguration || d.isConfigMap) = true → k d = true)
    (hidms : (fetchIDMS env (manifestsDirOf env dir)).emitsOnly (fun ev => ev.writesOnly k = true))
    (hicsp : (fetchICSPs env (manifestsDirOf env dir)).emitsOnly
      (fun ev => ev.writesOnly k = true)) :
    (FetchClusterConfig env dir).emitsOnly (fun ev => ev.writesOnly k = true) := by
  rw [FetchClusterConfig_eq_runSteps]
  apply runStepsFailFast_emitsOnly
  intro s hs
  simp only [gatherSteps, List.mem_cons, List.mem_singleton, List.not_mem_nil, or_false] at hs
  rcases hs with h | h | h | h | h | h | h <;> subst h
  · exact emitsOnly_bind _ _ _ (emitsOnly_mono _ _ _ (configDir_emitsOnly _ _)
      (writesOnly_mono _ _ (fun d h => by simp [Manifest.isNone] at h)))
      (fun _ => emitsOnly_pure _ _)
  · exact emitsOnly_mono _ _ _ (fetchProxy_emitsOnly _ _)
      (writesOnly_mono _ _ (fun d h => hk d (by simp [h])))
  · exact hidms
  · exact emitsOnly_mono _ _ _ (fetchClusterInfo_emitsOnly _ _)
      (writesOnly_mono _ _ (fun d h => hk d (by simp [h])))
  · exact emitsOnly_mono _ _ _ (fetchCABundle_emitsOnly _ _ _)
      (writesOnly_mono _ _ (fun d h => hk d (by simp [h])))
  · exact hicsp
  · exact emitsOnly_mono _ _ _ (fetchNetworkConfig_emitsOnly _ _)
      (writesOnly_mono _ _ (fun d h => by simp [Manifest.isNone] at h))

theorem emitsOnly_of_eq_append {α : Type} (m : Gather α) (P : Event → Prop) (ev : Event)
    (r : Except GoError α) (h : ∀ t, m t = (r, t ++ [ev])) (hP : P ev) : m.emitsOnly P := by
  intro t ev1 h1
  rw [h t] at h1
  simp only [List.mem_append, List.mem_singleton] at h1
  rcases h1 with h1 | h1
  · exact Or.inl h1
  · exact Or.inr (h1 ▸ hP)

theorem runStepsFailFast_first_error (steps : List (Gather Unit)) :
    ∀ (t : List Event) (e : GoError) (t1 : List Event),
      runStepsFailFast steps t = (.error e, t1) →
      ∃ k step tk, steps[k]? = some step ∧
        runStepsFailFast (steps.take k) t = (.ok (), tk) ∧ step tk = (.error e, t1) := by
  induction steps with
  | nil => intro t e t1 h; simp [runStepsFailFast] at h
  | cons s rest ih =>
    intro t e t1 h
    simp only [runStepsFailFast] at h
    rcases hst : s t with ⟨r, t2⟩
    rw [hst] at h
    cases r with
    | error e2 =>
      refine ⟨0, s, t, by simp, rfl, ?_⟩
      rw [hst]; exact h
    | ok u =>
      obtain ⟨k, step, tk, h1, h2, h3⟩ := ih t2 e t1 h
      refine ⟨k + 1, step, tk, by simpa using h1, ?_, h3⟩
      simp only [List.take_succ_cons, runStepsFailFast, hst]
      exact h2

theorem runStepsFailFast_all_ok (steps : List (Gather Unit)) :
    ∀ (t t1 : List Event), runStepsFailFast steps t = (.ok (), t1) →
      ∀ k step, steps[k]? = some step →
        ∃ tk tk1, runStepsFailFast (steps.take k) t = (.ok (), tk) ∧ step tk = (.ok (), tk1) := by
  induction steps with
  | nil => intro t t1 _ k step hk; simp at hk
  | cons s rest ih =>
    intro t t1 h k step hk
    simp only [runStepsFailFast] at h
    rcases hst : s t with ⟨r, t2⟩
    rw [hst] at h
    cases r with
    | error e2 => simp at h
    | ok u =>
      cases k with
      | zero =>
        simp at hk
        subst hk
        exact ⟨t, t2, rfl, hst⟩
      | succ k =>
        obtain ⟨tk, tk1, h2, h3⟩ := ih t2 t1 h k step (by simpa using hk)
        refine ⟨tk, tk1, ?_, h3⟩
        simp only [List.take_succ_cons, runStepsFailFast, hst]
        exact h2

theorem runStepsFailFast_append (l1 l2 : List (Gather Unit)) :
    ∀ t tk, runStepsFailFast l1 t = (.ok (), tk) →
      runStepsFailFast (l1 ++ l2) t = runStepsFailFast l2 tk := by
  induction l1 with
  | nil => intro t tk h; simp [runStepsFailFast] at h; simp [h]
  | cons s rest ih =>
    intro t tk h
    simp only [runStepsFailFast, List.cons_append] at h ⊢
    rcases hst : s t with ⟨r, t2⟩
    rw [hst] at h
    cases r with
    | error e2 => simp at h
    | ok u => exact ih t2 tk h

theorem getIDMSsLoop_ok (env : Env) (tm : TypeMeta)
    (h : typeMetaForObject env.scheme .ImageDigestMirrorSetList = .ok tm)
    (items : List ImageDigestMirrorSet) :
    ∀ acc : ImageDigestMirrorSetList,
      getIDMSsLoop env items acc = .ok { acc with items := acc.items ++ items.map idmsCopy } := by
  induction items with
  | nil => intro acc; simp [getIDMSsLoop]
  | cons i rest ih =>
    intro acc
    simp only [getIDMSsLoop, h, ih, List.map_cons, idmsCopy, List.append_assoc,
      List.singleton_append]

theorem fetchICSPsLoop_ok (env : Env) (tm : TypeMeta)
    (h : typeMetaForObject env.scheme .ImageContentSourcePolicy = .ok tm)
    (items : List ImageContentSourcePolicy) :
    ∀ acc : ImageContentSourcePolicyList,
      fetchICSPsLoop env items acc = .ok { acc with items := acc.items ++ items.map icspCopy } := by
  induction items with
  | nil => intro acc; simp [fetchICSPsLoop]
  | cons i rest ih =>
    intro acc
    simp only [fetchICSPsLoop, h, ih, List.map_cons, icspCopy, List.append_assoc,
      List.singleton_append]

theorem fetchCABundle_notFound (env : Env) (err : GoError)
    (hget : env.getConfigMap caBundleCMName env.common.OpenshiftConfigNamespace = .error err)
    (hnf : err.isNotFound = true) (m c : String) (t : List Event) :
    fetchCABundle env m c t = (.ok (), t ++ [caBundleLookup env]) := by
  simp [fetchCABundle, bind_apply, attempt, call, hget, hnf, pure_apply, caBundleLookup]

theorem fetchCABundle_other (env : Env) (err : GoError)
    (hget : env.getConfigMap caBundleCMName env.common.OpenshiftConfigNamespace = .error err)
    (hnf : err.isNotFound = false) (m c : String) (t : List Event) :
    fetchCABundle env m c t =
      (.error (.wrapped "failed to get ca bundle cm, err" err), t ++ [caBundleLookup env]) := by
  simp [fetchCABundle, bind_apply, attempt, call, hget, hnf, fail, caBundleLookup]

theorem gatherSteps_split (env : Env) (dir : String) :
    gatherSteps env dir = (gatherSteps env dir).take 4 ++
      [ fetchCABundle env (manifestsDirOf env dir) (clusterConfigPathOf env dir),
        fetchICSPs env (manifestsDirOf env dir), fetchNetworkConfig env dir ] := rfl

theorem alwaysFails_bind_left {α β : Type} (m : Gather α) (f : α → Gather β)
    (h : m.alwaysFails) : (m >>= f).alwaysFails := by
  intro t
  rw [bind_apply]
  obtain ⟨e, he⟩ := h t
  rcases hm : m t with ⟨r, t1⟩
  rw [hm] at he
  cases r with
  | error e1 => exact ⟨e1, rfl⟩
  | ok a => cases he

theorem alwaysFails_bind_right {α β : Type} (m : Gather α) (f : α → Gather β)
    (h : ∀ a, (f a).alwaysFails) : (m >>= f).alwaysFails := by
  intro t
  rw [bind_apply]
  rcases m t with ⟨r, t1⟩
  cases r with
  | error e1 => exact ⟨e1, rfl⟩
  | ok a => exact h a t1

theorem FetchClusterConfig_fails_of_step (env : Env) (dir : String) (s : Gather Unit)
    (hs : s ∈ gatherSteps env dir) (hf : s.alwaysFails) :
    isError (FetchClusterConfig env dir).run.1 = true := by
  have h : (FetchClusterConfig env dir).alwaysFails := by
    rw [FetchClusterConfig_eq_runSteps]
    exact runStepsFailFast_alwaysFails _ ⟨s, hs, hf⟩
  obtain ⟨e, he⟩ := h []
  simp [Gather.run, he, isError]

/-! ### C1 -/

/-- C1 (as stated, refuted): the latest Idle condition is not True and seedImageRef changes,
yet the rules admit the update, both when the previous state has no status and when an
older Idle=True entry precedes the latest Idle=False entry. -/
theorem C1_counterexample :
    (latestIdleNotTrue c1Old = true ∧ changesGuardedField c1Old c1New = true ∧
      updateRejected c1Old c1New = false) ∧
    (latestIdleNotTrue c1OldStale = true ∧ changesGuardedField c1OldStale c1New = true ∧
      updateRejected c1OldStale c1New = false) := by
  decide

/-- C1 (amended): when the previous state has a status and no entry of its condition list,
at any position, is Idle=True, every update that changes seedImageRef, oadpContent,
extraManifests or autoRollbackOnFailure is rejected by the update-time rules. -/
theorem C1_rejects_change_when_no_idle_true (oldSelf self : ImageBasedUpgrade)
    (st : ImageBasedUpgradeStatus) (hst : oldSelf.status = some st)
    (hidle : ∀ c ∈ st.conditions, ¬ (c.type = "Idle" ∧ c.status = "True"))
    (hchg : changesGuardedField oldSelf self = true) :
    updateRejected oldSelf self = true := by
  unfold changesGuardedField at hchg
  simp only [Bool.or_eq_true, decide_eq_true_eq] at hchg
  rw [updateRejected_eq]
  rcases hchg with ((h | h) | h) | h
  · have := immutableRule_false (fun s => s.seedImageRef) oldSelf self st hst hidle h
    simp [ruleSeedImageRef, this]
  · have := immutableRule_false (fun s => s.oadpContent) oldSelf self st hst hidle h
    simp [ruleOadpContent, this]
  · have := immutableRule_false (fun s => s.extraManifests) oldSelf self st hst hidle h
    simp [ruleExtraManifests, this]
  · have := immutableRule_false (fun s => s.autoRollbackOnFailure) oldSelf self st hst hidle h
    simp [ruleAutoRollbackOnFailure, this]

/-- C1 witness: while Prep runs (status present, Idle=False), changing the seed image is
rejected. -/
theorem C1_witness :
    c1OldBusy.status = some { conditions := [⟨"Idle", "False", "InProgress", ""⟩,
                                             ⟨"PrepInProgress", "True", "InProgress", ""⟩] } ∧
    changesGuardedField c1OldBusy c1New = true ∧ updateRejected c1OldBusy c1New = true :=
  ⟨rfl, by decide,
    C1_rejects_change_when_no_idle_true c1OldBusy c1New _ rfl (by decide) (by decide)⟩

/-! ### C2 -/

theorem Stage.ofString?_cases (s : String) :
    (s = "Idle" ∧ Stage.ofString? s = some .Idle) ∨
    (s = "Prep" ∧ Stage.ofString? s = some .Prep) ∨
    (s = "Upgrade" ∧ Stage.ofString? s = some .Upgrade) ∨
    (s = "Rollback" ∧ Stage.ofString? s = some .Rollback) ∨
    ((s ≠ "Idle" ∧ s ≠ "Prep" ∧ s ≠ "Upgrade" ∧ s ≠ "Rollback") ∧ Stage.ofString? s = none) := by
  unfold Stage.ofString? Stages.Idle Stages.Prep Stages.Upgrade Stages.Rollback
  by_cases h1 : s = "Idle"
  · subst h1; simp
  by_cases h2 : s = "Prep"
  · subst h2; simp
  by_cases h3 : s = "Upgrade"
  · subst h3; simp
  by_cases h4 : s = "Rollback"
  · subst h4; simp
  simp [h1, h2, h3, h4]

theorem stageChangeAccepted_requestStage (oldSelf : ImageBasedUpgrade) (cur req : String) :
    stageChangeAccepted cur oldSelf (requestStage oldSelf req) =
      match Stage.ofString? cur, Stage.ofString? req with
      | some c, some r => validEdge c r
      | _, _ => false := by
  unfold stageChangeAccepted
  rw [updateRejected_requestStage]
  simp [requestStage]

/-- The state machine takes a repeated request for Rollback while the stage is Rollback
(section 5: acceptance is idempotent against repeated Rollback requests); the stage does not
change. -/
theorem repeated_rollback_request (oldSelf : ImageBasedUpgrade) :
    stageChangeAccepted "Rollback" oldSelf (requestStage oldSelf "Rollback") = true := by
  rw [stageChangeAccepted_requestStage]
  decide

/-- C2: a stage change is accepted only along the listed edges. For every resource and every
pair of a current and a different requested stage value, the request that changes the stage
is accepted by the state machine exactly when the pair is one of Idle→Prep, Prep→Upgrade,
Upgrade→Idle, Prep→Rollback, Upgrade→Rollback, Rollback→Idle; for every other pair it is
rejected. A request for the current stage is not a stage change. -/
theorem C2_stage_change_accepted_iff_listed_edge (oldSelf : ImageBasedUpgrade)
    (cur req : String) (hchange : cur ≠ req) :
    stageChangeAccepted cur oldSelf (requestStage oldSelf req) = true ↔
      (cur, req) ∈ specStageEdges := by
  rw [stageChangeAccepted_requestStage]
  rcases Stage.ofString?_cases cur with ⟨hc, ec⟩ | ⟨hc, ec⟩ | ⟨hc, ec⟩ | ⟨hc, ec⟩ | ⟨hc, ec⟩ <;>
  rcases Stage.ofString?_cases req with ⟨hr, er⟩ | ⟨hr, er⟩ | ⟨hr, er⟩ | ⟨hr, er⟩ | ⟨hr, er⟩ <;>
  rw [ec, er] <;>
  first
    | (subst hc; subst hr; first | exact absurd rfl hchange | decide)
    | (subst hc; simp [specStageEdges, hr])
    | (subst hr; simp [specStageEdges, hc])
    | simp [specStageEdges, hc, hr]

/-- C2 at concrete requests: from Idle, the change to Prep is accepted and the change to
Upgrade is rejected. -/
theorem C2_witness :
    ("Idle" ≠ "Prep" ∧
      (stageChangeAccepted "Idle" c1Old (requestStage c1Old "Prep") = true ↔
        ("Idle", "Prep") ∈ specStageEdges)) ∧
    stageChangeAccepted "Idle" c1Old (requestStage c1Old "Prep") = true ∧
    stageChangeAccepted "Idle" c1Old (requestStage c1Old "Upgrade") = false :=
  ⟨⟨by decide, C2_stage_change_accepted_iff_listed_edge c1Old "Idle" "Prep" (by decide)⟩,
    by decide, by decide⟩

/-! ### C3 -/

/-- C3: when the lookup of the kubeadmin secret fails with a not-found error,
GetKubeadminPasswordHash returns the empty string and no error; every descriptor
fetchClusterInfo writes has an empty kubeadminPasswordHash; and fetchClusterInfo does exactly
what it does on a cluster whose kubeadmin secret holds the empty string, so the absence
adds no failure: when the other five reads and the write succeed it returns success. -/
theorem C3_absent_kubeadmin_secret_gives_empty_hash (env : Env) (err : GoError)
    (hget : env.getSecretData "kubeadmin" "kube-system" "kubeadmin" = .error err)
    (hnf : err.isNotFound = true) :
    (∀ t, GetKubeadminPasswordHash env t = (.ok "", t ++ [kubeadminLookup])) ∧
    (∀ path s p, Event.marshalToFile (.seedReconfiguration s) p ∈ (fetchClusterInfo env path).run.2 →
      s.KubeadminPasswordHash = "") ∧
    (∀ path t, fetchClusterInfo env path t = fetchClusterInfo (withKubeadminHash env "") path t) ∧
    (∀ path clusterInfo retention sshKey infra pullSecret,
      env.getClusterInfo = .ok clusterInfo → env.kubeconfigRetention = .ok retention →
      env.readFile (filepathJoin [hostPath env.common, sshKeyFile]) = .ok sshKey →
      env.getInfrastructure = .ok infra →
      env.getSecretData env.common.PullSecretName env.common.OpenshiftConfigNamespace
        DockerConfigJsonKey = .ok pullSecret →
      env.marshalToFile (.seedReconfiguration (SeedReconfigurationFromClusterInfo env.common
          clusterInfo retention sshKey infra.infrastructureName pullSecret ""))
        (filepathJoin [path, env.common.SeedReconfigurationFileName]) = none →
      (fetchClusterInfo env path).run.1 = .ok () ∧
      Event.marshalToFile (.seedReconfiguration (SeedReconfigurationFromClusterInfo env.common
          clusterInfo retention sshKey infra.infrastructureName pullSecret ""))
        (filepathJoin [path, env.common.SeedReconfigurationFileName]) ∈
          (fetchClusterInfo env path).run.2) := by
  have h1 := GetKubeadminPasswordHash_notFound env err hget hnf
  refine ⟨h1, ?_, ?_, ?_⟩
  · intro path s p hmem
    simp only [Gather.run, fetchClusterInfo, bind_apply, h1, call, wrapErr, fetchSSHPublicKey,
      fetchInfraID, fetchPullSecret, callErr, pure_apply] at hmem
    cases h2 : env.getClusterInfo <;> rw [h2] at hmem <;> simp at hmem
    cases h3 : env.kubeconfigRetention <;> rw [h3] at hmem <;> simp at hmem
    cases h4 : env.readFile (filepathJoin [hostPath env.common, sshKeyFile]) <;> rw [h4] at hmem <;>
      simp at hmem
    cases h5 : env.getInfrastructure <;> rw [h5] at hmem <;> simp at hmem
    cases h6 : env.getSecretData env.common.PullSecretName env.common.OpenshiftConfigNamespace
      DockerConfigJsonKey <;> rw [h6] at hmem <;> simp [kubeadminLookup] at hmem
    split at hmem <;> simp at hmem <;> simp [hmem.1, SeedReconfigurationFromClusterInfo]
  · intro path t
    have h2 := GetKubeadminPasswordHash_ok (withKubeadminHash env "") ""
      (by simp [withKubeadminHash])
    simp only [fetchClusterInfo, bind_apply, h1, h2]
    simp [withKubeadminHash, fetchSSHPublicKey, fetchInfraID, fetchPullSecret, hostPath,
      DockerConfigJsonKey, call, wrapErr, bind_apply]
  · intro path clusterInfo retention sshKey infra pullSecret h2 h3 h4 h5 h6 h7
    simp [Gather.run, fetchClusterInfo, bind_apply, h1, call, wrapErr, fetchSSHPublicKey,
      fetchInfraID, fetchPullSecret, callErr, pure_apply, h2, h3, h4, h5, h6, h7]

/-- C3 witness: the example cluster has no kubeadmin secret; the descriptor is written with
an empty hash and fetchClusterInfo succeeds. -/
theorem C3_witness :
    exEnv.getSecretData "kubeadmin" "kube-system" "kubeadmin" =
      .error (.notFound "secrets kubeadmin not found") ∧
    (GetKubeadminPasswordHash exEnv).run = (.ok "", [kubeadminLookup]) ∧
    (fetchClusterInfo exEnv "/c").run.1 = .ok () ∧
    (∀ s p, Event.marshalToFile (.seedReconfiguration s) p ∈ (fetchClusterInfo exEnv "/c").run.2 →
      s.KubeadminPasswordHash = "") :=
  ⟨rfl, rfl, rfl,
    fun s p h => (C3_absent_kubeadmin_secret_gives_empty_hash exEnv
      (.notFound "secrets kubeadmin not found") rfl rfl).2.1 "/c" s p h⟩

/-! ### C4 -/

/-- C4 (the code on a cluster with one policy of each kind): on the example cluster the scheme resolves the
item types to ImageDigestMirrorSet and ImageContentSourcePolicy, the written lists carry
their own kind and apiVersion, and the one item of each written list has an empty kind and
an empty apiVersion. The written proxy and config map do carry theirs. -/
theorem C4_written_list_items_have_empty_type_meta :
    typeMetaForObject exEnv.scheme .ImageDigestMirrorSet =
      .ok { kind := "ImageDigestMirrorSet", apiVersion := "config.openshift.io/v1" } ∧
    (fetchIDMS exEnv "/m").run =
      (.ok (), [ .clientList .ImageDigestMirrorSetList,
        .marshalToFile (.idmsList
          { typeMeta := { kind := "ImageDigestMirrorSetList", apiVersion := "config.openshift.io/v1" }
            items := [{ typeMeta := { kind := "", apiVersion := "" }
                        objectMeta := { name := "a" } }] })
          "/m/image-digest-mirror-set.json" ]) ∧
    typeMetaForObject exEnv.scheme .ImageContentSourcePolicy =
      .ok { kind := "ImageContentSourcePolicy", apiVersion := "operator.openshift.io/v1alpha1" } ∧
    (fetchICSPs exEnv "/m").run =
      (.ok (), [ .clientList .ImageContentSourcePolicyList,
        .marshalToFile (.icspList
          { typeMeta := { kind := "ImageContentSourcePolicyList",
                          apiVersion := "operator.openshift.io/v1alpha1" }
            items := [{ typeMeta := { kind := "", apiVersion := "" }
                        objectMeta := { name := "b" } }] })
          "/m/image-content-source-policy-list.json" ]) ∧
    (fetchProxy exEnv "/m").run =
      (.ok (), [ .clientGet .Proxy "cluster" "",
        .marshalToFile (.proxy
          { typeMeta := { kind := "Proxy", apiVersion := "config.openshift.io/v1" }
            objectMeta := { name := "cluster" } })
          "/m/proxy.json" ]) :=
  ⟨rfl, rfl, rfl, rfl, rfl⟩

/-! ### C5 -/

/-- C5: FetchClusterConfig is the fail-fast run of the seven steps in the order create config
dir, proxy, digest-mirror sets, cluster info, CA bundle, content-source policies, network
config. When it returns an error, that error is the one returned by some step k, every step
before k had succeeded, and the trace ends with the calls of step k: no later step ran. When
it returns success, every one of the seven steps ran and succeeded. -/
theorem C5_steps_run_in_order_fail_fast (env : Env) (dir : String) :
    FetchClusterConfig env dir = runStepsFailFast (gatherSteps env dir) ∧
    (gatherSteps env dir).length = 7 ∧
    (∀ e t1, (FetchClusterConfig env dir).run = (.error e, t1) →
      ∃ k step tk, (gatherSteps env dir)[k]? = some step ∧
        (runStepsFailFast ((gatherSteps env dir).take k)).run = (.ok (), tk) ∧
        step tk = (.error e, t1)) ∧
    (∀ t1, (FetchClusterConfig env dir).run = (.ok (), t1) →
      ∀ k step, (gatherSteps env dir)[k]? = some step →
        ∃ tk tk1, (runStepsFailFast ((gatherSteps env dir).take k)).run = (.ok (), tk) ∧
          step tk = (.ok (), tk1)) := by
  refine ⟨FetchClusterConfig_eq_runSteps env dir, rfl, ?_, ?_⟩
  · intro e t1 h
    rw [FetchClusterConfig_eq_runSteps] at h
    exact runStepsFailFast_first_error _ [] e t1 h
  · intro t1 h
    rw [FetchClusterConfig_eq_runSteps] at h
    exact runStepsFailFast_all_ok _ [] t1 h

/-- C5 witness: when the read of the kubeadmin secret is refused, the gather of the example
cluster returns the error of its fourth step, after three successful steps. -/
theorem C5_witness :
    ∃ k step tk, (gatherSteps c9EnvSecret "/var")[k]? = some step ∧
      (runStepsFailFast ((gatherSteps c9EnvSecret "/var").take k)).run = (.ok (), tk) ∧
      step tk = (FetchClusterConfig c9EnvSecret "/var").run :=
  (C5_steps_run_in_order_fail_fast c9EnvSecret "/var").2.2.1
    (.wrapped "failed to get kubeadmin password hash" (.other "secrets kubeadmin is forbidden"))
    _ rfl

/-! ### C6 -/

/-- C6: if listing ImageDigestMirrorSets fails, fetchIDMS returns that error after the list
call alone, FetchClusterConfig returns an error, and no digest-mirror-set list is written
anywhere in the run; the same holds for listing ImageContentSourcePolicies, fetchICSPs and
the content-source-policy list. -/
theorem C6_failed_list_is_fatal_and_writes_nothing (env : Env) (dir : String) :
    (∀ err, env.listIDMS = .error err →
      (∀ m t, fetchIDMS env m t = (.error err, t ++ [Event.clientList .ImageDigestMirrorSetList])) ∧
      isError (FetchClusterConfig env dir).run.1 = true ∧
      ∀ l p, Event.marshalToFile (.idmsList l) p ∉ (FetchClusterConfig env dir).run.2) ∧
    (∀ err, env.listICSP = .error err →
      (∀ m t, fetchICSPs env m t =
        (.error err, t ++ [Event.clientList .ImageContentSourcePolicyList])) ∧
      isError (FetchClusterConfig env dir).run.1 = true ∧
      ∀ l p, Event.marshalToFile (.icspList l) p ∉ (FetchClusterConfig env dir).run.2) := by
  constructor
  · intro err herr
    have hstep := fun m t => fetchIDMS_list_error env m err herr t
    refine ⟨hstep, ?_, ?_⟩
    · have hf : (FetchClusterConfig env dir).alwaysFails := by
        rw [FetchClusterConfig_eq_runSteps]
        refine runStepsFailFast_alwaysFails _ ⟨fetchIDMS env (manifestsDirOf env dir), ?_, ?_⟩
        · simp [gatherSteps]
        · intro t; exact ⟨err, by rw [hstep]⟩
      obtain ⟨e, he⟩ := hf []
      simp [Gather.run, he, isError]
    · intro l p hmem
      have h := emitsOnly_run _ _ (FetchClusterConfig_emitsOnly env dir (fun d => !d.isIdmsList)
        (fun d h => by cases d <;> simp_all [Manifest.isProxy, Manifest.isSeedReconfiguration,
          Manifest.isConfigMap, Manifest.isIdmsList])
        (emitsOnly_of_eq_append _ _ _ _ (hstep _) rfl)
        (emitsOnly_mono _ _ _ (fetchICSPs_emitsOnly _ _)
          (writesOnly_mono _ _ (fun d h => by cases d <;> simp_all [Manifest.isIcspList,
            Manifest.isIdmsList])))) _ hmem
      simp [Event.writesOnly, Manifest.isIdmsList] at h
  · intro err herr
    have hstep := fun m t => fetchICSPs_list_error env m err herr t
    refine ⟨hstep, ?_, ?_⟩
    · have hf : (FetchClusterConfig env dir).alwaysFails := by
        rw [FetchClusterConfig_eq_runSteps]
        refine runStepsFailFast_alwaysFails _ ⟨fetchICSPs env (manifestsDirOf env dir), ?_, ?_⟩
        · simp [gatherSteps]
        · intro t; exact ⟨err, by rw [hstep]⟩
      obtain ⟨e, he⟩ := hf []
      simp [Gather.run, he, isError]
    · intro l p hmem
      have h := emitsOnly_run _ _ (FetchClusterConfig_emitsOnly env dir (fun d => !d.isIcspList)
        (fun d h => by cases d <;> simp_all [Manifest.isProxy, Manifest.isSeedReconfiguration,
          Manifest.isConfigMap, Manifest.isIcspList])
        (emitsOnly_mono _ _ _ (fetchIDMS_emitsOnly _ _)
          (writesOnly_mono _ _ (fun d h => by cases d <;> simp_all [Manifest.isIcspList,
            Manifest.isIdmsList])))
        (emitsOnly_of_eq_append _ _ _ _ (hstep _) rfl)) _ hmem
      simp [Event.writesOnly, Manifest.isIcspList] at h

/-- C6 witness: a failed list of either kind fails the gather of the example cluster. -/
theorem C6_witness :
    (isError (FetchClusterConfig c6EnvIdms "/var").run.1 = true ∧
      ∀ l p, Event.marshalToFile (.idmsList l) p ∉ (FetchClusterConfig c6EnvIdms "/var").run.2) ∧
    (isError (FetchClusterConfig c6EnvIcsp "/var").run.1 = true ∧
      ∀ l p, Event.marshalToFile (.icspList l) p ∉ (FetchClusterConfig c6EnvIcsp "/var").run.2) :=
  ⟨((C6_failed_list_is_fatal_and_writes_nothing c6EnvIdms "/var").1 _ rfl).2,
    ((C6_failed_list_is_fatal_and_writes_nothing c6EnvIcsp "/var").2 _ rfl).2⟩

/-! ### C7 -/

/-- C7 (as stated, refuted): with a scheme that cannot resolve the list type, fetchIDMS on
an empty list of ImageDigestMirrorSets returns an error instead of success, and on a
non-empty list neither fetchIDMS nor fetchICSPs writes a file. -/
theorem C7_counterexample :
    (c7EnvEmpty.listIDMS = .ok { items := [] } ∧
      (fetchIDMS c7EnvEmpty "/m").run =
        (.error (.other "no kind is registered for the type"),
          [.clientList .ImageDigestMirrorSetList])) ∧
    (c7EnvUnregistered.listIDMS = .ok { items := [{ objectMeta := { name := "a", uid := "u2" } }] } ∧
      (fetchIDMS c7EnvUnregistered "/m").run =
        (.error (.other "no kind is registered for the type"),
          [.clientList .ImageDigestMirrorSetList])) ∧
    (c7EnvUnregistered.listICSP = .ok { items := [{ objectMeta := { name := "b", uid := "u3" } }] } ∧
      (fetchICSPs c7EnvUnregistered "/m").run =
        (.error (.other "no kind is registered for the type"),
          [.clientList .ImageContentSourcePolicyList])) :=
  ⟨⟨rfl, rfl⟩, ⟨rfl, rfl⟩, ⟨rfl, rfl⟩⟩

/-- C7 (amended): on an empty list of ImageDigestMirrorSets fetchIDMS makes the list call
and no write, and returns success when the scheme resolves the list type; on an empty list
of ImageContentSourcePolicies fetchICSPs makes the list call and no write and returns
success. Conversely, on a non-empty list for which the scheme lookups of the step succeed,
the step calls MarshalToFile on its file with the copied items and returns what the write
returns. -/
theorem C7_empty_list_writes_nothing_nonempty_is_written (env : Env) (m : String)
    (t : List Event) :
    (∀ l, env.listIDMS = .ok l → l.items = [] →
      (fetchIDMS env m t).2 = t ++ [Event.clientList .ImageDigestMirrorSetList] ∧
      (∀ tm, typeMetaForObject env.scheme .ImageDigestMirrorSetList = .ok tm →
        (fetchIDMS env m t).1 = .ok ())) ∧
    (∀ l, env.listICSP = .ok l → l.items = [] →
      fetchICSPs env m t = (.ok (), t ++ [Event.clientList .ImageContentSourcePolicyList])) ∧
    (∀ l tm, env.listIDMS = .ok l → l.items ≠ [] →
      typeMetaForObject env.scheme .ImageDigestMirrorSetList = .ok tm →
      fetchIDMS env m t =
        callErr (.marshalToFile (.idmsList { typeMeta := tm, items := l.items.map idmsCopy })
            (filepathJoin [m, idmsFileName]))
          (env.marshalToFile (.idmsList { typeMeta := tm, items := l.items.map idmsCopy })
            (filepathJoin [m, idmsFileName]))
          (t ++ [Event.clientList .ImageDigestMirrorSetList])) ∧
    (∀ l tmItem tm, env.listICSP = .ok l → l.items ≠ [] →
      typeMetaForObject env.scheme .ImageContentSourcePolicy = .ok tmItem →
      typeMetaForObject env.scheme .ImageContentSourcePolicyList = .ok tm →
      fetchICSPs env m t =
        wrapErr ("failed to write icsps to " ++ filepathJoin [m, icspsFileName] ++ ", err")
          (callErr (.marshalToFile (.icspList { typeMeta := tm, items := l.items.map icspCopy })
              (filepathJoin [m, icspsFileName]))
            (env.marshalToFile (.icspList { typeMeta := tm, items := l.items.map icspCopy })
              (filepathJoin [m, icspsFileName])))
          (t ++ [Event.clientList .ImageContentSourcePolicyList])) := by
  refine ⟨?_, ?_, ?_, ?_⟩
  · intro l hl hempty
    constructor
    · simp only [fetchIDMS, getIDMSs, bind_apply, call, hl, liftExcept, hempty, getIDMSsLoop]
      cases typeMetaForObject env.scheme .ImageDigestMirrorSetList <;> simp [pure_apply]
    · intro tm htm
      simp [fetchIDMS, getIDMSs, bind_apply, call, hl, liftExcept, hempty, getIDMSsLoop, htm,
        pure_apply]
  · intro l hl hempty
    simp [fetchICSPs, bind_apply, call, hl, hempty, pure_apply]
  · intro l tm hl hne htm
    have hlen : ¬ (l.items.map idmsCopy).length < 1 := by
      cases hi : l.items with
      | nil => exact absurd hi hne
      | cons a b => simp
    simp only [fetchIDMS, getIDMSs, bind_apply, call, hl, liftExcept,
      getIDMSsLoop_ok env tm htm, htm, pure_apply, List.nil_append]
    simp only [hlen, if_false]
  · intro l tmItem tm hl hne htmi htm
    have hlen : ¬ l.items.length < 1 := by
      cases hi : l.items with
      | nil => exact absurd hi hne
      | cons a b => simp
    simp only [fetchICSPs, bind_apply, call, hl, liftExcept, hlen, if_false,
      fetchICSPsLoop_ok env tmItem htmi, htm, List.nil_append]

/-- C7 witness: the example cluster without policies gathers both steps with the list call
alone; the example cluster with one policy of each kind writes both files. -/
theorem C7_witness :
    ((fetchIDMS c7EnvNoPolicies "/m" []).2 = [] ++ [Event.clientList .ImageDigestMirrorSetList] ∧
      (fetchIDMS c7EnvNoPolicies "/m" []).1 = .ok ()) ∧
    fetchICSPs c7EnvNoPolicies "/m" [] =
      (.ok (), [] ++ [Event.clientList .ImageContentSourcePolicyList]) ∧
    fetchIDMS exEnv "/m" [] =
      (.ok (), [ .clientList .ImageDigestMirrorSetList,
        .marshalToFile (.idmsList
          { typeMeta := { kind := "ImageDigestMirrorSetList", apiVersion := "config.openshift.io/v1" }
            items := [{ objectMeta := { name := "a" } }] })
          "/m/image-digest-mirror-set.json" ]) :=
  have h := C7_empty_list_writes_nothing_nonempty_is_written c7EnvNoPolicies "/m" []
  have h2 := C7_empty_list_writes_nothing_nonempty_is_written exEnv "/m" []
  ⟨⟨(h.1 {} rfl rfl).1, (h.1 {} rfl rfl).2 _ rfl⟩, h.2.1 {} rfl rfl,
    (h2.2.2.1 _ _ rfl (by decide) rfl).trans rfl⟩

/-! ### C8 -/

/-- C8: when the get of the user-ca-bundle config map fails with not-found, fetchCABundle
returns success after the get alone (no write, no copy), and once the four steps before it
have succeeded FetchClusterConfig goes on with the content-source policies and then the
network config: its outcome is theirs. -/
theorem C8_absent_ca_bundle_is_skipped (env : Env) (err : GoError)
    (hget : env.getConfigMap caBundleCMName env.common.OpenshiftConfigNamespace = .error err)
    (hnf : err.isNotFound = true) :
    (∀ m c t, fetchCABundle env m c t = (.ok (), t ++ [caBundleLookup env])) ∧
    (∀ dir tk, (runStepsFailFast ((gatherSteps env dir).take 4)).run = (.ok (), tk) →
      (FetchClusterConfig env dir).run =
        (fetchICSPs env (manifestsDirOf env dir) >>= fun _ => fetchNetworkConfig env dir)
          (tk ++ [caBundleLookup env])) := by
  have h1 := fetchCABundle_notFound env err hget hnf
  refine ⟨h1, ?_⟩
  intro dir tk h4
  unfold Gather.run at h4 ⊢
  rw [FetchClusterConfig_eq_runSteps, gatherSteps_split, runStepsFailFast_append _ _ [] tk h4]
  simp only [runStepsFailFast, h1, bind_apply]
  rcases fetchICSPs env (manifestsDirOf env dir) (tk ++ [caBundleLookup env]) with ⟨r, t2⟩
  cases r with
  | error e => rfl
  | ok u =>
    dsimp only
    rcases fetchNetworkConfig env dir t2 with ⟨r2, t3⟩
    cases r2 <;> rfl

/-- C8 witness: on the example cluster without a user-ca-bundle config map the gather
succeeds; after the get of the config map come the list of content-source policies, their
file, and the network config, and no config map is written. -/
theorem C8_witness :
    c8Env.getConfigMap caBundleCMName c8Env.common.OpenshiftConfigNamespace =
      .error (.notFound "configmaps user-ca-bundle not found") ∧
    fetchCABundle c8Env "/m" "/c" [] = (.ok (), [] ++ [caBundleLookup c8Env]) ∧
    (FetchClusterConfig c8Env "/var").run.1 = .ok () ∧
    (FetchClusterConfig c8Env "/var").run.2.drop 12 =
      [ caBundleLookup c8Env,
        .clientList .ImageContentSourcePolicyList,
        .marshalToFile (.icspList
          { typeMeta := { kind := "ImageContentSourcePolicyList",
                          apiVersion := "operator.openshift.io/v1alpha1" }
            items := [{ objectMeta := { name := "b" } }] })
          "/var/opt/openshift/cluster-configuration/manifests/image-content-source-policy-list.json",
        .mkdirAll "/var/opt/openshift/network-configuration",
        .copyFileIfExists "/host/etc/NetworkManager/system-connections"
          "/var/opt/openshift/network-configuration/system-connections" ] :=
  ⟨rfl, (C8_absent_ca_bundle_is_skipped c8Env _ rfl rfl).1 "/m" "/c" [], rfl, by decide⟩

/-! ### C9 -/

/-- C9: a failure of the kubeadmin secret lookup that is not a not-found error makes
GetKubeadminPasswordHash return an error wrapping it, fetchClusterInfo fail and
FetchClusterConfig return an error; a failure of the get of the user-ca-bundle config map
that is not a not-found error makes fetchCABundle return an error wrapping it, without any
write, and FetchClusterConfig return an error. -/
theorem C9_other_get_failures_are_fatal (env : Env) (err : GoError)
    (hnf : err.isNotFound = false) :
    (env.getSecretData "kubeadmin" "kube-system" "kubeadmin" = .error err →
      (∀ t, GetKubeadminPasswordHash env t =
        (.error (.wrapped "failed to get kubeadmin password hash" err), t ++ [kubeadminLookup])) ∧
      (∀ path, (fetchClusterInfo env path).alwaysFails) ∧
      (∀ dir, isError (FetchClusterConfig env dir).run.1 = true)) ∧
    (env.getConfigMap caBundleCMName env.common.OpenshiftConfigNamespace = .error err →
      (∀ m c t, fetchCABundle env m c t =
        (.error (.wrapped "failed to get ca bundle cm, err" err), t ++ [caBundleLookup env])) ∧
      (∀ dir, isError (FetchClusterConfig env dir).run.1 = true)) := by
  constructor
  · intro hget
    have h1 := GetKubeadminPasswordHash_other env err hget hnf
    have h2 : ∀ path, (fetchClusterInfo env path).alwaysFails := by
      intro path
      unfold fetchClusterInfo
      refine alwaysFails_bind_right _ _ (fun _ => ?_)
      refine alwaysFails_bind_right _ _ (fun _ => ?_)
      refine alwaysFails_bind_right _ _ (fun _ => ?_)
      refine alwaysFails_bind_right _ _ (fun _ => ?_)
      refine alwaysFails_bind_right _ _ (fun _ => ?_)
      refine alwaysFails_bind_left _ _ (fun t => ⟨_, by rw [h1]⟩)
    refine ⟨h1, h2, fun dir => ?_⟩
    exact FetchClusterConfig_fails_of_step env dir
      (fetchClusterInfo env (clusterConfigPathOf env dir)) (by simp [gatherSteps]) (h2 _)
  · intro hget
    have h1 := fetchCABundle_other env err hget hnf
    refine ⟨h1, fun dir => ?_⟩
    exact FetchClusterConfig_fails_of_step env dir
      (fetchCABundle env (manifestsDirOf env dir) (clusterConfigPathOf env dir))
      (by simp [gatherSteps]) (fun t => ⟨_, by rw [h1]⟩)

/-- C9 witness: a forbidden read of the kubeadmin secret and a timed-out get of the config
map each fail the gather of the example cluster with the wrapped error. -/
theorem C9_witness :
    (GetKubeadminPasswordHash c9EnvSecret).run =
      (.error (.wrapped "failed to get kubeadmin password hash"
        (.other "secrets kubeadmin is forbidden")), [] ++ [kubeadminLookup]) ∧
    (FetchClusterConfig c9EnvSecret "/var").run.1 =
      .error (.wrapped "failed to get kubeadmin password hash"
        (.other "secrets kubeadmin is forbidden")) ∧
    (fetchCABundle c9EnvConfigMap "/m" "/c").run =
      (.error (.wrapped "failed to get ca bundle cm, err" (.other "context deadline exceeded")),
        [] ++ [caBundleLookup c9EnvConfigMap]) ∧
    (FetchClusterConfig c9EnvConfigMap "/var").run.1 =
      .error (.wrapped "failed to get ca bundle cm, err" (.other "context deadline exceeded")) :=
  ⟨((C9_other_get_failures_are_fatal c9EnvSecret (.other "secrets kubeadmin is forbidden") rfl).1
      rfl).1 [], rfl,
    ((C9_other_get_failures_are_fatal c9EnvConfigMap (.other "context deadline exceeded") rfl).2
      rfl).1 "/m" "/c" [], rfl⟩

/-! ### C10 -/

/-- C10: every config map fetchCABundle writes is a copy of the user-ca-bundle config map
read from the cluster whose object metadata consists of the original's name, namespace and
labels, every other metadata field being empty; data, binary data and the immutable flag
are the original's. -/
theorem C10_ca_bundle_copy_keeps_name_namespace_labels (env : Env) (m c : String)
    (cm : ConfigMap) (p : String)
    (h : Event.marshalToFile (.configMap cm) p ∈ (fetchCABundle env m c).run.2) :
    ∃ orig, env.getConfigMap caBundleCMName env.common.OpenshiftConfigNamespace = .ok orig ∧
      cm.objectMeta =
        { name := orig.objectMeta.name, namespace_ := orig.objectMeta.namespace_,
          labels := orig.objectMeta.labels, generateName := "", selfLink := "", uid := "",
          resourceVersion := "", generation := 0, creationTimestamp := "",
          deletionTimestamp := none, deletionGracePeriodSeconds := none, annotations := [],
          ownerReferences := [], finalizers := [], managedFields := [] } ∧
      cm.data = orig.data ∧ cm.binaryData = orig.binaryData ∧ cm.immutable = orig.immutable ∧
      p = filepathJoin [m, caBundleFileName] := by
  simp only [Gather.run, fetchCABundle, bind_apply, attempt, call, List.nil_append] at h
  cases hget : env.getConfigMap caBundleCMName env.common.OpenshiftConfigNamespace with
  | error err =>
    rw [hget] at h
    dsimp only at h
    split at h <;> simp [pure_apply, fail] at h
  | ok orig =>
    rw [hget] at h
    refine ⟨orig, rfl, ?_⟩
    dsimp only at h
    cases htm : typeMetaForObject env.scheme .ConfigMap with
    | error e => simp [liftExcept, htm, bind_apply] at h
    | ok tm =>
      simp only [liftExcept, htm, bind_apply, wrapErr, callErr] at h
      generalize env.marshalToFile _ _ = w at h
      generalize env.copyFileIfExists _ _ = w2 at h
      cases w <;> cases w2 <;> simp at h <;>
        (obtain ⟨h1, h2⟩ := h; subst h1 h2; simp [cleanObjectMetadata])

/-- C10 witness: the example cluster's user-ca-bundle carries a UID, a resource version,
annotations and managed fields; the written copy keeps its name, namespace and labels. -/
theorem C10_witness :
    Event.marshalToFile (.configMap c10Written) "/m/user-ca-bundle.json" ∈
      (fetchCABundle exEnv "/m" "/c").run.2 ∧
    c10Written.objectMeta =
      { name := "user-ca-bundle", namespace_ := "openshift-config", labels := [("k", "v")] } ∧
    ∃ orig, exEnv.getConfigMap caBundleCMName exEnv.common.OpenshiftConfigNamespace = .ok orig ∧
      c10Written.objectMeta =
        { name := orig.objectMeta.name, namespace_ := orig.objectMeta.namespace_,
          labels := orig.objectMeta.labels, generateName := "", selfLink := "", uid := "",
          resourceVersion := "", generation := 0, creationTimestamp := "",
          deletionTimestamp := none, deletionGracePeriodSeconds := none, annotations := [],
          ownerReferences := [], finalizers := [], managedFields := [] } ∧
      c10Written.data = orig.data ∧ c10Written.binaryData = orig.binaryData ∧
      c10Written.immutable = orig.immutable ∧
      "/m/user-ca-bundle.json" = filepathJoin ["/m", caBundleFileName] :=
  ⟨by decide, rfl,
    C10_ca_bundle_copy_keeps_name_namespace_labels exEnv "/m" "/c" c10Written
      "/m/user-ca-bundle.json" (by decide)⟩

theorem getIDMSs_ok (env : Env) (l : ImageDigestMirrorSetList) (tm : TypeMeta)
    (hl : env.listIDMS = .ok l)
    (htm : typeMetaForObject env.scheme .ImageDigestMirrorSetList = .ok tm) (t : List Event) :
    getIDMSs env t =
      (.ok { typeMeta := tm, items := l.items.map idmsCopy },
        t ++ [Event.clientList .ImageDigestMirrorSetList]) := by
  simp only [getIDMSs, bind_apply, call, hl, liftExcept, getIDMSsLoop_ok env tm htm, htm,
    pure_apply, List.nil_append]

theorem fetchICSPs_nonempty (env : Env) (l : ImageContentSourcePolicyList) (tmItem tm : TypeMeta)
    (hl : env.listICSP = .ok l) (hne : l.items ≠ [])
    (htmi : typeMetaForObject env.scheme .ImageContentSourcePolicy = .ok tmItem)
    (htm : typeMetaForObject env.scheme .ImageContentSourcePolicyList = .ok tm)
    (m : String) (t : List Event) :
    fetchICSPs env m t =
      wrapErr ("failed to write icsps to " ++ filepathJoin [m, icspsFileName] ++ ", err")
        (callErr (.marshalToFile (.icspList { typeMeta := tm, items := l.items.map icspCopy })
            (filepathJoin [m, icspsFileName]))
          (env.marshalToFile (.icspList { typeMeta := tm, items := l.items.map icspCopy })
            (filepathJoin [m, icspsFileName])))
        (t ++ [Event.clientList .ImageContentSourcePolicyList]) := by
  have hlen : ¬ l.items.length < 1 := by
    cases hi : l.items with
    | nil => exact absurd hi hne
    | cons a b => simp
  simp only [fetchICSPs, bind_apply, call, hl, liftExcept, hlen, if_false,
    fetchICSPsLoop_ok env tmItem htmi, htm, List.nil_append]

theorem mem_wrapErr_callErr (msg : String) (ev : Event) (r : Option GoError) (t : List Event) :
    ev ∈ (wrapErr msg (callErr ev r) t).2 := by
  cases r <;> simp [wrapErr, callErr]

/-! ### C11 -/

/-- C11 (as stated, refuted): the cluster returns one ImageDigestMirrorSet and one
ImageContentSourcePolicy, the scheme resolves no type; getIDMSs returns an error, not a
list with one item, and fetchICSPs builds and writes no list. -/
theorem C11_counterexample :
    c7EnvUnregistered.listIDMS = .ok { items := [{ objectMeta := { name := "a", uid := "u2" } }] } ∧
    (getIDMSs c7EnvUnregistered).run =
      (.error (.other "no kind is registered for the type"),
        [.clientList .ImageDigestMirrorSetList]) ∧
    c7EnvUnregistered.listICSP = .ok { items := [{ objectMeta := { name := "b", uid := "u3" } }] } ∧
    (fetchICSPs c7EnvUnregistered "/m").run =
      (.error (.other "no kind is registered for the type"),
        [.clientList .ImageContentSourcePolicyList]) :=
  ⟨rfl, rfl, rfl, rfl⟩

/-- C11 (amended): when the scheme resolves the kind of the list, getIDMSs returns, for
every list of ImageDigestMirrorSets the cluster returns, a list with the same number of
items in the same order, each item having the name, namespace and spec of the original at
the same position and an empty resource version, UID and managed fields. When the scheme
resolves the kinds of the item and of the list, the same holds for the list fetchICSPs
builds and hands to MarshalToFile for a non-empty list of ImageContentSourcePolicies. -/
theorem C11_copies_keep_order_name_namespace_spec (env : Env) :
    (∀ l tm, env.listIDMS = .ok l →
      typeMetaForObject env.scheme .ImageDigestMirrorSetList = .ok tm →
      ∀ t, ∃ out : ImageDigestMirrorSetList, getIDMSs env t = (.ok out, t ++ [Event.clientList .ImageDigestMirrorSetList]) ∧
        out.items.length = l.items.length ∧
        ∀ (i : Nat) (orig : ImageDigestMirrorSet), l.items[i]? = some orig → ∃ c : ImageDigestMirrorSet, out.items[i]? = some c ∧
          c.objectMeta.name = orig.objectMeta.name ∧
          c.objectMeta.namespace_ = orig.objectMeta.namespace_ ∧ c.spec = orig.spec ∧
          c.objectMeta.resourceVersion = "" ∧ c.objectMeta.uid = "" ∧
          c.objectMeta.managedFields = []) ∧
    (∀ l tmItem tm, env.listICSP = .ok l → l.items ≠ [] →
      typeMetaForObject env.scheme .ImageContentSourcePolicy = .ok tmItem →
      typeMetaForObject env.scheme .ImageContentSourcePolicyList = .ok tm →
      ∀ m t, ∃ out : ImageContentSourcePolicyList, Event.marshalToFile (.icspList out) (filepathJoin [m, icspsFileName]) ∈
          (fetchICSPs env m t).2 ∧
        out.items.length = l.items.length ∧
        ∀ (i : Nat) (orig : ImageContentSourcePolicy), l.items[i]? = some orig → ∃ c : ImageContentSourcePolicy, out.items[i]? = some c ∧
          c.objectMeta.name = orig.objectMeta.name ∧
          c.objectMeta.namespace_ = orig.objectMeta.namespace_ ∧ c.spec = orig.spec ∧
          c.objectMeta.resourceVersion = "" ∧ c.objectMeta.uid = "" ∧
          c.objectMeta.managedFields = []) := by
  constructor
  · intro l tm hl htm t
    refine ⟨_, getIDMSs_ok env l tm hl htm t, by simp, ?_⟩
    intro i orig hi
    exact ⟨idmsCopy orig, by simp [List.getElem?_map, hi], rfl, rfl, rfl, rfl, rfl, rfl⟩
  · intro l tmItem tm hl hne htmi htm m t
    refine ⟨{ typeMeta := tm, items := l.items.map icspCopy }, ?_, by simp, ?_⟩
    · rw [fetchICSPs_nonempty env l tmItem tm hl hne htmi htm m t]
      exact mem_wrapErr_callErr _ _ _ _
    · intro i orig hi
      exact ⟨icspCopy orig, by simp [List.getElem?_map, hi], rfl, rfl, rfl, rfl, rfl, rfl⟩

/-- C11 witness: on the example cluster getIDMSs returns the one item under its name with
the UID gone. -/
theorem C11_witness :
    ∃ out : ImageDigestMirrorSetList, getIDMSs exEnv [] = (.ok out, [] ++ [Event.clientList .ImageDigestMirrorSetList]) ∧
      out.items.length = 1 ∧
      ∀ (i : Nat) (orig : ImageDigestMirrorSet),
        ([{ objectMeta := { name := "a", uid := "u2" } }] : List ImageDigestMirrorSet)[i]? =
          some orig →
        ∃ c : ImageDigestMirrorSet, out.items[i]? = some c ∧
          c.objectMeta.name = orig.objectMeta.name ∧
          c.objectMeta.namespace_ = orig.objectMeta.namespace_ ∧ c.spec = orig.spec ∧
          c.objectMeta.resourceVersion = "" ∧ c.objectMeta.uid = "" ∧
          c.objectMeta.managedFields = [] :=
  (C11_copies_keep_order_name_namespace_spec exEnv).1
    { items := [{ objectMeta := { name := "a", uid := "u2" } }] } _ rfl rfl []

theorem load_marshal (s : SeedReconfiguration) :
    loadSeedReconfiguration s.APIVersion (marshalSeedReconfiguration s) = .ok s := by
  simp [loadSeedReconfiguration, marshalSeedReconfiguration, readStr, List.lookup, bind,
    Except.bind, pure, Except.pure]

theorem GetKubeadminPasswordHash_apply (env : Env) (t : List Event) :
    GetKubeadminPasswordHash env t =
      ((GetKubeadminPasswordHash env).run.1, t ++ [kubeadminLookup]) := by
  cases hget : env.getSecretData "kubeadmin" "kube-system" "kubeadmin" with
  | ok h =>
    rw [GetKubeadminPasswordHash_ok env h hget, Gather.run, GetKubeadminPasswordHash_ok env h hget]
  | error err =>
    cases hnf : err.isNotFound with
    | true =>
      rw [GetKubeadminPasswordHash_notFound env err hget hnf, Gather.run,
        GetKubeadminPasswordHash_notFound env err hget hnf]
    | false =>
      rw [GetKubeadminPasswordHash_other env err hget hnf, Gather.run,
        GetKubeadminPasswordHash_other env err hget hnf]

/-- A descriptor fetchClusterInfo writes is the one SeedReconfigurationFromClusterInfo builds
from the facts the cluster returned. -/
theorem fetchClusterInfo_written (env : Env) (path : String) (s : SeedReconfiguration)
    (p : String)
    (hmem : Event.marshalToFile (.seedReconfiguration s) p ∈ (fetchClusterInfo env path).run.2) :
    ∃ clusterInfo retention sshKey infra pullSecret hash,
      env.getClusterInfo = .ok clusterInfo ∧ env.kubeconfigRetention = .ok retention ∧
      env.readFile (filepathJoin [hostPath env.common, sshKeyFile]) = .ok sshKey ∧
      env.getInfrastructure = .ok infra ∧
      env.getSecretData env.common.PullSecretName env.common.OpenshiftConfigNamespace
        DockerConfigJsonKey = .ok pullSecret ∧
      (GetKubeadminPasswordHash env).run.1 = .ok hash ∧
      s = SeedReconfigurationFromClusterInfo env.common clusterInfo retention sshKey
        infra.infrastructureName pullSecret hash ∧
      p = filepathJoin [path, env.common.SeedReconfigurationFileName] := by
  simp only [Gather.run, fetchClusterInfo, bind_apply, call, wrapErr, fetchSSHPublicKey,
    fetchInfraID, fetchPullSecret, callErr, pure_apply] at hmem
  cases h2 : env.getClusterInfo <;> rw [h2] at hmem <;> simp at hmem
  cases h3 : env.kubeconfigRetention <;> rw [h3] at hmem <;> simp at hmem
  cases h4 : env.readFile (filepathJoin [hostPath env.common, sshKeyFile]) <;> rw [h4] at hmem <;>
    simp at hmem
  cases h5 : env.getInfrastructure <;> rw [h5] at hmem <;> simp at hmem
  cases h6 : env.getSecretData env.common.PullSecretName env.common.OpenshiftConfigNamespace
    DockerConfigJsonKey <;> rw [h6] at hmem <;> simp at hmem
  rw [GetKubeadminPasswordHash_apply] at hmem
  cases h7 : (GetKubeadminPasswordHash env).run.1 with
  | error e => rw [h7] at hmem; simp [kubeadminLookup] at hmem
  | ok hash =>
    rw [h7] at hmem
    simp only at hmem
    generalize env.marshalToFile _ _ = w at hmem
    cases w <;> simp [kubeadminLookup] at hmem <;>
      exact ⟨_, _, _, _, _, hash, rfl, rfl, rfl, rfl, rfl, rfl, hmem.1, hmem.2⟩

/-! ### C12 -/

/-- C12: for every set of cluster facts, the descriptor SeedReconfigurationFromClusterInfo
builds, once serialised and read back by the loader for the current version, has baseDomain,
clusterName, clusterID, nodeIP, releaseRegistry and hostname equal to those of the cluster
info, infraID, sshKey, pullSecret, kubeadminPasswordHash and kubeconfigCryptoRetention equal
to the arguments, and apiVersion equal to SeedReconfigurationVersion; and every descriptor
fetchClusterInfo hands to MarshalToFile is the one built from the facts the cluster
returned. -/
theorem C12_descriptor_round_trip :
    (∀ (c : Common) (clusterInfo : ClusterInfo) (retention : KubeConfigCryptoRetention)
        (sshKey infraID pullSecret hash : String),
      ∃ d, loadSeedReconfiguration c.SeedReconfigurationVersion
          (marshalSeedReconfiguration (SeedReconfigurationFromClusterInfo c clusterInfo retention
            sshKey infraID pullSecret hash)) = .ok d ∧
        d.BaseDomain = clusterInfo.BaseDomain ∧ d.ClusterName = clusterInfo.ClusterName ∧
        d.ClusterID = clusterInfo.ClusterID ∧ d.NodeIP = clusterInfo.NodeIP ∧
        d.ReleaseRegistry = clusterInfo.ReleaseRegistry ∧ d.Hostname = clusterInfo.Hostname ∧
        d.InfraID = infraID ∧ d.SSHKey = sshKey ∧ d.PullSecret = pullSecret ∧
        d.KubeadminPasswordHash = hash ∧ d.KubeconfigCryptoRetention = retention ∧
        d.APIVersion = c.SeedReconfigurationVersion) ∧
    (∀ (env : Env) (path : String) (s : SeedReconfiguration) (p : String),
      Event.marshalToFile (.seedReconfiguration s) p ∈ (fetchClusterInfo env path).run.2 →
      ∃ clusterInfo retention sshKey infra pullSecret hash,
        env.getClusterInfo = .ok clusterInfo ∧ env.kubeconfigRetention = .ok retention ∧
        env.readFile (filepathJoin [hostPath env.common, sshKeyFile]) = .ok sshKey ∧
        env.getInfrastructure = .ok infra ∧
        env.getSecretData env.common.PullSecretName env.common.OpenshiftConfigNamespace
          DockerConfigJsonKey = .ok pullSecret ∧
        (GetKubeadminPasswordHash env).run.1 = .ok hash ∧
        s = SeedReconfigurationFromClusterInfo env.common clusterInfo retention sshKey
          infra.infrastructureName pullSecret hash ∧
        p = filepathJoin [path, env.common.SeedReconfigurationFileName]) := by
  refine ⟨?_, fetchClusterInfo_written⟩
  intro c clusterInfo retention sshKey infraID pullSecret hash
  exact ⟨_, load_marshal (SeedReconfigurationFromClusterInfo c clusterInfo retention sshKey
    infraID pullSecret hash), rfl, rfl, rfl, rfl, rfl, rfl, rfl, rfl, rfl, rfl, rfl, rfl⟩

/-- C12 witness: the descriptor written for the example cluster, read back, names the
cluster sno.example.com with infrastructure name sno-abcde and version 1. -/
theorem C12_witness :
    Event.marshalToFile (.seedReconfiguration c12Descriptor) "/c/manifest.json" ∈
      (fetchClusterInfo exEnv "/c").run.2 ∧
    loadSeedReconfiguration 1 (marshalSeedReconfiguration c12Descriptor) = .ok c12Descriptor ∧
    ∃ d, loadSeedReconfiguration exCommon.SeedReconfigurationVersion
          (marshalSeedReconfiguration (SeedReconfigurationFromClusterInfo exCommon
            { BaseDomain := "example.com", ClusterName := "sno" } { material := "keys" }
            "ssh-rsa AAAA" "sno-abcde" "ps" "")) = .ok d ∧
        d.BaseDomain = "example.com" ∧ d.ClusterName = "sno" ∧
        d.ClusterID = "" ∧ d.NodeIP = "" ∧
        d.ReleaseRegistry = "" ∧ d.Hostname = "" ∧
        d.InfraID = "sno-abcde" ∧ d.SSHKey = "ssh-rsa AAAA" ∧ d.PullSecret = "ps" ∧
        d.KubeadminPasswordHash = "" ∧ d.KubeconfigCryptoRetention = { material := "keys" } ∧
        d.APIVersion = exCommon.SeedReconfigurationVersion :=
  ⟨by decide, rfl,
    C12_descriptor_round_trip.1 exCommon { BaseDomain := "example.com", ClusterName := "sno" }
      { material := "keys" } "ssh-rsa AAAA" "sno-abcde" "ps" ""⟩

/-! ### C13 -/

theorem kindSub_refl (a : TargetDir) : kindSub a a := fun _ _ h => h

theorem kindSub_trans {a b c : TargetDir} (h1 : kindSub a b) (h2 : kindSub b c) :
    kindSub a c := fun p k h => h2 p k (h1 p k h)

theorem sameKinds_refl (a : TargetDir) : sameKinds a a := fun _ => rfl

theorem sameKinds_symm {a b : TargetDir} (h : sameKinds a b) : sameKinds b a :=
  fun p => (h p).symm

theorem sameKinds_trans {a b c : TargetDir} (h1 : sameKinds a b) (h2 : sameKinds b c) :
    sameKinds a c := fun p => (h1 p).trans (h2 p)

theorem kindSub_of_sameKinds {a b : TargetDir} (h : sameKinds a b) : kindSub a b :=
  fun p k hp => by rw [← h p]; exact hp

theorem applyAssignments_append (l1 l2 : List (String × Node)) :
    ∀ fs : TargetDir, applyAssignments fs (l1 ++ l2) = applyAssignments (applyAssignments fs l1) l2 := by
  induction l1 with
  | nil => intro fs; rfl
  | cons a rest ih => intro fs; exact ih _

theorem applyAssignments_of_not_assigned (l : List (String × Node)) :
    ∀ (fs : TargetDir) (p : String), (∀ a ∈ l, a.1 ≠ p) → applyAssignments fs l p = fs p := by
  induction l with
  | nil => intro fs p _; rfl
  | cons a rest ih =>
    intro fs p h
    rw [applyAssignments, ih _ p (fun b hb => h b (List.mem_cons_of_mem _ hb))]
    have : a.1 ≠ p := h a (List.mem_cons_self _ _)
    simp [TargetDir.set, Ne.symm this]

theorem applyAssignments_of_assigned (l : List (String × Node)) :
    ∀ (fs fs1 : TargetDir) (p : String), (∃ a ∈ l, a.1 = p) →
      applyAssignments fs l p = applyAssignments fs1 l p := by
  induction l with
  | nil => intro fs fs1 p h; obtain ⟨a, ha, _⟩ := h; cases ha
  | cons b rest ih =>
    intro fs fs1 p h
    rw [applyAssignments, applyAssignments]
    by_cases hr : ∃ a ∈ rest, a.1 = p
    · exact ih _ _ p hr
    · have hn : ∀ a ∈ rest, a.1 ≠ p := fun a ha hap => hr ⟨a, ha, hap⟩
      obtain ⟨a, ha, hap⟩ := h
      have hbp : b.1 = p := by
        rcases List.mem_cons.mp ha with h1 | h1
        · rw [← h1]; exact hap
        · exact absurd hap (hn a h1)
      rw [applyAssignments_of_not_assigned rest _ p hn,
        applyAssignments_of_not_assigned rest _ p hn]
      simp [TargetDir.set, hbp]

theorem applyAssignments_idem (l : List (String × Node)) (fs : TargetDir) :
    applyAssignments (applyAssignments fs l) l = applyAssignments fs l := by
  funext p
  by_cases h : ∃ a ∈ l, a.1 = p
  · exact applyAssignments_of_assigned l _ _ p h
  · exact applyAssignments_of_not_assigned l _ p (fun a ha hap => h ⟨a, ha, hap⟩)

theorem fsBind_apply {α β : Type} (m : FsM α) (f : α → FsM β) (s : TargetDir) :
    (m >>= f) s = match m s with
      | (.ok a, s1) => f a s1
      | (.error e, s1) => (.error e, s1) := rfl

theorem Replays_const {α : Type} (r : Except GoError α) :
    Replays (fun s => (r, s) : FsM α) where
  grows := fun s => kindSub_refl s
  replay := fun _ t _ _ => ⟨[], rfl, rfl, sameKinds_refl t⟩

theorem Replays_pure {α : Type} (a : α) : Replays (pure a : FsM α) :=
  Replays_const (.ok a)

theorem Replays_bind {α β : Type} {m : FsM α} {f : α → FsM β} (hm : Replays m)
    (hf : ∀ a, Replays (f a)) : Replays (m >>= f) where
  grows := by
    intro s
    rw [fsBind_apply]
    have h1 := hm.grows s
    rcases h : m s with ⟨r, s1⟩
    rw [h] at h1
    cases r with
    | error e => exact h1
    | ok a => exact kindSub_trans h1 ((hf a).grows s1)
  replay := by
    intro s t hsub herr
    rw [fsBind_apply] at hsub herr
    rw [fsBind_apply, fsBind_apply]
    have hrep := hm.replay s t
    rcases h : m s with ⟨r, s1⟩
    rw [h] at hsub herr hrep
    cases r with
    | error e =>
      obtain ⟨W, h1, h2, h3⟩ := hrep hsub herr
      exact ⟨W, h1, by rw [h2], h3⟩
    | ok a =>
      simp only at hsub herr hrep ⊢
      obtain ⟨W1, h1, h2, h3⟩ := hrep (kindSub_trans ((hf a).grows s1) hsub)
        (fun hh => by cases hh)
      obtain ⟨W2, g1, g2, g3⟩ := (hf a).replay s1 (applyAssignments t W1)
        (kindSub_trans hsub (kindSub_of_sameKinds (sameKinds_symm h3)))
        (fun hh => sameKinds_trans (herr hh) (sameKinds_symm h3))
      refine ⟨W1 ++ W2, ?_, ?_, ?_⟩
      · rw [g1, h1, applyAssignments_append]
      · rw [h2]
        simp only
        rw [g2, applyAssignments_append]
      · rw [applyAssignments_append]
        exact sameKinds_trans g3 h3

theorem Replays.second_run {α : Type} {m : FsM α} (h : Replays m) (s : TargetDir) :
    m (m s).2 = m s := by
  obtain ⟨W, h1, h2, _⟩ := h.replay s (m s).2 (kindSub_refl _) (fun _ => sameKinds_refl _)
  rw [h2]
  refine Prod.ext rfl ?_
  show applyAssignments (m s).2 W = (m s).2
  rw [h1, applyAssignments_idem]

namespace OnDisk

theorem Replays_call {α : Type} (r : Except GoError α) : Replays (call r) :=
  Replays_const r

theorem Replays_liftExcept {α : Type} (r : Except GoError α) : Replays (liftExcept r) :=
  Replays_const r

theorem Replays_fail {α : Type} (e : GoError) : Replays (fail e : FsM α) :=
  Replays_const (.error e)

theorem Replays_failIf (r : Option GoError) : Replays (failIf r) := by
  cases r with
  | none => exact Replays_const (.ok ())
  | some e => exact Replays_const (.error e)

theorem Replays_attempt_call {α : Type} (r : Except GoError α) : Replays (attempt (call r)) :=
  Replays_const (.ok r)

theorem Replays_wrapErr {α : Type} (msg : String) {m : FsM α} (hm : Replays m) :
    Replays (wrapErr msg m) where
  grows := by
    intro s
    have h1 := hm.grows s
    unfold wrapErr
    rcases h : m s with ⟨r, s1⟩
    rw [h] at h1
    cases r <;> exact h1
  replay := by
    intro s t hsub herr
    have hrep := hm.replay s t
    unfold wrapErr at hsub herr ⊢
    rcases h : m s with ⟨r, s1⟩
    rw [h] at hsub herr hrep
    cases r with
    | error e =>
      obtain ⟨W, h1, h2, h3⟩ := hrep hsub (fun _ => herr rfl)
      exact ⟨W, h1, by simp only [h2], h3⟩
    | ok a =>
      obtain ⟨W, h1, h2, h3⟩ := hrep hsub (fun hh => by cases hh)
      exact ⟨W, h1, by simp only [h2], h3⟩

theorem kindOf_set (fs : TargetDir) (path : String) (n : Node) (p : String) :
    kindOf (fs.set path n) p = if p = path then some n.isDir else kindOf fs p := by
  unfold kindOf TargetDir.set
  split <;> rfl

theorem sameKinds_set_of_kind {t : TargetDir} {path : String} {n : Node}
    (h : kindOf t path = some n.isDir) : sameKinds (t.set path n) t := by
  intro p
  rw [kindOf_set]
  split
  · next hp => rw [hp, h]
  · rfl

theorem putNode_of_kind {t : TargetDir} {path : String} {n : Node}
    (h : kindOf t path = some n.isDir) : putNode path n t = (.ok (), t.set path n) := by
  unfold kindOf at h
  unfold putNode
  cases ht : t path with
  | none => rfl
  | some old =>
    rw [ht] at h
    simp only [Option.map_some', Option.some.injEq] at h
    simp [h]

theorem putNode_of_other_kind {t : TargetDir} {path : String} {n : Node} {k : Bool}
    (h : kindOf t path = some k) (hk : k ≠ n.isDir) :
    putNode path n t =
      (if n.isDir then .error (.other ("mkdir " ++ path ++ ": not a directory"))
        else .error (.other ("open " ++ path ++ ": is a directory")), t) := by
  unfold kindOf at h
  unfold putNode
  cases ht : t path with
  | none => rw [ht] at h; cases h
  | some old =>
    rw [ht] at h
    simp only [Option.map_some', Option.some.injEq] at h
    subst h
    simp only [hk, if_false]
    split <;> rfl

theorem Replays_putNode (path : String) (n : Node) : Replays (putNode path n) where
  grows := by
    intro s p k hk
    cases hs : kindOf s path with
    | none =>
      have : putNode path n s = (.ok (), s.set path n) := by
        unfold kindOf at hs
        unfold putNode
        cases h : s path with
        | none => rfl
        | some old => rw [h] at hs; cases hs
      rw [this, kindOf_set]
      split
      · next hp => rw [hp, hs] at hk; cases hk
      · exact hk
    | some k1 =>
      by_cases hk1 : k1 = n.isDir
      · rw [putNode_of_kind (hk1 ▸ hs), kindOf_set]
        split
        · next hp => rw [hp, hs] at hk; rw [← hk1]; exact hk
        · exact hk
      · rw [putNode_of_other_kind hs hk1]
        exact hk
  replay := by
    intro s t hsub herr
    cases hs : kindOf s path with
    | none =>
      have h0 : putNode path n s = (.ok (), s.set path n) := by
        unfold kindOf at hs
        unfold putNode
        cases h : s path with
        | none => rfl
        | some old => rw [h] at hs; cases hs
      rw [h0] at hsub ⊢
      have ht : kindOf t path = some n.isDir :=
        hsub path _ (by rw [kindOf_set]; simp)
      exact ⟨[(path, n)], rfl, putNode_of_kind ht, sameKinds_set_of_kind ht⟩
    | some k1 =>
      by_cases hk1 : k1 = n.isDir
      · have h0 := putNode_of_kind (hk1 ▸ hs)
        rw [h0] at hsub ⊢
        have ht : kindOf t path = some n.isDir :=
          hsub path _ (by rw [kindOf_set]; simp)
        exact ⟨[(path, n)], rfl, putNode_of_kind ht, sameKinds_set_of_kind ht⟩
      · have h0 := putNode_of_other_kind hs hk1
        rw [h0] at hsub ⊢
        have ht : kindOf t path = some k1 := hsub path _ hs
        exact ⟨[], rfl, putNode_of_other_kind ht hk1, sameKinds_refl t⟩

theorem requireDir_of_dir {t : TargetDir} {path : String} (h : kindOf t path = some true) :
    requireDir path t = (.ok (), t) := by
  unfold kindOf at h
  unfold requireDir
  cases ht : t path with
  | none => rw [ht] at h; cases h
  | some old =>
    cases old with
    | dir => rfl
    | file d => rw [ht] at h; cases h

theorem requireDir_of_file {t : TargetDir} {path : String} (h : kindOf t path = some false) :
    requireDir path t = (.error (.other ("open " ++ path ++ ": not a directory")), t) := by
  unfold kindOf at h
  unfold requireDir
  cases ht : t path with
  | none => rw [ht] at h; cases h
  | some old =>
    cases old with
    | dir => rw [ht] at h; cases h
    | file d => rfl

theorem requireDir_of_none {t : TargetDir} {path : String} (h : kindOf t path = none) :
    requireDir path t =
      (.error (.other ("open " ++ path ++ ": no such file or directory")), t) := by
  unfold kindOf at h
  unfold requireDir
  cases ht : t path with
  | none => rfl
  | some old => rw [ht] at h; cases h

theorem Replays_requireDir (path : String) : Replays (requireDir path) where
  grows := by
    intro s
    cases hs : kindOf s path with
    | none => rw [requireDir_of_none hs]; exact kindSub_refl s
    | some k =>
      cases k with
      | true => rw [requireDir_of_dir hs]; exact kindSub_refl s
      | false => rw [requireDir_of_file hs]; exact kindSub_refl s
  replay := by
    intro s t hsub herr
    cases hs : kindOf s path with
    | none =>
      rw [requireDir_of_none hs] at hsub herr ⊢
      have ht : kindOf t path = none := by rw [← herr rfl path]; exact hs
      exact ⟨[], rfl, requireDir_of_none ht, sameKinds_refl t⟩
    | some k =>
      cases k with
      | true =>
        rw [requireDir_of_dir hs] at hsub ⊢
        exact ⟨[], rfl, requireDir_of_dir (hsub path _ hs), sameKinds_refl t⟩
      | false =>
        rw [requireDir_of_file hs] at hsub ⊢
        exact ⟨[], rfl, requireDir_of_file (hsub path _ hs), sameKinds_refl t⟩

theorem Replays_makeFolders (l : List String) : Replays (makeFolders l) := by
  induction l with
  | nil => exact Replays_pure ()
  | cons p rest ih => exact Replays_bind (Replays_putNode p .dir) (fun _ => ih)

theorem Replays_osMkdirAll (path : String) : Replays (osMkdirAll path) :=
  Replays_makeFolders _

theorem Replays_osWriteFile (path : String) (data : FileData) :
    Replays (osWriteFile path data) :=
  Replays_bind (Replays_requireDir _) (fun _ => Replays_putNode _ _)

theorem Replays_mkdirAll (env : Env) (path : String) : Replays (mkdirAll env path) :=
  Replays_bind (Replays_failIf _) (fun _ => Replays_osMkdirAll _)

theorem Replays_marshalToFile (env : Env) (data : Manifest) (path : String) :
    Replays (marshalToFile env data path) :=
  Replays_bind (Replays_failIf _) (fun _ => Replays_osWriteFile _ _)

theorem Replays_copyFiles (dst : String) (l : List (String × String)) :
    Replays (copyFiles dst l) := by
  induction l with
  | nil => exact Replays_pure ()
  | cons f rest ih =>
    exact Replays_bind (Replays_osMkdirAll _)
      (fun _ => Replays_bind (Replays_osWriteFile _ _) (fun _ => ih))

theorem Replays_copyFileIfExists (env : Env) (host : HostFiles) (src dst : String) :
    Replays (copyFileIfExists env host src dst) := by
  unfold copyFileIfExists
  refine Replays_bind (Replays_failIf _) (fun _ => ?_)
  cases host src with
  | absent => exact Replays_pure ()
  | file content =>
    exact Replays_bind (Replays_osMkdirAll _) (fun _ => Replays_osWriteFile _ _)
  | folder files =>
    exact Replays_bind (Replays_osMkdirAll _) (fun _ => Replays_copyFiles _ _)

theorem Replays_configDir (env : Env) (ostreeVarDir : String) :
    Replays (configDir env ostreeVarDir) :=
  Replays_bind (Replays_mkdirAll _ _) (fun _ => Replays_pure _)

theorem Replays_fetchPullSecret (env : Env) : Replays (fetchPullSecret env) :=
  Replays_call _

theorem Replays_fetchProxy (env : Env) (manifestsDir : String) :
    Replays (fetchProxy env manifestsDir) :=
  Replays_bind (Replays_call _) (fun _ =>
    Replays_bind (Replays_liftExcept _) (fun _ => Replays_marshalToFile _ _ _))

theorem Replays_fetchSSHPublicKey (env : Env) : Replays (fetchSSHPublicKey env) :=
  Replays_call _

theorem Replays_fetchInfraID (env : Env) : Replays (fetchInfraID env) :=
  Replays_bind (Replays_wrapErr _ (Replays_call _)) (fun _ => Replays_pure _)

theorem Replays_GetKubeadminPasswordHash (env : Env) :
    Replays (GetKubeadminPasswordHash env) := by
  unfold GetKubeadminPasswordHash
  refine Replays_bind (Replays_attempt_call _) (fun r => ?_)
  cases r with
  | error err =>
    simp only
    cases IgnoreNotFound err with
    | some e => exact Replays_fail _
    | none => exact Replays_pure _
  | ok hash => exact Replays_pure _

theorem Replays_fetchClusterInfo (env : Env) (clusterConfigPath : String) :
    Replays (fetchClusterInfo env clusterConfigPath) :=
  Replays_bind (Replays_call _) (fun _ =>
    Replays_bind (Replays_wrapErr _ (Replays_call _)) (fun _ =>
      Replays_bind (Replays_fetchSSHPublicKey env) (fun _ =>
        Replays_bind (Replays_fetchInfraID env) (fun _ =>
          Replays_bind (Replays_fetchPullSecret env) (fun _ =>
            Replays_bind (Replays_GetKubeadminPasswordHash env) (fun _ =>
              Replays_marshalToFile _ _ _))))))

theorem Replays_getIDMSs (env : Env) : Replays (getIDMSs env) :=
  Replays_bind (Replays_call _) (fun _ =>
    Replays_bind (Replays_liftExcept _) (fun _ =>
      Replays_bind (Replays_liftExcept _) (fun _ => Replays_pure _)))

theorem Replays_fetchIDMS (env : Env) (manifestsDir : String) :
    Replays (fetchIDMS env manifestsDir) := by
  unfold fetchIDMS
  refine Replays_bind (Replays_getIDMSs env) (fun idms => ?_)
  split
  · exact Replays_pure _
  · exact Replays_marshalToFile _ _ _

theorem Replays_fetchICSPs (env : Env) (manifestsDir : String) :
    Replays (fetchICSPs env manifestsDir) := by
  unfold fetchICSPs
  refine Replays_bind (Replays_call _) (fun currentIcps => ?_)
  split
  · exact Replays_pure _
  · exact Replays_bind (Replays_liftExcept _) (fun _ =>
      Replays_bind (Replays_liftExcept _) (fun _ =>
        Replays_wrapErr _ (Replays_marshalToFile _ _ _)))

theorem Replays_fetchCABundle (env : Env) (host : HostFiles)
    (manifestsDir clusterConfigPath : String) :
    Replays (fetchCABundle env host manifestsDir clusterConfigPath) := by
  unfold fetchCABundle
  refine Replays_bind (Replays_attempt_call _) (fun r => ?_)
  cases r with
  | error err =>
    simp only
    split
    · exact Replays_pure _
    · exact Replays_fail _
  | ok caBundle =>
    exact Replays_bind (Replays_liftExcept _) (fun _ =>
      Replays_bind (Replays_wrapErr _ (Replays_marshalToFile _ _ _)) (fun _ =>
        Replays_wrapErr _ (Replays_copyFileIfExists _ _ _ _)))

theorem Replays_fetchNetworkConfigLoop (env : Env) (host : HostFiles) (dir : String)
    (l : List String) : Replays (fetchNetworkConfigLoop env host dir l) := by
  induction l with
  | nil => exact Replays_pure ()
  | cons path rest ih =>
    exact Replays_bind (Replays_wrapErr _ (Replays_copyFileIfExists _ _ _ _)) (fun _ => ih)

theorem Replays_fetchNetworkConfig (env : Env) (host : HostFiles) (ostreeDir : String) :
    Replays (fetchNetworkConfig env host ostreeDir) :=
  Replays_bind (Replays_wrapErr _ (Replays_mkdirAll _ _))
    (fun _ => Replays_fetchNetworkConfigLoop _ _ _ _)

/-- A computation that looks at the target before it writes need not leave on a second run
what it left on the first: replaying is a property of the gatherer, not of every
computation. -/
theorem writeOnceThenMark_second_run_differs :
    (writeOnceThenMark "/x" (writeOnceThenMark "/x" (fun _ => none)).2).2 "/x" ≠
      (writeOnceThenMark "/x" (fun _ => none)).2 "/x" := by
  decide

end OnDisk

/-- C13: for every cluster, every host and every initial content of the target, a second
run of FetchClusterConfig against the unchanged cluster returns what the first run returned
and leaves exactly the folders, files and file contents the first run left. -/
theorem C13_second_run_leaves_the_same_files (env : Env) (host : HostFiles) (dir : String)
    (fs : TargetDir) :
    OnDisk.FetchClusterConfig env host dir (OnDisk.FetchClusterConfig env host dir fs).2 =
      OnDisk.FetchClusterConfig env host dir fs := by
  have h : Replays (OnDisk.FetchClusterConfig env host dir) := by
    unfold OnDisk.FetchClusterConfig
    exact Replays_bind (OnDisk.Replays_configDir env dir) (fun clusterConfigPath =>
      Replays_bind (OnDisk.Replays_fetchProxy env _) (fun _ =>
        Replays_bind (OnDisk.Replays_fetchIDMS env _) (fun _ =>
          Replays_bind (OnDisk.Replays_fetchClusterInfo env clusterConfigPath) (fun _ =>
            Replays_bind (OnDisk.Replays_fetchCABundle env host _ clusterConfigPath) (fun _ =>
              Replays_bind (OnDisk.Replays_fetchICSPs env _) (fun _ =>
                OnDisk.Replays_fetchNetworkConfig env host dir))))))
  exact h.second_run fs

/-- C13 on the example cluster: the first run succeeds, replaces the stale descriptor, copies
the host files into folders it creates and keeps the foreign file, with the result the
call trace gives; the second run returns the same and leaves all of it as it is. -/
theorem C13_witness :
    isError (OnDisk.FetchClusterConfig exEnv exHost "/var" exTarget).1 = false ∧
    (OnDisk.FetchClusterConfig exEnv exHost "/var" exTarget).2
        "/var/opt/openshift/cluster-configuration/manifest.json" =
      some (.file (.json (.seedReconfiguration c12Descriptor))) ∧
    (OnDisk.FetchClusterConfig exEnv exHost "/var" exTarget).2
        "/var/opt/openshift/network-configuration/system-connections/eth0.nmconnection" =
      some (.file (.raw "[connection]")) ∧
    (OnDisk.FetchClusterConfig exEnv exHost "/var" exTarget).2
        "/var/opt/openshift/network-configuration/system-connections" = some .dir ∧
    (OnDisk.FetchClusterConfig exEnv exHost "/var" exTarget).2
        "/var/opt/openshift/cluster-configuration/tls-ca-bundle.pem" =
      some (.file (.raw "PEM")) ∧
    (OnDisk.FetchClusterConfig exEnv exHost "/var" exTarget).2 "/var/opt/openshift/other" =
      some (.file (.raw "kept")) ∧
    (OnDisk.FetchClusterConfig exEnv exHost "/var" exTarget).1 =
      (FetchClusterConfig exEnv "/var").run.1 ∧
    OnDisk.FetchClusterConfig exEnv exHost "/var"
        (OnDisk.FetchClusterConfig exEnv exHost "/var" exTarget).2 =
      OnDisk.FetchClusterConfig exEnv exHost "/var" exTarget :=
  ⟨by decide, by decide, by decide, by decide, by decide, by decide, rfl,
    C13_second_run_leaves_the_same_files exEnv exHost "/var" exTarget⟩

/-- What the target holds decides the run: with a folder in the place of the proxy manifest
the first run fails at the proxy, after the folders were created and before the descriptor
is written; the stale descriptor is still there. -/
theorem FetchClusterConfig_on_blocked_target :
    (OnDisk.FetchClusterConfig exEnv exHost "/var" exTargetBlocked).1 =
      .error (.other
        "open /var/opt/openshift/cluster-configuration/manifests/proxy.json: is a directory") ∧
    (OnDisk.FetchClusterConfig exEnv exHost "/var" exTargetBlocked).2
        "/var/opt/openshift/cluster-configuration/manifests" = some .dir ∧
    (OnDisk.FetchClusterConfig exEnv exHost "/var" exTargetBlocked).2
        "/var/opt/openshift/cluster-configuration/manifest.json" =
      some (.file (.raw "stale")) :=
  ⟨rfl, by decide, by decide⟩

theorem mem_validateUpdate (oldSelf self : ImageBasedUpgrade) (m : String) :
    m ∈ validateUpdate oldSelf self ↔
      (m = "can not change spec.seedImageRef while ibu is in progress" ∧
        ruleSeedImageRef oldSelf self = false) ∨
      (m = "can not change spec.oadpContent while ibu is in progress" ∧
        ruleOadpContent oldSelf self = false) ∨
      (m = "can not change spec.extraManifests while ibu is in progress" ∧
        ruleExtraManifests oldSelf self = false) ∨
      (m = "can not change spec.autoRollbackOnFailure while ibu is in progress" ∧
        ruleAutoRollbackOnFailure oldSelf self = false) := by
  unfold validateUpdate xValidations
  cases h1 : ruleSeedImageRef oldSelf self <;> cases h2 : ruleOadpContent oldSelf self <;>
    cases h3 : ruleExtraManifests oldSelf self <;>
    cases h4 : ruleAutoRollbackOnFailure oldSelf self <;>
    simp [List.filter, h1, h2, h3, h4]

theorem immutableRule_changed_of_false {α : Type} [DecidableEq α]
    (f : ImageBasedUpgradeSpec → Option α) (oldSelf self : ImageBasedUpgrade)
    (h : immutableRule f oldSelf self = false) : f oldSelf.spec ≠ f self.spec := by
  intro heq
  rw [immutableRule_of_unchanged f oldSelf self heq] at h
  cases h

theorem immutableRule_congr {α : Type} [DecidableEq α] (f : ImageBasedUpgradeSpec → Option α)
    (old1 self1 oldSelf self : ImageBasedUpgrade)
    (hs : old1.status.isSome = oldSelf.status.isSome)
    (hc : conditionsOf old1 = conditionsOf oldSelf)
    (ho : f old1.spec = f oldSelf.spec) (hn : f self1.spec = f self.spec) :
    immutableRule f old1 self1 = immutableRule f oldSelf self := by
  have hi : idleTrueExists old1 = idleTrueExists oldSelf := by
    unfold idleTrueExists
    unfold conditionsOf at hc
    cases h1 : old1.status <;> cases h2 : oldSelf.status <;> simp_all
  unfold immutableRule
  rw [hs, hi, ho, hn]

/-! ### C14 -/

/-- C14: the messages of a rejection are exactly the messages of the rules that fail, each
rule under the message naming the field it compares; a rule fails only when its own field
differs between the old and the new spec, so no message names a field that did not change;
and the verdict of each rule is determined by whether the previous state has a status, by
its conditions, and by the rule's own field in the old and the new spec. -/
theorem C14_rejection_message_names_own_field (oldSelf self : ImageBasedUpgrade) :
    (∀ m, m ∈ validateUpdate oldSelf self ↔
      (m = "can not change spec.seedImageRef while ibu is in progress" ∧
        ruleSeedImageRef oldSelf self = false) ∨
      (m = "can not change spec.oadpContent while ibu is in progress" ∧
        ruleOadpContent oldSelf self = false) ∨
      (m = "can not change spec.extraManifests while ibu is in progress" ∧
        ruleExtraManifests oldSelf self = false) ∨
      (m = "can not change spec.autoRollbackOnFailure while ibu is in progress" ∧
        ruleAutoRollbackOnFailure oldSelf self = false)) ∧
    (("can not change spec.seedImageRef while ibu is in progress" ∈ validateUpdate oldSelf self →
        oldSelf.spec.seedImageRef ≠ self.spec.seedImageRef) ∧
      ("can not change spec.oadpContent while ibu is in progress" ∈ validateUpdate oldSelf self →
        oldSelf.spec.oadpContent ≠ self.spec.oadpContent) ∧
      ("can not change spec.extraManifests while ibu is in progress" ∈ validateUpdate oldSelf self →
        oldSelf.spec.extraManifests ≠ self.spec.extraManifests) ∧
      ("can not change spec.autoRollbackOnFailure while ibu is in progress" ∈
          validateUpdate oldSelf self →
        oldSelf.spec.autoRollbackOnFailure ≠ self.spec.autoRollbackOnFailure)) ∧
    (∀ old1 self1 : ImageBasedUpgrade, old1.status.isSome = oldSelf.status.isSome →
      conditionsOf old1 = conditionsOf oldSelf →
      (old1.spec.seedImageRef = oldSelf.spec.seedImageRef →
        self1.spec.seedImageRef = self.spec.seedImageRef →
        ruleSeedImageRef old1 self1 = ruleSeedImageRef oldSelf self) ∧
      (old1.spec.oadpContent = oldSelf.spec.oadpContent →
        self1.spec.oadpContent = self.spec.oadpContent →
        ruleOadpContent old1 self1 = ruleOadpContent oldSelf self) ∧
      (old1.spec.extraManifests = oldSelf.spec.extraManifests →
        self1.spec.extraManifests = self.spec.extraManifests →
        ruleExtraManifests old1 self1 = ruleExtraManifests oldSelf self) ∧
      (old1.spec.autoRollbackOnFailure = oldSelf.spec.autoRollbackOnFailure →
        self1.spec.autoRollbackOnFailure = self.spec.autoRollbackOnFailure →
        ruleAutoRollbackOnFailure old1 self1 = ruleAutoRollbackOnFailure oldSelf self)) := by
  refine ⟨mem_validateUpdate oldSelf self, ⟨?_, ?_, ?_, ?_⟩, ?_⟩
  · intro h
    have h1 := (mem_validateUpdate oldSelf self _).mp h
    simp at h1
    exact immutableRule_changed_of_false _ _ _ h1
  · intro h
    have h1 := (mem_validateUpdate oldSelf self _).mp h
    simp at h1
    exact immutableRule_changed_of_false _ _ _ h1
  · intro h
    have h1 := (mem_validateUpdate oldSelf self _).mp h
    simp at h1
    exact immutableRule_changed_of_false _ _ _ h1
  · intro h
    have h1 := (mem_validateUpdate oldSelf self _).mp h
    simp at h1
    exact immutableRule_changed_of_false _ _ _ h1
  · intro old1 self1 hs hc
    exact ⟨immutableRule_congr _ _ _ _ _ hs hc, immutableRule_congr _ _ _ _ _ hs hc,
      immutableRule_congr _ _ _ _ _ hs hc, immutableRule_congr _ _ _ _ _ hs hc⟩

/-- C14 witness: while Prep runs, an update that changes the seed image and the OADP content
is rejected with the two messages naming these fields, in rule order, and no other. -/
theorem C14_witness :
    validateUpdate c1OldBusy c14New =
      [ "can not change spec.seedImageRef while ibu is in progress",
        "can not change spec.oadpContent while ibu is in progress" ] ∧
    c1OldBusy.spec.seedImageRef ≠ c14New.spec.seedImageRef ∧
    c1OldBusy.spec.oadpContent ≠ c14New.spec.oadpContent :=
  ⟨by decide,
    (C14_rejection_message_names_own_field c1OldBusy c14New).2.1.1 (by decide),
    (C14_rejection_message_names_own_field c1OldBusy c14New).2.1.2.1 (by decide)⟩

/-! ### C15 -/

/-- C15: typeMetaForObject returns the scheme's error when the lookup fails; it returns an
error when the lookup succeeds but reports the object as unversioned or returns no
group-version-kind; otherwise it returns the TypeMeta whose kind is the kind of the last
group-version-kind the scheme returned and whose apiVersion is its group/version. -/
theorem C15_type_meta_of_last_kind (scheme : GoType → ObjectKinds) (o : GoType) :
    (∀ err, (scheme o).err = some err → typeMetaForObject scheme o = .error err) ∧
    ((scheme o).err = none → ((scheme o).unversioned = true ∨ (scheme o).gvks = []) →
      isError (typeMetaForObject scheme o) = true) ∧
    (∀ h : (scheme o).gvks ≠ [], (scheme o).err = none → (scheme o).unversioned = false →
      typeMetaForObject scheme o =
        .ok { kind := ((scheme o).gvks.getLast h).kind,
              apiVersion := ((scheme o).gvks.getLast h).groupVersionString }) := by
  refine ⟨?_, ?_, ?_⟩
  · intro err h
    simp [typeMetaForObject, h]
  · intro h hor
    rcases hor with h1 | h1 <;> simp [typeMetaForObject, h, h1, isError]
  · intro hne herr hunv
    have hlen : ¬ (scheme o).gvks.length = 0 := by
      intro h0
      exact hne (List.length_eq_zero.mp h0)
    simp [typeMetaForObject, herr, hunv, hlen, List.getLast?_eq_getLast _ hne]

/-- C15 witness: with two registered versions the last one wins; an unversioned type and a
type without registration are errors. -/
theorem C15_witness :
    typeMetaForObject c15Scheme .Proxy =
      .ok { kind := "Proxy", apiVersion := "config.openshift.io/v2" } ∧
    typeMetaForObject c15Scheme .ConfigMap = .ok { kind := "ConfigMap", apiVersion := "v1" } ∧
    isError (typeMetaForObject c15Scheme .ImageDigestMirrorSet) = true ∧
    isError (typeMetaForObject c15Scheme .ImageDigestMirrorSetList) = true ∧
    typeMetaForObject c15Scheme .ImageContentSourcePolicy =
      .error (.other "no kind is registered for the type") :=
  ⟨(C15_type_meta_of_last_kind c15Scheme .Proxy).2.2 (by decide) rfl rfl,
    rfl,
    (C15_type_meta_of_last_kind c15Scheme .ImageDigestMirrorSet).2.1 rfl (Or.inl rfl),
    (C15_type_meta_of_last_kind c15Scheme .ImageDigestMirrorSetList).2.1 rfl (Or.inr rfl),
    (C15_type_meta_of_last_kind c15Scheme .ImageContentSourcePolicy).1 _ rfl⟩

theorem splitOnSlash_ne_nil (l : List Char) : splitOnSlash l ≠ [] := by
  cases l with
  | nil => simp [splitOnSlash]
  | cons c cs =>
    unfold splitOnSlash
    split
    · simp
    · cases splitOnSlash cs <;> simp

theorem splitOnSlash_of_no_slash (l : List Char) (h : '/' ∉ l) : splitOnSlash l = [l] := by
  induction l with
  | nil => rfl
  | cons c cs ih =>
    have hc : c ≠ '/' := fun e => h (e ▸ List.mem_cons_self _ _)
    have hcs : '/' ∉ cs := fun e => h (List.mem_cons_of_mem _ e)
    simp [splitOnSlash, hc, ih hcs]

theorem splitOnSlash_append (d r : List Char) (h : '/' ∉ d) :
    splitOnSlash (d ++ '/' :: r) = d :: splitOnSlash r := by
  induction d with
  | nil => simp [splitOnSlash]
  | cons c cs ih =>
    have hc : c ≠ '/' := fun e => h (e ▸ List.mem_cons_self _ _)
    have hcs : '/' ∉ cs := fun e => h (List.mem_cons_of_mem _ e)
    simp [splitOnSlash, hc, ih hcs]

theorem splitOnSlash_length (l : List Char) :
    1 < (splitOnSlash l).length ↔ '/' ∈ l := by
  induction l with
  | nil => simp [splitOnSlash]
  | cons c cs ih =>
    by_cases hc : c = '/'
    · subst hc
      have := splitOnSlash_ne_nil cs
      simp [splitOnSlash]
      exact List.length_pos.mpr this
    · have hne := splitOnSlash_ne_nil cs
      have hc2 : ¬ '/' = c := fun e => hc e.symm
      cases hs : splitOnSlash cs with
      | nil => exact absurd hs hne
      | cons p ps =>
        rw [hs] at ih
        simp [splitOnSlash, hc, hs, hc2]
        simpa using ih

theorem intercalate_splitOnSlash (l : List Char) :
    List.intercalate ['/'] (splitOnSlash l) = l := by
  induction l with
  | nil => rfl
  | cons c cs ih =>
    have hne := splitOnSlash_ne_nil cs
    by_cases hc : c = '/'
    · subst hc
      cases hs : splitOnSlash cs with
      | nil => exact absurd hs hne
      | cons p ps =>
        rw [hs] at ih
        simp [splitOnSlash, hs, List.intercalate, List.intersperse] at ih ⊢
        exact ih
    · cases hs : splitOnSlash cs with
      | nil => exact absurd hs hne
      | cons p ps =>
        rw [hs] at ih
        cases ps with
        | nil =>
          simp [splitOnSlash, hc, hs, List.intercalate, List.intersperse] at ih ⊢
          exact ih
        | cons q qs =>
          simp [splitOnSlash, hc, hs, List.intercalate, List.intersperse] at ih ⊢
          exact ih

theorem String_intercalate_go_data (acc : String) (l : List (List Char)) :
    (String.intercalate.go acc "/" (l.map String.mk)).data =
      acc.data ++ (l.map (fun p => '/' :: p)).flatten := by
  induction l generalizing acc with
  | nil => simp [String.intercalate.go]
  | cons p ps ih =>
    simp [String.intercalate.go, ih]

theorem String_intercalate_mk (l : List (List Char)) :
    ("/".intercalate (l.map String.mk)).data = List.intercalate ['/'] l := by
  cases l with
  | nil => rfl
  | cons p ps =>
    simp only [List.map_cons, String.intercalate, String_intercalate_go_data]
    induction ps generalizing p with
    | nil => simp [List.intercalate, List.intersperse]
    | cons q qs ih =>
      have := ih q
      simp [List.intercalate, List.intersperse] at this ⊢
      exact this
theorem filepathJoin_split_of_relative (rest : String) (hne : rest ≠ "")
    (hrel : rest.toList.head? ≠ some '/') :
    filepathJoin ((splitOnSlash rest.toList).map String.mk) = filepathClean rest := by
  have hdata : rest.data ≠ [] := by
    intro h
    apply hne
    exact String.ext h
  cases hr : rest.data with
  | nil => exact absurd hr hdata
  | cons c cs =>
    have hc : c ≠ '/' := by
      intro e
      apply hrel
      simp [String.toList, hr, e]
    have hne2 := splitOnSlash_ne_nil cs
    have hjoin : "/".intercalate ((splitOnSlash rest.toList).map String.mk) = rest := by
      apply String.ext
      rw [String_intercalate_mk, intercalate_splitOnSlash]
      rfl
    cases hs : splitOnSlash cs with
    | nil => exact absurd hs hne2
    | cons p ps =>
      have hsplit : splitOnSlash rest.toList = (c :: p) :: ps := by
        simp [String.toList, hr, splitOnSlash, hc, hs]
      rw [hsplit] at hjoin ⊢
      have hhead : String.mk (c :: p) ≠ "" := by
        intro e
        have := congrArg String.data e
        simp at this
      simp only [filepathJoin, List.map_cons, List.dropWhile, hhead, decide_False]
      rw [← List.map_cons, hjoin]

/-! ### C16 -/

/-- C16: a path splits into more than one part exactly when it contains a separator. For
such a path removeFirstDirectory returns the parts after the first joined by filepath.Join;
for d/rest with d a non-empty name without separator and rest a clean relative path, the
result is rest. A path without separator is returned unchanged. -/
theorem C16_removeFirstDirectory_drops_first_part :
    (∀ path : String, 1 < (stringsSplitSeparator path).length ↔ '/' ∈ path.toList) ∧
    (∀ path : String, 1 < (stringsSplitSeparator path).length →
      removeFirstDirectory path = filepathJoin ((stringsSplitSeparator path).drop 1)) ∧
    (∀ d rest : String, d ≠ "" → '/' ∉ d.toList → isCleanRelative rest →
      removeFirstDirectory (d ++ "/" ++ rest) = rest) ∧
    (∀ path : String, '/' ∉ path.toList → removeFirstDirectory path = path) := by
  refine ⟨?_, ?_, ?_, ?_⟩
  · intro path
    simp [stringsSplitSeparator, splitOnSlash_length]
  · intro path h
    simp [removeFirstDirectory, h]
  · intro d rest _ hd hrest
    obtain ⟨hclean, hrel⟩ := hrest
    have hne : rest ≠ "" := by
      intro e
      rw [e] at hclean
      exact absurd hclean (by decide)
    have hsplit : stringsSplitSeparator (d ++ "/" ++ rest) =
        String.mk d.toList :: (splitOnSlash rest.toList).map String.mk := by
      have : (d ++ "/" ++ rest).toList = d.toList ++ '/' :: rest.toList := by
        simp [String.toList]
      rw [stringsSplitSeparator, this, splitOnSlash_append _ _ hd]
      rfl
    have hlen : 1 < (stringsSplitSeparator (d ++ "/" ++ rest)).length := by
      rw [hsplit]
      have := List.length_pos.mpr (splitOnSlash_ne_nil rest.toList)
      simp
      exact this
    simp only [removeFirstDirectory, hlen, if_true]
    rw [hsplit, List.drop_one, List.tail_cons, filepathJoin_split_of_relative rest hne hrel, hclean]
  · intro path h
    have hlen : ¬ 1 < (stringsSplitSeparator path).length := by
      rw [stringsSplitSeparator, splitOnSlash_of_no_slash _ h]
      simp
    simp [removeFirstDirectory, hlen]

/-- C16 witness: work/butaneFiles/pullSecret loses its first directory, a file name alone is
returned as it is. -/
theorem C16_witness :
    removeFirstDirectory ("work" ++ "/" ++ "butaneFiles/pullSecret") = "butaneFiles/pullSecret" ∧
    removeFirstDirectory "config.bu" = "config.bu" ∧
    removeFirstDirectory "a/../b" = filepathJoin ["..", "b"] :=
  ⟨C16_removeFirstDirectory_drops_first_part.2.2.1 "work" "butaneFiles/pullSecret" (by decide)
      (by decide) ⟨by decide, by decide⟩,
    C16_removeFirstDirectory_drops_first_part.2.2.2 "config.bu" (by decide),
    C16_removeFirstDirectory_drops_first_part.2.1 "a/../b" (by decide)⟩

theorem eq_of_sameField {α : Type} (old new : Option α) (h : sameField old new) : old = new := by
  rcases h with ⟨h1, h2⟩ | ⟨v, h1, h2⟩ <;> rw [h1, h2]

theorem validateUpdate_eq_nil (oldSelf self : ImageBasedUpgrade) :
    validateUpdate oldSelf self = [] ↔ updateRejected oldSelf self = false := by
  unfold updateRejected
  cases validateUpdate oldSelf self <;> simp

theorem updateRejected_of_unchanged (oldSelf self : ImageBasedUpgrade)
    (h1 : oldSelf.spec.seedImageRef = self.spec.seedImageRef)
    (h2 : oldSelf.spec.oadpContent = self.spec.oadpContent)
    (h3 : oldSelf.spec.extraManifests = self.spec.extraManifests)
    (h4 : oldSelf.spec.autoRollbackOnFailure = self.spec.autoRollbackOnFailure) :
    updateRejected oldSelf self = false := by
  rw [updateRejected_eq]
  simp [ruleSeedImageRef, ruleOadpContent, ruleExtraManifests, ruleAutoRollbackOnFailure,
    immutableRule_of_unchanged _ _ _ h1, immutableRule_of_unchanged _ _ _ h2,
    immutableRule_of_unchanged _ _ _ h3, immutableRule_of_unchanged _ _ _ h4]

/-! ### C17 -/

/-- C17: for every previous state (with or without status, whatever its conditions) and
every update in which seedImageRef, oadpContent, extraManifests and autoRollbackOnFailure
are each absent in both specs or present in both with equal values, each of the four rules
holds and the update is not rejected; in particular an update that changes only spec.stage
is never rejected by these rules. -/
theorem C17_unchanged_fields_are_never_rejected (oldSelf : ImageBasedUpgrade) :
    (∀ self : ImageBasedUpgrade,
      sameField oldSelf.spec.seedImageRef self.spec.seedImageRef →
      sameField oldSelf.spec.oadpContent self.spec.oadpContent →
      sameField oldSelf.spec.extraManifests self.spec.extraManifests →
      sameField oldSelf.spec.autoRollbackOnFailure self.spec.autoRollbackOnFailure →
      ruleSeedImageRef oldSelf self = true ∧ ruleOadpContent oldSelf self = true ∧
      ruleExtraManifests oldSelf self = true ∧ ruleAutoRollbackOnFailure oldSelf self = true ∧
      validateUpdate oldSelf self = [] ∧ updateRejected oldSelf self = false) ∧
    (∀ req : String, validateUpdate oldSelf (requestStage oldSelf req) = [] ∧
      updateRejected oldSelf (requestStage oldSelf req) = false) := by
  constructor
  · intro self h1 h2 h3 h4
    have e1 := eq_of_sameField _ _ h1
    have e2 := eq_of_sameField _ _ h2
    have e3 := eq_of_sameField _ _ h3
    have e4 := eq_of_sameField _ _ h4
    have hr := updateRejected_of_unchanged oldSelf self e1 e2 e3 e4
    exact ⟨immutableRule_of_unchanged _ _ _ e1, immutableRule_of_unchanged _ _ _ e2,
      immutableRule_of_unchanged _ _ _ e3, immutableRule_of_unchanged _ _ _ e4,
      (validateUpdate_eq_nil _ _).mpr hr, hr⟩
  · intro req
    have hr := updateRejected_requestStage oldSelf req
    exact ⟨(validateUpdate_eq_nil _ _).mpr hr, hr⟩

/-- C17 witness: while Prep runs (Idle=False), moving the stage to Upgrade with the seed
image untouched is not rejected. -/
theorem C17_witness :
    latestIdleNotTrue c1OldBusy = true ∧
    (requestStage c1OldBusy "Upgrade").spec.stage = some "Upgrade" ∧
    validateUpdate c1OldBusy (requestStage c1OldBusy "Upgrade") = [] ∧
    updateRejected c1OldBusy (requestStage c1OldBusy "Upgrade") = false ∧
    ruleSeedImageRef c1OldBusy (requestStage c1OldBusy "Upgrade") = true :=
  ⟨by decide, rfl, ((C17_unchanged_fields_are_never_rejected c1OldBusy).2 "Upgrade").1,
    ((C17_unchanged_fields_are_never_rejected c1OldBusy).2 "Upgrade").2,
    ((C17_unchanged_fields_are_never_rejected c1OldBusy).1 (requestStage c1OldBusy "Upgrade")
      (Or.inr ⟨_, rfl, rfl⟩) (Or.inl ⟨rfl, rfl⟩) (Or.inl ⟨rfl, rfl⟩) (Or.inl ⟨rfl, rfl⟩)).1⟩

/-! ### C18 -/

/-- C18 (the code on four work directories): the three files are copied below the work
directory into butaneFiles, and the template data gets their paths with the first path
element removed. For the work directory `work` that is butaneFiles/backupSecret,
butaneFiles/pullSecret and butaneFiles/seedInstallScript; for /tmp/work it is
tmp/work/butaneFiles/..., for a/b it is b/butaneFiles/..., and for `.` it is the bare file
name. -/
theorem C18_template_paths_lose_only_first_element :
    ((c18After "work").files.lookup "work/butaneFiles/backupSecret" = some "AUTH" ∧
      (c18After "work").renderedLocalFiles =
        [("butaneFiles/backupSecret", "butaneFiles/pullSecret", "butaneFiles/seedInstallScript")]) ∧
    ((c18After "/tmp/work").files.lookup "/tmp/work/butaneFiles/backupSecret" = some "AUTH" ∧
      (c18After "/tmp/work").files.lookup "/tmp/work/butaneFiles/pullSecret" = some "PULL" ∧
      (c18After "/tmp/work").files.lookup "/tmp/work/butaneFiles/seedInstallScript" =
        some "#!/bin/bash" ∧
      (c18After "/tmp/work").renderedLocalFiles =
        [("tmp/work/butaneFiles/backupSecret", "tmp/work/butaneFiles/pullSecret",
          "tmp/work/butaneFiles/seedInstallScript")]) ∧
    ((c18After "a/b").files.lookup "a/b/butaneFiles/backupSecret" = some "AUTH" ∧
      (c18After "a/b").renderedLocalFiles =
        [("b/butaneFiles/backupSecret", "b/butaneFiles/pullSecret",
          "b/butaneFiles/seedInstallScript")]) ∧
    ((c18After ".").files.lookup "butaneFiles/backupSecret" = some "AUTH" ∧
      (c18After ".").renderedLocalFiles = [("backupSecret", "pullSecret", "seedInstallScript")]) := by
  decide

theorem downloadLiveIso_after_failure (env : IsoEnv) (workDir url : String) (w : IsoWorld)
    (hnew : w.pathExists (pathJoin [workDir, rhcosIsoFileName]) = false)
    (hcreate : env.createErr (pathJoin [workDir, rhcosIsoFileName]) = none)
    (hfail : (∃ e, env.httpGet url = .error e) ∨
      (∃ resp, env.httpGet url = .ok resp ∧ resp.statusCode ≠ 200)) :
    downloadLiveIso env workDir url w =
      ((downloadLiveIso env workDir url w).1,
        { w with files := (pathJoin [workDir, rhcosIsoFileName], "") :: w.files,
                 requests := w.requests ++ [url] }) ∧
    isError (downloadLiveIso env workDir url w).1 = true := by
  rcases hfail with ⟨e, he⟩ | ⟨resp, hr, hs⟩
  · simp [downloadLiveIso, hnew, osCreate, hcreate, he, IsoWorld.write, isError]
  · simp [downloadLiveIso, hnew, osCreate, hcreate, hr, hs, IsoWorld.write, isError]

/-! ### C19 -/

/-- C19 (what the code does): when no live ISO exists, the file can be created and the HTTP
request fails or answers with a status other than 200, downloadLiveIso returns an error and
leaves an empty live ISO file in the work directory; a second call with the same work
directory finds it, returns success and sends no request. -/
theorem C19_failed_download_leaves_empty_iso (env : IsoEnv) (workDir url : String)
    (w : IsoWorld)
    (hnew : w.pathExists (pathJoin [workDir, rhcosIsoFileName]) = false)
    (hcreate : env.createErr (pathJoin [workDir, rhcosIsoFileName]) = none)
    (hfail : (∃ e, env.httpGet url = .error e) ∨
      (∃ resp, env.httpGet url = .ok resp ∧ resp.statusCode ≠ 200)) :
    isError (downloadLiveIso env workDir url w).1 = true ∧
    (downloadLiveIso env workDir url w).2.files.lookup (pathJoin [workDir, rhcosIsoFileName]) =
      some "" ∧
    (downloadLiveIso env workDir url w).2.pathExists (pathJoin [workDir, rhcosIsoFileName]) =
      true ∧
    (downloadLiveIso env workDir url w).2.requests = w.requests ++ [url] ∧
    downloadLiveIso env workDir url (downloadLiveIso env workDir url w).2 =
      (.ok (), (downloadLiveIso env workDir url w).2) := by
  obtain ⟨h1, h2⟩ := downloadLiveIso_after_failure env workDir url w hnew hcreate hfail
  have hex : (downloadLiveIso env workDir url w).2.pathExists
      (pathJoin [workDir, rhcosIsoFileName]) = true := by
    rw [h1]
    simp [IsoWorld.pathExists, List.lookup]
  refine ⟨h2, ?_, hex, ?_, ?_⟩
  · rw [h1]
    simp [List.lookup]
  · rw [h1]
  · generalize downloadLiveIso env workDir url w = r at hex
    simp [downloadLiveIso, hex]

/-- C19 witness: the server answers 404; the first call fails and leaves an empty
rhcos-live.x86_64.iso, the second call returns success with the one request of the first
call as the only request. -/
theorem C19_witness :
    (downloadLiveIso isoEnv404 "/tmp/work" "https://mirror/rhcos.iso" isoWorldSecrets).1 =
      .error (.other "failed to download ISO from URL, status: 404 Not Found") ∧
    isError (downloadLiveIso isoEnv404 "/tmp/work" "https://mirror/rhcos.iso" isoWorldSecrets).1 =
      true ∧
    (downloadLiveIso isoEnv404 "/tmp/work" "https://mirror/rhcos.iso"
      isoWorldSecrets).2.files.lookup "/tmp/work/rhcos-live.x86_64.iso" = some "" ∧
    (downloadLiveIso isoEnv404 "/tmp/work" "https://mirror/rhcos.iso"
      (downloadLiveIso isoEnv404 "/tmp/work" "https://mirror/rhcos.iso" isoWorldSecrets).2) =
      (.ok (), { isoWorldSecrets with
        files := ("/tmp/work/rhcos-live.x86_64.iso", "") :: isoWorldSecrets.files,
        requests := ["https://mirror/rhcos.iso"] }) :=
  have h := C19_failed_download_leaves_empty_iso isoEnv404 "/tmp/work" "https://mirror/rhcos.iso"
    isoWorldSecrets (by decide) rfl (Or.inr ⟨_, rfl, by decide⟩)
  ⟨rfl, h.1, h.2.1, h.2.2.2.2.trans rfl⟩

end LCA
